import Mathlib

/-!
# Meter and slider widgets: value/angle mapping, invalidation and knob dragging

A shallow embedding of `src/widgets/meter/lv_meter.c` and
`src/widgets/slider/lv_slider.c`.

Conventions of the embedding

* `int32_t` values are integers; every `int32_t` operation whose result can leave the
  32-bit range is followed by `wrap32` (two's-complement wrap-around).
* Pixel coordinates (`lv_coord_t`) are integers; the typedef is declared outside these
  two files and no width is assumed for it.
* `/` of C is `cdiv` (truncation toward zero).  A division by zero has no value: the
  functions that can evaluate one return `Option`.
* Functions, macros and constants that the two files use but do not define are either
  fields of an `..._ext_t` record of external collaborators or carry a doc comment that
  starts with "Modelled from the spec:".
-/

namespace Lvgl

/-! ## Machine arithmetic -/

/-- Conversion of an integer to `int32_t`: reduction modulo `2^32` into
`[-2^31, 2^31)`. -/
def wrap32 (x : Int) : Int := (x + 2147483648) % 4294967296 - 2147483648

/-- Conversion of an integer to `uint16_t`. -/
def wrapU16 (x : Int) : Int := x % 65536

/-- Conversion of an integer to `uint32_t`. -/
def wrapU32 (x : Int) : Int := x % 4294967296

/-- The `/` operator of C on integers: the quotient is truncated toward zero. -/
def cdiv (a b : Int) : Int := Int.tdiv a b

/-- Modelled from the spec: the macro `LV_MIN` of `lv_math.h`, the smaller of two values. -/
def LV_MIN (a b : Int) : Int := if a < b then a else b

/-- Modelled from the spec: the macro `LV_MAX` of `lv_math.h`, the larger of two values. -/
def LV_MAX (a b : Int) : Int := if a > b then a else b

/-- Modelled from the spec: the macro `LV_ABS` of `lv_math.h`, the absolute value. -/
def LV_ABS (x : Int) : Int := if x > 0 then x else -x

/-- Modelled from the spec: the macro `LV_CLAMP` of `lv_math.h` ("clamp the result to the
legal sub-range"): `val` limited from above by `max`, then from below by `min`. -/
def LV_CLAMP (min val max : Int) : Int := LV_MAX min (LV_MIN val max)

/-- Modelled from the spec: `lv_map` of `lv_math.c`, which is not among the sources.
Section 4.2 gives `out = min_out + (x - min_in) * (max_out - min_out) / (max_in - min_in)`
as an integer (truncating) linear interpolation that saturates for `x` outside
`[min_in, max_in]`.  The call sites pass and receive `int32_t`, so every intermediate
result is an `int32_t`. -/
def lv_map (x min_in max_in min_out max_out : Int) : Int :=
  if x ≥ max_in then max_out
  else if x ≤ min_in then min_out
  else
    let delta_in := wrap32 (max_in - min_in)
    let delta_out := wrap32 (max_out - min_out)
    wrap32 (cdiv (wrap32 (wrap32 (x - min_in) * delta_out)) delta_in + min_out)

/-! ## Meter: data model -/

/-- An `lv_color_t`: three colour channels. -/
structure lv_color_t where
  red : Nat
  green : Nat
  blue : Nat
  deriving DecidableEq, Repr

/-- An `lv_point_t`. -/
structure lv_point_t where
  x : Int
  y : Int
  deriving DecidableEq, Repr

/-- An `lv_area_t`: a rectangle given by its two corners. -/
structure lv_area_t where
  x1 : Int
  y1 : Int
  x2 : Int
  y2 : Int
  deriving DecidableEq, Repr

/-- The scale of a meter (`meter->scale`), with the fields the two passes and the
setters of `lv_meter.c` read and write. -/
structure lv_meter_scale_t where
  tick_color : lv_color_t
  tick_cnt : Nat
  tick_length : Nat
  tick_width : Nat
  tick_major_color : lv_color_t
  tick_major_nth : Nat
  tick_major_length : Nat
  tick_major_width : Nat
  label_gap : Int
  min : Int
  max : Int
  r_mod : Int
  angle_range : Nat
  rotation : Nat
  deriving DecidableEq, Repr

/-- The scale of a freshly allocated (zero-filled) meter object. -/
def zero_scale : lv_meter_scale_t :=
  { tick_color := ⟨0, 0, 0⟩, tick_cnt := 0, tick_length := 0, tick_width := 0,
    tick_major_color := ⟨0, 0, 0⟩, tick_major_nth := 0, tick_major_length := 0,
    tick_major_width := 0, label_gap := 0, min := 0, max := 0, r_mod := 0,
    angle_range := 0, rotation := 0 }

/-- The scale part of `lv_meter_constructor`. -/
def lv_meter_constructor_scale (scale : lv_meter_scale_t) : lv_meter_scale_t :=
  let s1 := { scale with angle_range := 270 }
  let s2 := { s1 with rotation := 90 + (360 - s1.angle_range) / 2 }
  { s2 with min := 0, max := 100, tick_cnt := 6, tick_length := 8, tick_width := 2,
            label_gap := 2 }

/-- The value-to-angle mapping of the meter: the call
`lv_map(value, scale.min, scale.max, scale.rotation, scale.rotation + scale.angle_range)`
made by `draw_arcs`, `draw_needles`, `inv_arc` and `inv_line`.  The two unsigned
arguments are converted to the `int32_t` parameters of `lv_map`. -/
def map_to_angle (scale : lv_meter_scale_t) (value : Int) : Int :=
  lv_map value scale.min scale.max (wrap32 scale.rotation)
    (wrap32 (scale.rotation + scale.angle_range))

/-- A scale on which the interpolation overflows: the default scale with the range
`[0, 100000000]`. -/
def wide_scale : lv_meter_scale_t :=
  { lv_meter_constructor_scale zero_scale with max := 100000000 }

/-! ## Meter: indicators -/

/-- The tag of an indicator (`indic->type`). -/
inductive lv_meter_indicator_type_t where
  | NEEDLE_IMG
  | NEEDLE_LINE
  | SCALE_LINES
  | ARC
  deriving DecidableEq, Repr

/-- Member `needle_img` of `type_data`; `src = none` is the null pointer. -/
structure needle_img_t where
  src : Option Nat
  pivot : lv_point_t
  deriving DecidableEq, Repr

/-- Member `needle_line` of `type_data`. -/
structure needle_line_t where
  width : Nat
  r_mod : Int
  color : lv_color_t
  deriving DecidableEq, Repr

/-- Member `arc` of `type_data`; `src = none` is the null pointer. -/
structure arc_t where
  width : Nat
  src : Option Nat
  color : lv_color_t
  r_mod : Int
  deriving DecidableEq, Repr

/-- Member `scale_lines` of `type_data`. -/
structure scale_lines_t where
  width_mod : Int
  color_start : lv_color_t
  color_end : lv_color_t
  local_grad : Bool
  deriving DecidableEq, Repr

/-- The `type_data` of an indicator.  In C the four members share storage; the code only
reads the member selected by `type`, so the members are kept side by side here. -/
structure type_data_t where
  needle_img : needle_img_t
  needle_line : needle_line_t
  arc : arc_t
  scale_lines : scale_lines_t
  deriving DecidableEq, Repr

/-- An indicator record (`lv_meter_indicator_t`). -/
structure lv_meter_indicator_t where
  type : lv_meter_indicator_type_t
  opa : Nat
  start_value : Int
  end_value : Int
  type_data : type_data_t
  deriving DecidableEq, Repr

/-- The result of `lv_memzero(indic, sizeof(lv_meter_indicator_t))`: every field zero.
Every factory overwrites the tag before anything reads it. -/
def zero_indicator : lv_meter_indicator_t :=
  { type := .NEEDLE_IMG, opa := 0, start_value := 0, end_value := 0,
    type_data :=
      { needle_img := { src := none, pivot := ⟨0, 0⟩ },
        needle_line := { width := 0, r_mod := 0, color := ⟨0, 0, 0⟩ },
        arc := { width := 0, src := none, color := ⟨0, 0, 0⟩, r_mod := 0 },
        scale_lines := { width_mod := 0, color_start := ⟨0, 0, 0⟩,
                         color_end := ⟨0, 0, 0⟩, local_grad := false } } }

/-- Modelled from the spec: the opacity constant `LV_OPA_COVER` of `lv_color.h`, full
opacity on the scale `0–255`. -/
def LV_OPA_COVER : Nat := 255

/-- Modelled from the spec: the opacity constant `LV_OPA_TRANSP` of `lv_color.h`, the
lower end of the scale `0–255`. -/
def LV_OPA_TRANSP : Nat := 0

/-- Modelled from the spec: `lv_color_eq` of `lv_color.h`, whether two colours are
equal. -/
def lv_color_eq (a b : lv_color_t) : Bool := decide (a = b)

/-- What the meter uses from outside `lv_meter.c`: the fixed-point trigonometry, the
bounding-box helpers of the draw layer, the image decoder, the colour blend and a few
constants.  They are parameters of the model. `LV_TRIGO_SIN_MAX` is a non-zero
constant. -/
structure lv_meter_ext_t where
  lv_trigo_sin : Int → Int
  lv_trigo_cos : Int → Int
  LV_TRIGO_SIN_MAX : Int
  LV_OPA_MAX : Nat
  LV_SCALE_NONE : Int
  lv_area_get_width : lv_area_t → Int
  lv_area_get_height : lv_area_t → Int
  lv_draw_arc_get_area : Int → Int → Int → Int → Int → Int → Bool → lv_area_t
  lv_image_decoder_get_info : Option Nat → Int × Int
  _lv_image_buf_get_transformed_area : Int → Int → Int → Int → lv_point_t → lv_area_t
  lv_color_mix : lv_color_t → lv_color_t → Nat → lv_color_t

/-- One request to the repaint scheduler: `lv_obj_invalidate(obj)` (the whole widget)
or `lv_obj_invalidate_area(obj, &a)`. -/
inductive lv_inv_t where
  | obj
  | area (a : lv_area_t)
  deriving DecidableEq, Repr

/-- A meter object: the scale, the indicator list (head first), what the object system
answers for this widget (content box, `arc_rounded` of the items part, recursive
opacity of the main part) and the invalidation requests issued so far, oldest first. -/
structure lv_meter_t where
  scale : lv_meter_scale_t
  indicator_ll : List lv_meter_indicator_t
  content_coords : lv_area_t
  arc_rounded : Bool
  opa_main : Nat
  invalidated : List lv_inv_t
  deriving DecidableEq, Repr

/-- The effect of `lv_obj_invalidate(obj)`. -/
def lv_obj_invalidate (meter : lv_meter_t) : lv_meter_t :=
  { meter with invalidated := meter.invalidated ++ [lv_inv_t.obj] }

/-- The effect of `lv_obj_invalidate_area(obj, &a)`. -/
def lv_obj_invalidate_area (meter : lv_meter_t) (a : lv_area_t) : lv_meter_t :=
  { meter with invalidated := meter.invalidated ++ [lv_inv_t.area a] }

/-- Modelled from the spec: `_lv_ll_ins_head` of `lv_ll.c` ("insert it at the head of the
owning set ... or a failure signal on allocation exhaustion").  `node = none` is an
exhausted allocator: the list is left as it is and the result is the null pointer.
`node = some junk` is a fresh node with uninitialised content `junk`, linked in front
of the old head. -/
def _lv_ll_ins_head {α : Type} (ll : List α) (node : Option α) : Option (List α) :=
  match node with
  | none => none
  | some junk => some (junk :: ll)

/-- Modelled from the spec: the macro `_LV_LL_READ_BACK` of `lv_ll.h` ("iteration is
tail-to-head"): the nodes in the order the loop body sees them. -/
def _LV_LL_READ_BACK {α : Type} (ll : List α) : List α := ll.reverse

/-- A store through the pointer returned by `_lv_ll_ins_head`: it replaces the content
of the head node. -/
def write_head {α : Type} (ll : List α) (v : α) : List α :=
  match ll with
  | [] => []
  | _ :: rest => v :: rest

/-! ## Meter: adding indicators -/

/-- `lv_meter_add_needle_line`.  `node` is what the allocator has for `_lv_ll_ins_head`.
The result is the meter afterwards and the returned pointer: `none` for `NULL`,
`some 0` for the node now first in `indicator_ll`.  The two `LV_ASSERT_...` macros of
the factories are checks without effect on the state and are left out. -/
def lv_meter_add_needle_line (meter : lv_meter_t) (node : Option lv_meter_indicator_t)
    (width : Nat) (color : lv_color_t) (r_mod : Int) : lv_meter_t × Option Nat :=
  match _lv_ll_ins_head meter.indicator_ll node with
  | none => (meter, none)
  | some ll =>
    let indic := zero_indicator
    let indic := { indic with opa := LV_OPA_COVER }
    let indic := { indic with type := lv_meter_indicator_type_t.NEEDLE_LINE }
    let indic := { indic with type_data := { indic.type_data with
      needle_line := { indic.type_data.needle_line with width := width } } }
    let indic := { indic with type_data := { indic.type_data with
      needle_line := { indic.type_data.needle_line with color := color } } }
    let indic := { indic with type_data := { indic.type_data with
      needle_line := { indic.type_data.needle_line with r_mod := r_mod } } }
    (lv_obj_invalidate { meter with indicator_ll := write_head ll indic }, some 0)

/-- `lv_meter_add_needle_image`; `src = none` is a null image source. -/
def lv_meter_add_needle_image (meter : lv_meter_t) (node : Option lv_meter_indicator_t)
    (src : Option Nat) (pivot_x pivot_y : Int) : lv_meter_t × Option Nat :=
  match _lv_ll_ins_head meter.indicator_ll node with
  | none => (meter, none)
  | some ll =>
    let indic := zero_indicator
    let indic := { indic with opa := LV_OPA_COVER }
    let indic := { indic with type := lv_meter_indicator_type_t.NEEDLE_IMG }
    let indic := { indic with type_data := { indic.type_data with
      needle_img := { indic.type_data.needle_img with src := src } } }
    let indic := { indic with type_data := { indic.type_data with
      needle_img := { indic.type_data.needle_img with
        pivot := { indic.type_data.needle_img.pivot with x := pivot_x } } } }
    let indic := { indic with type_data := { indic.type_data with
      needle_img := { indic.type_data.needle_img with
        pivot := { indic.type_data.needle_img.pivot with y := pivot_y } } } }
    (lv_obj_invalidate { meter with indicator_ll := write_head ll indic }, some 0)

/-- `lv_meter_add_arc`. -/
def lv_meter_add_arc (meter : lv_meter_t) (node : Option lv_meter_indicator_t)
    (width : Nat) (color : lv_color_t) (r_mod : Int) : lv_meter_t × Option Nat :=
  match _lv_ll_ins_head meter.indicator_ll node with
  | none => (meter, none)
  | some ll =>
    let indic := zero_indicator
    let indic := { indic with opa := LV_OPA_COVER }
    let indic := { indic with type := lv_meter_indicator_type_t.ARC }
    let indic := { indic with type_data := { indic.type_data with
      arc := { indic.type_data.arc with width := width } } }
    let indic := { indic with type_data := { indic.type_data with
      arc := { indic.type_data.arc with color := color } } }
    let indic := { indic with type_data := { indic.type_data with
      arc := { indic.type_data.arc with r_mod := r_mod } } }
    (lv_obj_invalidate { meter with indicator_ll := write_head ll indic }, some 0)

/-- `lv_meter_add_scale_lines`. -/
def lv_meter_add_scale_lines (meter : lv_meter_t) (node : Option lv_meter_indicator_t)
    (color_start color_end : lv_color_t) (loc : Bool) (width_mod : Int) :
    lv_meter_t × Option Nat :=
  match _lv_ll_ins_head meter.indicator_ll node with
  | none => (meter, none)
  | some ll =>
    let indic := zero_indicator
    let indic := { indic with opa := LV_OPA_COVER }
    let indic := { indic with type := lv_meter_indicator_type_t.SCALE_LINES }
    let indic := { indic with type_data := { indic.type_data with
      scale_lines := { indic.type_data.scale_lines with color_start := color_start } } }
    let indic := { indic with type_data := { indic.type_data with
      scale_lines := { indic.type_data.scale_lines with color_end := color_end } } }
    let indic := { indic with type_data := { indic.type_data with
      scale_lines := { indic.type_data.scale_lines with local_grad := loc } } }
    let indic := { indic with type_data := { indic.type_data with
      scale_lines := { indic.type_data.scale_lines with width_mod := width_mod } } }
    (lv_obj_invalidate { meter with indicator_ll := write_head ll indic }, some 0)

/-! ## Meter: invalidation -/

/-- `inv_arc`: the bounding box of the sweep between the angles of `old_value` and
`new_value` is handed to `lv_obj_invalidate_area`. -/
def inv_arc (ext : lv_meter_ext_t) (meter : lv_meter_t) (indic : lv_meter_indicator_t)
    (old_value new_value : Int) : lv_meter_t :=
  let rounded := meter.arc_rounded
  let scale_area := meter.content_coords
  let r_out := cdiv (ext.lv_area_get_width scale_area) 2
  let scale_center : lv_point_t := ⟨scale_area.x1 + r_out, scale_area.y1 + r_out⟩
  let r_out := r_out + indic.type_data.arc.r_mod
  let start_angle := map_to_angle meter.scale old_value
  let end_angle := map_to_angle meter.scale new_value
  let a := ext.lv_draw_arc_get_area scale_center.x scale_center.y r_out
    (LV_MIN start_angle end_angle) (LV_MAX start_angle end_angle)
    indic.type_data.arc.width rounded
  lv_obj_invalidate_area meter a

/-- `inv_line`: for a needle line the box around the scale centre and the end point of
the needle at `value`, widened by `width + 2`; for a needle image the transformed
bounding box of the image at the angle of `value`, widened by 2.  Other kinds issue
nothing. -/
def inv_line (ext : lv_meter_ext_t) (meter : lv_meter_t) (indic : lv_meter_indicator_t)
    (value : Int) : lv_meter_t :=
  let scale_area := meter.content_coords
  let r_out := cdiv (ext.lv_area_get_width scale_area) 2
  let scale_center : lv_point_t := ⟨scale_area.x1 + r_out, scale_area.y1 + r_out⟩
  if indic.type = lv_meter_indicator_type_t.NEEDLE_LINE then
    let angle := map_to_angle meter.scale value
    let r_out := r_out + (meter.scale.r_mod + indic.type_data.needle_line.r_mod)
    let p_end_y := cdiv (ext.lv_trigo_sin angle * r_out) ext.LV_TRIGO_SIN_MAX + scale_center.y
    let p_end_x := cdiv (ext.lv_trigo_cos angle * r_out) ext.LV_TRIGO_SIN_MAX + scale_center.x
    let a : lv_area_t :=
      { x1 := LV_MIN scale_center.x p_end_x - indic.type_data.needle_line.width - 2,
        y1 := LV_MIN scale_center.y p_end_y - indic.type_data.needle_line.width - 2,
        x2 := LV_MAX scale_center.x p_end_x + indic.type_data.needle_line.width + 2,
        y2 := LV_MAX scale_center.y p_end_y + indic.type_data.needle_line.width + 2 }
    lv_obj_invalidate_area meter a
  else if indic.type = lv_meter_indicator_type_t.NEEDLE_IMG then
    let angle := map_to_angle meter.scale value
    let info := ext.lv_image_decoder_get_info indic.type_data.needle_img.src
    let angle := wrap32 (angle * 10)
    let angle := if angle > 3600 then angle - 3600 else angle
    let scale_center : lv_point_t :=
      ⟨scale_center.x - indic.type_data.needle_img.pivot.x,
       scale_center.y - indic.type_data.needle_img.pivot.y⟩
    let a := ext._lv_image_buf_get_transformed_area info.1 info.2 angle ext.LV_SCALE_NONE
      indic.type_data.needle_img.pivot
    let a : lv_area_t :=
      { x1 := a.x1 + (scale_center.x - 2),
        y1 := a.y1 + (scale_center.y - 2),
        x2 := a.x2 + (scale_center.x + 2),
        y2 := a.y2 + (scale_center.y + 2) }
    lv_obj_invalidate_area meter a
  else meter

/-! ## Meter: setting indicator values

An indicator pointer is the position `k` of its node in `indicator_ll`.  The setters
return `none` when `k` is not the position of a node (a dangling pointer). -/

/-- `lv_meter_set_indicator_value`. -/
def lv_meter_set_indicator_value (ext : lv_meter_ext_t) (meter : lv_meter_t) (k : Nat)
    (value : Int) : Option lv_meter_t :=
  match meter.indicator_ll.get? k with
  | none => none
  | some indic0 =>
    let old_start := indic0.start_value
    let old_end := indic0.end_value
    let indic := { indic0 with start_value := value }
    let indic := { indic with end_value := value }
    let meter := { meter with indicator_ll := meter.indicator_ll.set k indic }
    if indic.type = lv_meter_indicator_type_t.ARC then
      let meter := inv_arc ext meter indic old_start value
      some (inv_arc ext meter indic old_end value)
    else if indic.type = lv_meter_indicator_type_t.NEEDLE_IMG
        ∨ indic.type = lv_meter_indicator_type_t.NEEDLE_LINE then
      let meter := inv_line ext meter indic old_start
      let meter := inv_line ext meter indic old_end
      some (inv_line ext meter indic value)
    else some (lv_obj_invalidate meter)

/-- `lv_meter_set_indicator_start_value`. -/
def lv_meter_set_indicator_start_value (ext : lv_meter_ext_t) (meter : lv_meter_t) (k : Nat)
    (value : Int) : Option lv_meter_t :=
  match meter.indicator_ll.get? k with
  | none => none
  | some indic0 =>
    let old_value := indic0.start_value
    let indic := { indic0 with start_value := value }
    let meter := { meter with indicator_ll := meter.indicator_ll.set k indic }
    if indic.type = lv_meter_indicator_type_t.ARC then
      some (inv_arc ext meter indic old_value value)
    else if indic.type = lv_meter_indicator_type_t.NEEDLE_IMG
        ∨ indic.type = lv_meter_indicator_type_t.NEEDLE_LINE then
      let meter := inv_line ext meter indic old_value
      some (inv_line ext meter indic value)
    else some (lv_obj_invalidate meter)

/-- `lv_meter_set_indicator_end_value`. -/
def lv_meter_set_indicator_end_value (ext : lv_meter_ext_t) (meter : lv_meter_t) (k : Nat)
    (value : Int) : Option lv_meter_t :=
  match meter.indicator_ll.get? k with
  | none => none
  | some indic0 =>
    let old_value := indic0.end_value
    let indic := { indic0 with end_value := value }
    let meter := { meter with indicator_ll := meter.indicator_ll.set k indic }
    if indic.type = lv_meter_indicator_type_t.ARC then
      some (inv_arc ext meter indic old_value value)
    else if indic.type = lv_meter_indicator_type_t.NEEDLE_IMG
        ∨ indic.type = lv_meter_indicator_type_t.NEEDLE_LINE then
      let meter := inv_line ext meter indic old_value
      some (inv_line ext meter indic value)
    else some (lv_obj_invalidate meter)

/-! ## Meter: draw passes

Each pass is the list of draw calls it issues, in the order of the calls.  A draw
descriptor keeps the fields the pass assigns. -/

/-- The fields of `lv_draw_arc_dsc_t` that `draw_arcs` sets before `lv_draw_arc`. -/
structure lv_draw_arc_dsc_t where
  rounded : Bool
  color : lv_color_t
  img_src : Option Nat
  width : Int
  opa : Nat
  center : lv_point_t
  radius : Int
  start_angle : Int
  end_angle : Int
  deriving DecidableEq, Repr

/-- The fields of `lv_draw_line_dsc_t` that `draw_needles` sets before `lv_draw_line`. -/
structure lv_draw_line_dsc_t where
  color : lv_color_t
  width : Int
  opa : Nat
  p1 : lv_point_t
  p2 : lv_point_t
  deriving DecidableEq, Repr

/-- The fields of `lv_draw_image_dsc_t` that `draw_needles` sets before
`lv_draw_image`. -/
structure lv_draw_image_dsc_t where
  opa : Nat
  pivot : lv_point_t
  rotation : Int
  src : Option Nat
  deriving DecidableEq, Repr

/-- A call made by `draw_needles`: `lv_draw_line(layer, &line_dsc)` or
`lv_draw_image(layer, &img_dsc, &a)`. -/
inductive lv_needle_draw_t where
  | line (dsc : lv_draw_line_dsc_t)
  | image (dsc : lv_draw_image_dsc_t) (a : lv_area_t)
  deriving DecidableEq, Repr

/-- The body of the loop of `draw_arcs` for one indicator: `none` for `continue`. -/
def draw_arcs_body (ext : lv_meter_ext_t) (meter : lv_meter_t) (scale_area : lv_area_t)
    (indic : lv_meter_indicator_t) : Option lv_draw_arc_dsc_t :=
  let r_out := cdiv (ext.lv_area_get_width scale_area) 2
  let scale_center : lv_point_t := ⟨scale_area.x1 + r_out, scale_area.y1 + r_out⟩
  let opa_main := meter.opa_main
  if indic.type ≠ lv_meter_indicator_type_t.ARC then none
  else
    let start_angle := map_to_angle meter.scale indic.start_value
    let end_angle := map_to_angle meter.scale indic.end_value
    let radius := r_out + indic.type_data.arc.r_mod
    some
      { rounded := meter.arc_rounded,
        color := indic.type_data.arc.color,
        img_src := indic.type_data.arc.src,
        width := indic.type_data.arc.width,
        opa := if indic.opa > ext.LV_OPA_MAX then opa_main else (opa_main * indic.opa) >>> 8,
        center := scale_center,
        radius := radius,
        start_angle := start_angle,
        end_angle := end_angle }

/-- `draw_arcs`: the `lv_draw_arc` calls, one for every arc indicator met while reading
the list back. -/
def draw_arcs (ext : lv_meter_ext_t) (meter : lv_meter_t) (scale_area : lv_area_t) :
    List lv_draw_arc_dsc_t :=
  (_LV_LL_READ_BACK meter.indicator_ll).filterMap (draw_arcs_body ext meter scale_area)

/-- The body of the loop of `draw_needles` for one indicator: `none` when nothing is
drawn for it. -/
def draw_needles_body (ext : lv_meter_ext_t) (meter : lv_meter_t) (scale_area : lv_area_t)
    (indic : lv_meter_indicator_t) : Option lv_needle_draw_t :=
  let r_edge := cdiv (ext.lv_area_get_width scale_area) 2
  let scale_center : lv_point_t := ⟨scale_area.x1 + r_edge, scale_area.y1 + r_edge⟩
  let opa_main := meter.opa_main
  if indic.type = lv_meter_indicator_type_t.NEEDLE_LINE then
    let angle := map_to_angle meter.scale indic.end_value
    let r_out := r_edge + meter.scale.r_mod + indic.type_data.needle_line.r_mod
    let p_end_y := cdiv (ext.lv_trigo_sin angle * r_out) ext.LV_TRIGO_SIN_MAX + scale_center.y
    let p_end_x := cdiv (ext.lv_trigo_cos angle * r_out) ext.LV_TRIGO_SIN_MAX + scale_center.x
    some (lv_needle_draw_t.line
      { color := indic.type_data.needle_line.color,
        width := indic.type_data.needle_line.width,
        opa := if indic.opa > ext.LV_OPA_MAX then opa_main else (opa_main * indic.opa) >>> 8,
        p1 := scale_center,
        p2 := ⟨p_end_x, p_end_y⟩ })
  else if indic.type = lv_meter_indicator_type_t.NEEDLE_IMG then
    if indic.type_data.needle_img.src = none then none
    else
      let angle := map_to_angle meter.scale indic.end_value
      let info := ext.lv_image_decoder_get_info indic.type_data.needle_img.src
      let a_x1 := scale_center.x - indic.type_data.needle_img.pivot.x
      let a_y1 := scale_center.y - indic.type_data.needle_img.pivot.y
      let a : lv_area_t :=
        { x1 := a_x1, y1 := a_y1, x2 := a_x1 + info.1 - 1, y2 := a_y1 + info.2 - 1 }
      let angle := wrap32 (angle * 10)
      let angle := if angle > 3600 then angle - 3600 else angle
      some (lv_needle_draw_t.image
        { opa := if indic.opa > ext.LV_OPA_MAX then opa_main else (opa_main * indic.opa) >>> 8,
          pivot := ⟨indic.type_data.needle_img.pivot.x, indic.type_data.needle_img.pivot.y⟩,
          rotation := angle,
          src := indic.type_data.needle_img.src }
        a)
  else none

/-- `draw_needles`: the `lv_draw_line` and `lv_draw_image` calls, in the order in which
the indicators are met while reading the list back. -/
def draw_needles (ext : lv_meter_ext_t) (meter : lv_meter_t) (scale_area : lv_area_t) :
    List lv_needle_draw_t :=
  (_LV_LL_READ_BACK meter.indicator_ll).filterMap (draw_needles_body ext meter scale_area)

/-- The body of the inner loop of `draw_ticks_and_labels` for one indicator: the colour
and width of the tick line before and after it. -/
def scale_lines_body (ext : lv_meter_ext_t) (scale : lv_meter_scale_t) (value_of_line : Int)
    (acc : lv_color_t × Int) (indic : lv_meter_indicator_t) : lv_color_t × Int :=
  let line_color := acc.1
  let line_width := acc.2
  if indic.type ≠ lv_meter_indicator_type_t.SCALE_LINES then (line_color, line_width)
  else if value_of_line ≥ indic.start_value ∧ value_of_line ≤ indic.end_value then
    let line_width := line_width + indic.type_data.scale_lines.width_mod
    if lv_color_eq indic.type_data.scale_lines.color_start
        indic.type_data.scale_lines.color_end then
      (indic.type_data.scale_lines.color_start, line_width)
    else
      let ratio : Int :=
        if indic.type_data.scale_lines.local_grad then
          lv_map value_of_line indic.start_value indic.end_value LV_OPA_TRANSP LV_OPA_COVER
        else
          lv_map value_of_line scale.min scale.max LV_OPA_TRANSP LV_OPA_COVER
      let ratio : Nat := (ratio % 256).toNat
      (ext.lv_color_mix indic.type_data.scale_lines.color_end
        indic.type_data.scale_lines.color_start ratio, line_width)
  else (line_color, line_width)

/-- The inner loop of `draw_ticks_and_labels`: the scan of the scale-lines indicators
for one tick, reading the list back, from the scale's own colour and width. -/
def scale_lines_scan (ext : lv_meter_ext_t) (meter : lv_meter_t) (value_of_line : Int)
    (line_color : lv_color_t) (line_width : Int) : lv_color_t × Int :=
  (_LV_LL_READ_BACK meter.indicator_ll).foldl
    (scale_lines_body ext meter.scale value_of_line) (line_color, line_width)

/-! ## Meter: the tick pass -/

/-- What `draw_ticks_and_labels` uses from outside `lv_meter.c` in addition to
`lv_meter_ext_t`: the rotation of a point about a pivot (point, angle in tenths of a
degree, zoom, pivot) and the size of the text that prints a value in the label font of
the ticks part. -/
structure lv_ticks_ext_t where
  lv_point_transform : lv_point_t → Int → Int → lv_point_t → lv_point_t
  lv_text_get_size : Int → lv_point_t

/-- What `draw_ticks_and_labels` does for one tick: the flag `major`, the value of the
tick, the colour, width and end points of the `lv_draw_line` call, the angle, and for a
major tick the area of the `lv_draw_label` call. -/
structure lv_tick_draw_t where
  major : Bool
  value_of_line : Int
  line_color : lv_color_t
  line_width : Int
  angle_upscale : Int
  p1 : lv_point_t
  p2 : lv_point_t
  label_cord : Option lv_area_t
  deriving DecidableEq, Repr

/-- The initial value of the counter `minor_cnt`:
`tick_major_nth ? tick_major_nth - 1 : 0xFFFF`. -/
def minor_cnt_init (tick_major_nth : Nat) : Nat :=
  if tick_major_nth ≠ 0 then tick_major_nth - 1 else 65535

/-- The head of the loop body of `draw_ticks_and_labels`: the `uint32_t` counter is
incremented and, when it equals `tick_major_nth`, reset with `major` set.  The result
is the counter afterwards and `major`. -/
def minor_cnt_step (tick_major_nth : Nat) (minor_cnt : Nat) : Nat × Bool :=
  let minor_cnt := (minor_cnt + 1) % 4294967296
  if minor_cnt = tick_major_nth then (0, true) else (minor_cnt, false)

/-- The flags `major` of `n` consecutive ticks, the counter being `minor_cnt` before
the first of them: the counter part of the loop of `draw_ticks_and_labels`. -/
def tick_majors (tick_major_nth : Nat) : Nat → Nat → List Bool
  | 0, _ => []
  | n + 1, minor_cnt =>
    (minor_cnt_step tick_major_nth minor_cnt).2
      :: tick_majors tick_major_nth n (minor_cnt_step tick_major_nth minor_cnt).1

/-- The two statements of `draw_ticks_and_labels` that compute `angle_upscale` for tick
`i`, for `tick_cnt - 1` not zero.  The fields `angle_range` and `rotation` are unsigned
and as wide as the `uint32_t` arguments `lv_meter_set_scale_range` stores in them, so
the products are taken modulo `2^32`, the quotient is stored in the `int32_t`
`angle_upscale`, and the sum with `rotation * 10` is stored there again. -/
def tick_angle_upscale (scale : lv_meter_scale_t) (i : Nat) : Int :=
  let angle_upscale := wrap32 (cdiv (wrapU32 (wrapU32 ((i : Int) * scale.angle_range) * 10))
    ((scale.tick_cnt : Int) - 1))
  wrap32 (angle_upscale + wrapU32 ((scale.rotation : Int) * 10))

/-- The body of the loop of `draw_ticks_and_labels` for tick `i`, the counter being
`minor_cnt` before it.  The result is the tick and the counter afterwards; `none` is
the division by `tick_cnt - 1` when that is zero.  For the label, `r_text` is a
`uint32_t`: the sum `p_center.x + r_text` is unsigned and is stored in the coordinate
`p.x` as its 32-bit two's-complement value, so a negative `r_in_major - label_gap`
is added as the negative number it is. -/
def tick_body (ext : lv_meter_ext_t) (text : lv_ticks_ext_t) (meter : lv_meter_t)
    (scale_area : lv_area_t) (i : Nat) (minor_cnt : Nat) : Option (lv_tick_draw_t × Nat) :=
  let r_edge := LV_MIN (cdiv (ext.lv_area_get_width scale_area) 2)
    (cdiv (ext.lv_area_get_height scale_area) 2)
  let p_center : lv_point_t := ⟨scale_area.x1 + r_edge, scale_area.y1 + r_edge⟩
  let r_out := r_edge
  let r_in_major := r_out - meter.scale.tick_major_length
  let r_in_minor := r_out - meter.scale.tick_length
  let step := minor_cnt_step meter.scale.tick_major_nth minor_cnt
  let minor_cnt := step.1
  let major := step.2
  let value_of_line := lv_map i 0 ((meter.scale.tick_cnt : Int) - 1) meter.scale.min
    meter.scale.max
  let line_color := if major then meter.scale.tick_major_color else meter.scale.tick_color
  let line_width : Int :=
    if major then meter.scale.tick_major_width else meter.scale.tick_width
  let scanned := scale_lines_scan ext meter value_of_line line_color line_width
  let line_color := scanned.1
  let line_width := scanned.2
  if (meter.scale.tick_cnt : Int) - 1 = 0 then none
  else
    let angle_upscale := tick_angle_upscale meter.scale i
    let p_outer := text.lv_point_transform ⟨p_center.x + r_out, p_center.y⟩ angle_upscale 256
      p_center
    let p_inner := text.lv_point_transform
      ⟨p_center.x + (if major then r_in_major else r_in_minor), p_center.y⟩ angle_upscale 256
      p_center
    let label_cord : Option lv_area_t :=
      if major then
        let r_text := wrapU32 (r_in_major - meter.scale.label_gap)
        let p := text.lv_point_transform ⟨wrap32 (p_center.x + r_text), p_center.y⟩
          angle_upscale 256 p_center
        let label_size := text.lv_text_get_size value_of_line
        let x1 := p.x - cdiv label_size.x 2
        let y1 := p.y - cdiv label_size.y 2
        some { x1 := x1, y1 := y1, x2 := x1 + label_size.x, y2 := y1 + label_size.y }
      else none
    some
      ({ major := major, value_of_line := value_of_line, line_color := line_color,
         line_width := line_width, angle_upscale := angle_upscale,
         p1 := p_outer, p2 := p_inner, label_cord := label_cord }, minor_cnt)

/-- The loop of `draw_ticks_and_labels` from tick `i` on, `n` ticks to go. -/
def ticks_loop (ext : lv_meter_ext_t) (text : lv_ticks_ext_t) (meter : lv_meter_t)
    (scale_area : lv_area_t) : Nat → Nat → Nat → Option (List lv_tick_draw_t)
  | 0, _, _ => some []
  | n + 1, i, minor_cnt =>
    match tick_body ext text meter scale_area i minor_cnt with
    | none => none
    | some (tick, minor_cnt) =>
      match ticks_loop ext text meter scale_area n (i + 1) minor_cnt with
      | none => none
      | some ticks => some (tick :: ticks)

/-- `draw_ticks_and_labels`: the ticks in the order in which they are drawn, or `none`
when a division by zero is evaluated.  `tick_cnt` is a `uint16_t`, so is the index. -/
def draw_ticks_and_labels (ext : lv_meter_ext_t) (text : lv_ticks_ext_t) (meter : lv_meter_t)
    (scale_area : lv_area_t) : Option (List lv_tick_draw_t) :=
  ticks_loop ext text meter scale_area meter.scale.tick_cnt 0
    (minor_cnt_init meter.scale.tick_major_nth)

/-! ## Slider: data model -/

/-- The mode of the slider (and of the bar under it). -/
inductive lv_slider_mode_t where
  | NORMAL
  | SYMMETRICAL
  | RANGE
  deriving DecidableEq, Repr

/-- The base direction of the main part. -/
inductive lv_base_dir_t where
  | LTR
  | RTL
  | AUTO
  deriving DecidableEq, Repr

/-- The kind of the active input device. -/
inductive lv_indev_type_t where
  | NONE
  | POINTER
  | KEYPAD
  | BUTTON
  | ENCODER
  deriving DecidableEq, Repr

/-- The fields of the bar (`slider->bar`) that the slider reads and writes. -/
structure lv_bar_t where
  cur_value : Int
  min_value : Int
  max_value : Int
  start_value : Int
  indic_area : lv_area_t
  mode : lv_slider_mode_t
  deriving DecidableEq, Repr

/-- The target of `slider->value_to_set`: `&slider->bar.cur_value` or
`&slider->bar.start_value`. -/
inductive value_ref_t where
  | cur_value
  | start_value
  deriving DecidableEq, Repr

/-- What the slider tells its collaborators: `lv_obj_invalidate(obj)` and
`lv_obj_send_event(obj, LV_EVENT_VALUE_CHANGED, NULL)`. -/
inductive lv_slider_out_t where
  | invalidate
  | value_changed
  deriving DecidableEq, Repr

/-- A slider object: the `lv_slider_t` fields, then what the object system holds for
the widget (coordinates, width and height as `lv_obj_get_width` and `lv_obj_get_height`
report them, paddings and base direction of the main part, extra click padding, the two
scroll-chain flags), then the calls made to the collaborators, oldest first. -/
structure lv_slider_t where
  bar : lv_bar_t
  left_knob_area : lv_area_t
  right_knob_area : lv_area_t
  pressed_point : lv_point_t
  value_to_set : Option value_ref_t
  dragging : Bool
  left_knob_focus : Bool
  coords : lv_area_t
  width : Int
  height : Int
  pad_left : Int
  pad_right : Int
  pad_top : Int
  pad_bottom : Int
  base_dir : lv_base_dir_t
  ext_click_pad : Int
  scroll_chain_hor : Bool
  scroll_chain_ver : Bool
  out : List lv_slider_out_t
  deriving DecidableEq, Repr

/-- The active input device: its kind, whether it is scrolling an object, its current
point as `lv_obj_transform_point` leaves it in `p`, and its scroll threshold. -/
structure lv_indev_t where
  type : lv_indev_type_t
  scroll_obj : Bool
  point : lv_point_t
  scroll_limit : Int
  deriving DecidableEq, Repr

/-! ## Slider: dragging -/

/-- `is_slider_horizontal`. -/
def is_slider_horizontal (slider : lv_slider_t) : Bool :=
  decide (slider.width ≥ slider.height)

/-- `drag_start`: marks the slider as dragged and picks the value the drag writes. -/
def drag_start (indev : lv_indev_t) (slider : lv_slider_t) : lv_slider_t :=
  let mode := slider.bar.mode
  let slider := { slider with dragging := true }
  if mode = lv_slider_mode_t.NORMAL ∨ mode = lv_slider_mode_t.SYMMETRICAL then
    { slider with value_to_set := some value_ref_t.cur_value }
  else if mode = lv_slider_mode_t.RANGE then
    let p := indev.point
    let hor := is_slider_horizontal slider
    let base_dir := slider.base_dir
    if hor then
      if (base_dir ≠ lv_base_dir_t.RTL ∧ p.x > slider.right_knob_area.x2)
          ∨ (base_dir = lv_base_dir_t.RTL ∧ p.x < slider.right_knob_area.x1) then
        { slider with value_to_set := some value_ref_t.cur_value }
      else if (base_dir ≠ lv_base_dir_t.RTL ∧ p.x < slider.left_knob_area.x1)
          ∨ (base_dir = lv_base_dir_t.RTL ∧ p.x > slider.left_knob_area.x2) then
        { slider with value_to_set := some value_ref_t.start_value }
      else
        let dist_left := LV_ABS ((slider.left_knob_area.x1
          + cdiv (slider.left_knob_area.x2 - slider.left_knob_area.x1) 2) - p.x)
        let dist_right := LV_ABS ((slider.right_knob_area.x1
          + cdiv (slider.right_knob_area.x2 - slider.right_knob_area.x1) 2) - p.x)
        if dist_right < dist_left then
          { slider with value_to_set := some value_ref_t.cur_value, left_knob_focus := false }
        else
          { slider with value_to_set := some value_ref_t.start_value, left_knob_focus := true }
    else
      if p.y < slider.right_knob_area.y1 then
        { slider with value_to_set := some value_ref_t.cur_value }
      else if p.y > slider.left_knob_area.y2 then
        { slider with value_to_set := some value_ref_t.start_value }
      else
        let dist_left := LV_ABS ((slider.left_knob_area.y1
          + cdiv (slider.left_knob_area.y2 - slider.left_knob_area.y1) 2) - p.y)
        let dist_right := LV_ABS ((slider.right_knob_area.y1
          + cdiv (slider.right_knob_area.y2 - slider.right_knob_area.y1) 2) - p.y)
        if dist_right < dist_left then
          { slider with value_to_set := some value_ref_t.cur_value, left_knob_focus := false }
        else
          { slider with value_to_set := some value_ref_t.start_value, left_knob_focus := true }
  else slider

/-- The first half of the value computation of `update_knob_pos`: the pointer position
converted to a value, before clamping.  `none` is a division by zero. -/
def knob_new_value (p : lv_point_t) (slider : lv_slider_t) (is_hor : Bool) : Option Int :=
  let range := wrap32 (slider.bar.max_value - slider.bar.min_value)
  if is_hor then
    let bg_left := slider.pad_left
    let bg_right := slider.pad_right
    let w := slider.width
    let indic_w := w - bg_left - bg_right
    let new_value :=
      if slider.base_dir = lv_base_dir_t.RTL then wrap32 ((slider.coords.x2 - bg_right) - p.x)
      else wrap32 (p.x - (slider.coords.x1 + bg_left))
    if indic_w ≠ 0 then
      let new_value :=
        wrap32 (cdiv (wrap32 (wrap32 (new_value * range) + cdiv indic_w 2)) indic_w)
      some (wrap32 (new_value + slider.bar.min_value))
    else some new_value
  else
    let bg_top := slider.pad_top
    let bg_bottom := slider.pad_bottom
    let h := slider.height
    let indic_h := h - bg_bottom - bg_top
    let new_value := wrap32 (p.y - (slider.coords.y2 + bg_bottom))
    if indic_h = 0 then none
    else
      let new_value :=
        wrap32 (cdiv (wrap32 (wrap32 (wrap32 (-new_value) * range) + cdiv indic_h 2)) indic_h)
      some (wrap32 (new_value + slider.bar.min_value))

/-- The value `*slider->value_to_set` points at. -/
def read_value (slider : lv_slider_t) (r : value_ref_t) : Int :=
  match r with
  | value_ref_t.cur_value => slider.bar.cur_value
  | value_ref_t.start_value => slider.bar.start_value

/-- The store `*slider->value_to_set = v`. -/
def write_value (slider : lv_slider_t) (r : value_ref_t) (v : Int) : lv_slider_t :=
  match r with
  | value_ref_t.cur_value => { slider with bar := { slider.bar with cur_value := v } }
  | value_ref_t.start_value => { slider with bar := { slider.bar with start_value := v } }

/-- The second half of the value computation of `update_knob_pos`: the limits for
the knob that is dragged, the clamp, and the store with its notifications when the
value differs.  `none` is a store through a null `value_to_set`. -/
def knob_store (slider : lv_slider_t) (is_hor : Bool) (new_value : Int) :
    Option lv_slider_t :=
  let real_max_value := slider.bar.max_value
  let real_min_value := slider.bar.min_value
  let real_max_value :=
    if slider.value_to_set = some value_ref_t.start_value then slider.bar.cur_value
    else real_max_value
  let real_min_value :=
    if slider.value_to_set = some value_ref_t.start_value then real_min_value
    else slider.bar.start_value
  let new_value := LV_CLAMP real_min_value new_value real_max_value
  match slider.value_to_set with
  | none => none
  | some r =>
    if read_value slider r ≠ new_value then
      let slider := write_value slider r new_value
      let slider :=
        if is_hor then { slider with scroll_chain_ver := false }
        else { slider with scroll_chain_hor := false }
      let slider := { slider with out := slider.out ++ [lv_slider_out_t.invalidate] }
      some { slider with out := slider.out ++ [lv_slider_out_t.value_changed] }
    else some slider

/-- The drag check at the start of `update_knob_pos`: with `check_drag` set and no drag
under way, processing stops while the offset from the pressed point along the axis is
below the scroll limit of the device. -/
def drag_check_stops (indev : lv_indev_t) (slider : lv_slider_t) (check_drag : Bool) : Bool :=
  let p := indev.point
  let is_hor := is_slider_horizontal slider
  if check_drag ∧ ¬ slider.dragging then
    let ofs := if is_hor then p.x - slider.pressed_point.x else p.y - slider.pressed_point.y
    decide (LV_ABS ofs < indev.scroll_limit)
  else false

/-- `update_knob_pos`.  `none` stands for an execution without a defined result: a
division by zero, or a store through a null `value_to_set`. -/
def update_knob_pos (indev : lv_indev_t) (slider : lv_slider_t) (check_drag : Bool) :
    Option lv_slider_t :=
  if indev.type ≠ lv_indev_type_t.POINTER then some slider
  else if indev.scroll_obj then some slider
  else
    let p := indev.point
    let is_hor := is_slider_horizontal slider
    if drag_check_stops indev slider check_drag then some slider
    else
      let slider := if slider.value_to_set = none then drag_start indev slider else slider
      match knob_new_value p slider is_hor with
      | none => none
      | some new_value => knob_store slider is_hor new_value

/-- A range slider in the middle of a drag of its start knob: 200 by 20 pixels, no
padding, range `[0, 100]`, start value 20 and end value 80. -/
def range_slider : lv_slider_t :=
  { bar := { cur_value := 80, min_value := 0, max_value := 100, start_value := 20,
             indic_area := ⟨20, 0, 80, 19⟩, mode := lv_slider_mode_t.RANGE },
    left_knob_area := ⟨30, 0, 49, 19⟩, right_knob_area := ⟨150, 0, 169, 19⟩,
    pressed_point := ⟨40, 10⟩, value_to_set := some value_ref_t.start_value,
    dragging := true, left_knob_focus := true,
    coords := ⟨0, 0, 199, 19⟩, width := 200, height := 20,
    pad_left := 0, pad_right := 0, pad_top := 0, pad_bottom := 0,
    base_dir := lv_base_dir_t.LTR, ext_click_pad := 0,
    scroll_chain_hor := false, scroll_chain_ver := true, out := [] }

/-- A pointer device at the point `(x, 10)`, not scrolling, with scroll limit 10. -/
def pointer_at (x : Int) : lv_indev_t :=
  { type := lv_indev_type_t.POINTER, scroll_obj := false, point := ⟨x, 10⟩,
    scroll_limit := 10 }

/-- A normal slider that has just been pressed at its left end: 200 by 20 pixels, no
padding, range `[min, max]`, value `min`. -/
def normal_slider (min max : Int) : lv_slider_t :=
  { bar := { cur_value := min, min_value := min, max_value := max, start_value := min,
             indic_area := ⟨0, 0, 0, 19⟩, mode := lv_slider_mode_t.NORMAL },
    left_knob_area := ⟨0, 0, 0, 0⟩, right_knob_area := ⟨-10, 0, 9, 19⟩,
    pressed_point := ⟨0, 10⟩, value_to_set := none,
    dragging := false, left_knob_focus := false,
    coords := ⟨0, 0, 199, 19⟩, width := 200, height := 20,
    pad_left := 0, pad_right := 0, pad_top := 0, pad_bottom := 0,
    base_dir := lv_base_dir_t.LTR, ext_click_pad := 0,
    scroll_chain_hor := false, scroll_chain_ver := true, out := [] }

/-! ## Slider: the event handler -/

/-- Modelled from the spec: `lv_area_increase` of `lv_area.c` ("expanded by configured
extra click padding"): the rectangle grown by `w_extra` on the left and on the right
and by `h_extra` at the top and at the bottom. -/
def lv_area_increase (a : lv_area_t) (w_extra h_extra : Int) : lv_area_t :=
  { x1 := a.x1 - w_extra, y1 := a.y1 - h_extra, x2 := a.x2 + w_extra, y2 := a.y2 + h_extra }

/-- Modelled from the spec: `_lv_area_is_point_on` of `lv_area.c` for the radius 0 it is
called with ("falls within the ... hit rectangle"): whether the point is in the
rectangle, its border included. -/
def _lv_area_is_point_on (a : lv_area_t) (p : lv_point_t) : Bool :=
  decide (p.x ≥ a.x1 ∧ p.x ≤ a.x2 ∧ p.y ≥ a.y1 ∧ p.y ≤ a.y2)

/-- The branch `LV_EVENT_HIT_TEST` of `lv_slider_event`: the value left in `info->res`
for the point `info->point`.  `slider.ext_click_pad` is the value of
`obj->spec_attr ? obj->spec_attr->ext_click_pad : 0`. -/
def lv_slider_hit_test (slider : lv_slider_t) (point : lv_point_t) : Bool :=
  let type := slider.bar.mode
  let ext_click_area := slider.ext_click_pad
  let a := slider.right_knob_area
  let a := lv_area_increase a ext_click_area ext_click_area
  let res := _lv_area_is_point_on a point
  if res = false ∧ type = lv_slider_mode_t.RANGE then
    let a := slider.left_knob_area
    let a := lv_area_increase a ext_click_area ext_click_area
    _lv_area_is_point_on a point
  else res

/-- The branch `LV_EVENT_PRESSED` of `lv_slider_event`: the point of the device is
saved. -/
def lv_slider_pressed (indev : lv_indev_t) (slider : lv_slider_t) : lv_slider_t :=
  { slider with pressed_point := indev.point }

/-- The branch `LV_EVENT_PRESSING` of `lv_slider_event`. -/
def lv_slider_pressing (indev : lv_indev_t) (slider : lv_slider_t) : Option lv_slider_t :=
  update_knob_pos indev slider true

/-- The branch `LV_EVENT_RELEASED` / `LV_EVENT_PRESS_LOST` of `lv_slider_event`.
`editing` is what `lv_group_get_editing` answers; the result is the slider and the
editing flag of the group afterwards. -/
def lv_slider_released (indev : lv_indev_t) (editing : Bool) (slider : lv_slider_t) :
    Option (lv_slider_t × Bool) :=
  match update_knob_pos indev slider false with
  | none => none
  | some slider =>
    let slider := { slider with dragging := false }
    let slider := { slider with value_to_set := none }
    let slider := { slider with out := slider.out ++ [lv_slider_out_t.invalidate] }
    if indev.type = lv_indev_type_t.ENCODER then
      if editing then
        if slider.bar.mode = lv_slider_mode_t.RANGE then
          if slider.left_knob_focus = false then
            some ({ slider with left_knob_focus := true }, editing)
          else some ({ slider with left_knob_focus := false }, false)
        else some (slider, false)
      else some (slider, editing)
    else if indev.type = lv_indev_type_t.POINTER then
      if is_slider_horizontal slider then
        some ({ slider with scroll_chain_ver := true }, editing)
      else some ({ slider with scroll_chain_hor := true }, editing)
    else some (slider, editing)

/-- The event codes of a press: down, move, up, lost. -/
inductive lv_event_code_t where
  | PRESSED
  | PRESSING
  | RELEASED
  | PRESS_LOST
  deriving DecidableEq, Repr

/-- The branches of `lv_slider_event` for the codes of a press, the active device being
`indev`. -/
def lv_slider_event (code : lv_event_code_t) (indev : lv_indev_t) (editing : Bool)
    (slider : lv_slider_t) : Option (lv_slider_t × Bool) :=
  match code with
  | lv_event_code_t.PRESSED => some (lv_slider_pressed indev slider, editing)
  | lv_event_code_t.PRESSING =>
    match lv_slider_pressing indev slider with
    | none => none
    | some slider => some (slider, editing)
  | lv_event_code_t.RELEASED => lv_slider_released indev editing slider
  | lv_event_code_t.PRESS_LOST => lv_slider_released indev editing slider

/-- A sequence of events delivered to the slider, each with the state of the device at
that moment. -/
def slider_run (editing : Bool) (slider : lv_slider_t) :
    List (lv_event_code_t × lv_indev_t) → Option (lv_slider_t × Bool)
  | [] => some (slider, editing)
  | (code, indev) :: rest =>
    match lv_slider_event code indev editing slider with
    | none => none
    | some (slider, editing) => slider_run editing slider rest

/-- The events of a pointer-down, pointer-moves and no pointer-up yet. -/
def press_events (down : lv_indev_t) (moves : List lv_indev_t) :
    List (lv_event_code_t × lv_indev_t) :=
  (lv_event_code_t.PRESSED, down) :: moves.map (fun m => (lv_event_code_t.PRESSING, m))

/-- The events of a tap: pointer-down, pointer-moves, pointer-up. -/
def tap_events (down : lv_indev_t) (moves : List lv_indev_t) (up : lv_indev_t) :
    List (lv_event_code_t × lv_indev_t) :=
  press_events down moves ++ [(lv_event_code_t.RELEASED, up)]

/-- A pointer device at the point `(x, y)`, not scrolling, with scroll limit 10. -/
def pointer_at_xy (x y : Int) : lv_indev_t :=
  { type := lv_indev_type_t.POINTER, scroll_obj := false, point := ⟨x, y⟩,
    scroll_limit := 10 }

/-- A vertical slider in normal mode, 20 pixels wide and `height` pixels high, with
top and bottom padding `pad`, range `[0, 100]` and value 0. -/
def vertical_slider (height pad : Int) : lv_slider_t :=
  { bar := { cur_value := 0, min_value := 0, max_value := 100, start_value := 0,
             indic_area := ⟨0, 0, 19, height - 1⟩, mode := lv_slider_mode_t.NORMAL },
    left_knob_area := ⟨0, 0, 0, 0⟩, right_knob_area := ⟨0, height - 10, 19, height + 9⟩,
    pressed_point := ⟨10, height⟩, value_to_set := none,
    dragging := false, left_knob_focus := false,
    coords := ⟨0, 0, 19, height - 1⟩, width := 20, height := height,
    pad_left := 0, pad_right := 0, pad_top := pad, pad_bottom := pad,
    base_dir := lv_base_dir_t.LTR, ext_click_pad := 0,
    scroll_chain_hor := true, scroll_chain_ver := false, out := [] }

/-! ## Notions used to state the properties -/

/-- The rectangle `a` contains the point `p` with a margin of at least `m` pixels on
all four sides. -/
def area_contains (a : lv_area_t) (p : lv_point_t) (m : Int) : Prop :=
  a.x1 + m ≤ p.x ∧ p.x + m ≤ a.x2 ∧ a.y1 + m ≤ p.y ∧ p.y + m ≤ a.y2

instance (a : lv_area_t) (p : lv_point_t) (m : Int) : Decidable (area_contains a p m) := by
  unfold area_contains
  infer_instance

/-- The centre of the scale: the corner of the content box moved in by half its
width. -/
def scale_center (ext : lv_meter_ext_t) (scale_area : lv_area_t) : lv_point_t :=
  ⟨scale_area.x1 + cdiv (ext.lv_area_get_width scale_area) 2,
   scale_area.y1 + cdiv (ext.lv_area_get_width scale_area) 2⟩

/-- The end point of a needle line with radius modifier `r_mod` at `value`: the centre
plus `r_out` times the cosine and the sine of the mapped angle, where `r_out` is half
the width of the scale area plus the radius modifiers of the scale and of the
needle. -/
def needle_end (ext : lv_meter_ext_t) (meter : lv_meter_t) (r_mod : Int) (value : Int) :
    lv_point_t :=
  let r_out := cdiv (ext.lv_area_get_width meter.content_coords) 2 + meter.scale.r_mod + r_mod
  let angle := map_to_angle meter.scale value
  ⟨cdiv (ext.lv_trigo_cos angle * r_out) ext.LV_TRIGO_SIN_MAX
      + (scale_center ext meter.content_coords).x,
   cdiv (ext.lv_trigo_sin angle * r_out) ext.LV_TRIGO_SIN_MAX
      + (scale_center ext meter.content_coords).y⟩

/-- Collaborators to evaluate the meter with: sine and cosine of a whole number of
quarter turns (zero elsewhere), boxes that are the square around an arc and the
untransformed image, images of 40 by 10 pixels. -/
def sample_ext : lv_meter_ext_t :=
  { lv_trigo_sin := fun a => if a % 360 = 90 then 32767 else if a % 360 = 270 then -32767 else 0,
    lv_trigo_cos := fun a => if a % 360 = 0 then 32767 else if a % 360 = 180 then -32767 else 0,
    LV_TRIGO_SIN_MAX := 32767,
    LV_OPA_MAX := 253,
    LV_SCALE_NONE := 256,
    lv_area_get_width := fun a => a.x2 - a.x1 + 1,
    lv_area_get_height := fun a => a.y2 - a.y1 + 1,
    lv_draw_arc_get_area := fun x y r _ _ _ _ => ⟨x - r, y - r, x + r, y + r⟩,
    lv_image_decoder_get_info := fun _ => (40, 10),
    _lv_image_buf_get_transformed_area := fun w h _ _ _ => ⟨0, 0, w - 1, h - 1⟩,
    lv_color_mix := fun c1 _ _ => c1 }

/-- A needle line of width 4 and radius modifier -10 at value 0. -/
def sample_needle : lv_meter_indicator_t :=
  { zero_indicator with
    type := lv_meter_indicator_type_t.NEEDLE_LINE, opa := LV_OPA_COVER,
    type_data := { zero_indicator.type_data with
      needle_line := { width := 4, r_mod := -10, color := ⟨255, 0, 0⟩ } } }

/-- An arc of width 6 from value 10 to value 10. -/
def sample_arc : lv_meter_indicator_t :=
  { zero_indicator with
    type := lv_meter_indicator_type_t.ARC, opa := LV_OPA_COVER,
    start_value := 10, end_value := 10,
    type_data := { zero_indicator.type_data with
      arc := { width := 6, src := none, color := ⟨0, 0, 255⟩, r_mod := 0 } } }

/-- A meter with the default scale, a content box of 200 by 200 pixels and two
indicators: a needle line (added last) and an arc. -/
def sample_meter : lv_meter_t :=
  { scale := lv_meter_constructor_scale zero_scale,
    indicator_ll := [sample_needle, sample_arc],
    content_coords := ⟨0, 0, 199, 199⟩,
    arc_rounded := false, opa_main := 255, invalidated := [] }

/-- What one call `inv_line(obj, indic, value)` hands to the repaint scheduler. -/
def inv_line_events (ext : lv_meter_ext_t) (meter : lv_meter_t)
    (indic : lv_meter_indicator_t) (value : Int) : List lv_inv_t :=
  (inv_line ext { meter with invalidated := [] } indic value).invalidated

/-- What one call `inv_arc(obj, indic, old_value, new_value)` hands to the repaint
scheduler. -/
def inv_arc_events (ext : lv_meter_ext_t) (meter : lv_meter_t)
    (indic : lv_meter_indicator_t) (old_value new_value : Int) : List lv_inv_t :=
  (inv_arc ext { meter with invalidated := [] } indic old_value new_value).invalidated

/-- One call of a factory, with its arguments. -/
inductive add_call_t where
  | needle_line (width : Nat) (color : lv_color_t) (r_mod : Int)
  | needle_image (src : Option Nat) (pivot_x pivot_y : Int)
  | arc (width : Nat) (color : lv_color_t) (r_mod : Int)
  | scale_lines (color_start color_end : lv_color_t) (loc : Bool) (width_mod : Int)
  deriving DecidableEq, Repr

/-- The factory call `c` on `meter`, the allocator holding `node`. -/
def add_indicator (meter : lv_meter_t) (node : Option lv_meter_indicator_t)
    (c : add_call_t) : lv_meter_t × Option Nat :=
  match c with
  | add_call_t.needle_line width color r_mod =>
    lv_meter_add_needle_line meter node width color r_mod
  | add_call_t.needle_image src pivot_x pivot_y =>
    lv_meter_add_needle_image meter node src pivot_x pivot_y
  | add_call_t.arc width color r_mod => lv_meter_add_arc meter node width color r_mod
  | add_call_t.scale_lines color_start color_end loc width_mod =>
    lv_meter_add_scale_lines meter node color_start color_end loc width_mod

/-- A sequence of factory calls that all succeed: each call comes with the content of
the node the allocator hands out for it. -/
def add_indicators (meter : lv_meter_t) :
    List (lv_meter_indicator_t × add_call_t) → lv_meter_t
  | [] => meter
  | (junk, c) :: rest => add_indicators (add_indicator meter (some junk) c).1 rest

/-- The record the spec asks of a factory: all fields zero, full opacity, the tag of
the variant, and the fields of the variant equal to the arguments. -/
def new_indicator (c : add_call_t) : lv_meter_indicator_t :=
  match c with
  | add_call_t.needle_line width color r_mod =>
    { zero_indicator with
      opa := LV_OPA_COVER, type := lv_meter_indicator_type_t.NEEDLE_LINE,
      type_data := { zero_indicator.type_data with
        needle_line := { width := width, r_mod := r_mod, color := color } } }
  | add_call_t.needle_image src pivot_x pivot_y =>
    { zero_indicator with
      opa := LV_OPA_COVER, type := lv_meter_indicator_type_t.NEEDLE_IMG,
      type_data := { zero_indicator.type_data with
        needle_img := { src := src, pivot := ⟨pivot_x, pivot_y⟩ } } }
  | add_call_t.arc width color r_mod =>
    { zero_indicator with
      opa := LV_OPA_COVER, type := lv_meter_indicator_type_t.ARC,
      type_data := { zero_indicator.type_data with
        arc := { width := width, src := none, color := color, r_mod := r_mod } } }
  | add_call_t.scale_lines color_start color_end loc width_mod =>
    { zero_indicator with
      opa := LV_OPA_COVER, type := lv_meter_indicator_type_t.SCALE_LINES,
      type_data := { zero_indicator.type_data with
        scale_lines := { width_mod := width_mod, color_start := color_start,
                         color_end := color_end, local_grad := loc } } }

/-- The length of the padded interior of the track along the axis of the slider:
`indic_w` of `update_knob_pos` for a horizontal slider and `indic_h` for a vertical
one. -/
def track_length (slider : lv_slider_t) : Int :=
  if is_slider_horizontal slider then slider.width - slider.pad_left - slider.pad_right
  else slider.height - slider.pad_bottom - slider.pad_top

/-- The sample arc with opacity 200. -/
def dim_arc : lv_meter_indicator_t := { sample_arc with opa := 200 }

/-- The effective opacity of an indicator as the three draw sites compute it: the
opacity `p` of the widget when the opacity `o` of the indicator is above `LV_OPA_MAX`,
else `p * o` shifted right by 8 bits. -/
def effective_opa (ext : lv_meter_ext_t) (p o : Nat) : Nat :=
  if o > ext.LV_OPA_MAX then p else p * o / 256

/-- The point `p` lies in the rectangle `a` enlarged by `pad` on every side. -/
def in_enlarged (a : lv_area_t) (pad : Int) (p : lv_point_t) : Prop :=
  a.x1 - pad ≤ p.x ∧ p.x ≤ a.x2 + pad ∧ a.y1 - pad ≤ p.y ∧ p.y ≤ a.y2 + pad

instance (a : lv_area_t) (pad : Int) (p : lv_point_t) : Decidable (in_enlarged a pad p) := by
  unfold in_enlarged
  infer_instance

/-- The pointer `p` is beyond the far edge of the end (right) knob along the axis of the
slider: right of it on a horizontal slider (left of it with a right-to-left base
direction), above it on a vertical one. -/
def beyond_end_knob (p : lv_point_t) (slider : lv_slider_t) : Bool :=
  if is_slider_horizontal slider then
    if slider.base_dir = lv_base_dir_t.RTL then decide (p.x < slider.right_knob_area.x1)
    else decide (p.x > slider.right_knob_area.x2)
  else decide (p.y < slider.right_knob_area.y1)

/-- The pointer `p` is before the near edge of the start (left) knob along the axis of
the slider: left of it on a horizontal slider (right of it with a right-to-left base
direction), below it on a vertical one. -/
def before_start_knob (p : lv_point_t) (slider : lv_slider_t) : Bool :=
  if is_slider_horizontal slider then
    if slider.base_dir = lv_base_dir_t.RTL then decide (p.x > slider.left_knob_area.x2)
    else decide (p.x < slider.left_knob_area.x1)
  else decide (p.y > slider.left_knob_area.y2)

/-- The distance along the axis of the slider between the pointer `p` and the centre
of the knob rectangle `a`. -/
def knob_distance (a : lv_area_t) (p : lv_point_t) (slider : lv_slider_t) : Int :=
  if is_slider_horizontal slider then LV_ABS ((a.x1 + cdiv (a.x2 - a.x1) 2) - p.x)
  else LV_ABS ((a.y1 + cdiv (a.y2 - a.y1) 2) - p.y)

/-- The knob a drag in range mode targets, in the words of the spec except for the
tie: the end value beyond the end knob, the start value before the start knob, else
the knob whose centre is closer, and the start value when the distances are equal. -/
def range_target (p : lv_point_t) (slider : lv_slider_t) : value_ref_t :=
  if beyond_end_knob p slider then value_ref_t.cur_value
  else if before_start_knob p slider then value_ref_t.start_value
  else if knob_distance slider.right_knob_area p slider
      < knob_distance slider.left_knob_area p slider then value_ref_t.cur_value
  else value_ref_t.start_value

/-- The offset of the device `m` from the pressed point along the axis of the slider is
below the scroll limit of the device. -/
def below_scroll_limit (slider : lv_slider_t) (m : lv_indev_t) : Prop :=
  LV_ABS (if is_slider_horizontal slider then m.point.x - slider.pressed_point.x
    else m.point.y - slider.pressed_point.y) < m.scroll_limit

instance (slider : lv_slider_t) (m : lv_indev_t) : Decidable (below_scroll_limit slider m) := by
  unfold below_scroll_limit
  infer_instance

/-- Collaborators to evaluate the tick pass with: a point transform that leaves the
point where it is and labels of 16 by 8 pixels. -/
def sample_text : lv_ticks_ext_t :=
  { lv_point_transform := fun p _ _ _ => p,
    lv_text_get_size := fun _ => ⟨16, 8⟩ }

/-- The sample meter with `cnt` ticks of which every `nth` is major. -/
def ticks_meter (cnt nth : Nat) : lv_meter_t :=
  { sample_meter with
    scale := { sample_meter.scale with tick_cnt := cnt, tick_major_nth := nth } }

/-- The horizontal sample slider with its 200 pixels taken up by the paddings: the
padded interior has width 0. -/
def padded_out_slider : lv_slider_t :=
  { normal_slider 0 100 with pad_left := 100, pad_right := 100 }

/-- The rotation that `draw_needles` and `inv_line` derive from the mapped angle of a
needle image: the angle times ten, less 3600 when that is above 3600. -/
def needle_rotation (angle : Int) : Int :=
  if wrap32 (angle * 10) > 3600 then wrap32 (angle * 10) - 3600 else wrap32 (angle * 10)

/-- The rotation of an `lv_draw_image` call of `draw_needles`. -/
def drawn_rotation (d : lv_needle_draw_t) : Option Int :=
  match d with
  | lv_needle_draw_t.line _ => none
  | lv_needle_draw_t.image dsc _ => some dsc.rotation

/-- The area `inv_line` invalidates for a needle image drawn with the rotation
`rotation`: the transformed bounding box of the image, moved to the scale centre less
the pivot and widened by 2. -/
def image_inv_area (ext : lv_meter_ext_t) (meter : lv_meter_t)
    (indic : lv_meter_indicator_t) (rotation : Int) : lv_area_t :=
  let c := scale_center ext meter.content_coords
  let info := ext.lv_image_decoder_get_info indic.type_data.needle_img.src
  let t := ext._lv_image_buf_get_transformed_area info.1 info.2 rotation ext.LV_SCALE_NONE
    indic.type_data.needle_img.pivot
  { x1 := t.x1 + (c.x - indic.type_data.needle_img.pivot.x - 2),
    y1 := t.y1 + (c.y - indic.type_data.needle_img.pivot.y - 2),
    x2 := t.x2 + (c.x - indic.type_data.needle_img.pivot.x + 2),
    y2 := t.y2 + (c.y - indic.type_data.needle_img.pivot.y + 2) }

/-- The default scale with the range `[0, 270]`: one unit of value is one degree. -/
def degree_scale : lv_meter_scale_t :=
  { lv_meter_constructor_scale zero_scale with max := 270 }

/-- A needle image with pivot `(5, 5)` at the value 225. -/
def sample_image : lv_meter_indicator_t :=
  { zero_indicator with
    type := lv_meter_indicator_type_t.NEEDLE_IMG, opa := LV_OPA_COVER,
    start_value := 225, end_value := 225,
    type_data := { zero_indicator.type_data with
      needle_img := { src := some 1, pivot := ⟨5, 5⟩ } } }

/-- The sample meter with the scale `degree_scale` and the needle image. -/
def image_meter : lv_meter_t :=
  { sample_meter with scale := degree_scale, indicator_ll := [sample_image] }

/-- The scale-lines indicator `indic` covers the tick value `v`: `v` lies in
`[start_value, end_value]`. -/
def tick_covered (v : Int) (indic : lv_meter_indicator_t) : Bool :=
  decide (indic.type = lv_meter_indicator_type_t.SCALE_LINES
    ∧ indic.start_value ≤ v ∧ v ≤ indic.end_value)

/-- The position of `v` in `[lo, hi]` as a ratio from 0 to 255, stored in an
`lv_opa_t`. -/
def opa_ratio (v lo hi : Int) : Nat :=
  (lv_map v lo hi LV_OPA_TRANSP LV_OPA_COVER % 256).toNat

/-- The colour a covering scale-lines indicator gives a tick of value `v`, in the words
of the spec: its flat colour when start and end colour are equal, otherwise the end
colour mixed toward the start colour by the ratio of `v` in the range of the indicator
(local gradient) or of the scale. -/
def resolved_color (ext : lv_meter_ext_t) (scale : lv_meter_scale_t) (v : Int)
    (indic : lv_meter_indicator_t) : lv_color_t :=
  if indic.type_data.scale_lines.color_start = indic.type_data.scale_lines.color_end then
    indic.type_data.scale_lines.color_start
  else
    ext.lv_color_mix indic.type_data.scale_lines.color_end
      indic.type_data.scale_lines.color_start
      (if indic.type_data.scale_lines.local_grad then
        opa_ratio v indic.start_value indic.end_value
      else opa_ratio v scale.min scale.max)

/-- The colour of a tick of value `v` after the scan of the indicators `seen`, given in
scan order: `line_color` when none of them covers `v`, else the colour resolved from
the last that does. -/
def last_cover_color (ext : lv_meter_ext_t) (scale : lv_meter_scale_t) (v : Int)
    (line_color : lv_color_t) (seen : List lv_meter_indicator_t) : lv_color_t :=
  match (seen.filter (tick_covered v)).getLast? with
  | none => line_color
  | some indic => resolved_color ext scale v indic

/-- Scale lines from red to green over `[lo, hi]` with a local gradient. -/
def sample_lines (lo hi : Int) : lv_meter_indicator_t :=
  { zero_indicator with
    type := lv_meter_indicator_type_t.SCALE_LINES, opa := LV_OPA_COVER,
    start_value := lo, end_value := hi,
    type_data := { zero_indicator.type_data with
      scale_lines := { width_mod := 1, color_start := ⟨255, 0, 0⟩, color_end := ⟨0, 255, 0⟩,
                       local_grad := true } } }

/-- Flat blue scale lines over `[lo, hi]`. -/
def blue_lines (lo hi : Int) : lv_meter_indicator_t :=
  { zero_indicator with
    type := lv_meter_indicator_type_t.SCALE_LINES, opa := LV_OPA_COVER,
    start_value := lo, end_value := hi,
    type_data := { zero_indicator.type_data with
      scale_lines := { width_mod := 0, color_start := ⟨0, 0, 255⟩, color_end := ⟨0, 0, 255⟩,
                       local_grad := false } } }

/-- The sample meter with 6 ticks, every third major, and two scale-lines indicators:
a gradient over `[0, 100]` added first and flat blue over `[50, 100]` added last. -/
def lines_meter : lv_meter_t :=
  { ticks_meter 6 3 with indicator_ll := [blue_lines 50 100, sample_lines 0 100] }

/-- The sample meter with 65535 ticks over an angle range of 6554 degrees: at its last
ticks the product `i * angle_range * 10` passes `2^32`. -/
def crowded_meter : lv_meter_t :=
  { sample_meter with
    scale := { sample_meter.scale with tick_cnt := 65535, angle_range := 6554 } }

theorem wrap32_of_range (x : Int) (h1 : -2147483648 ≤ x) (h2 : x < 2147483648) :
    wrap32 x = x := by
  unfold wrap32
  omega

theorem wrap32_ge (x : Int) : -2147483648 ≤ wrap32 x := by
  unfold wrap32
  omega

theorem wrap32_lt (x : Int) : wrap32 x < 2147483648 := by
  unfold wrap32
  omega

theorem cdiv_of_nonneg (a b : Int) (ha : 0 ≤ a) (hb : 0 ≤ b) : cdiv a b = a / b := by
  unfold cdiv
  exact Int.tdiv_eq_ediv ha hb

/-- Without overflow `lv_map` is the floor of the exact interpolation, saturation
included, on an increasing input range and a non-decreasing output range. -/
theorem lv_map_exact (x a b lo hi : Int) (hab : a < b) (hax : a ≤ x) (hxb : x ≤ b)
    (hlo : 0 ≤ lo) (hlohi : lo ≤ hi) (hhi : hi < 2147483648)
    (hmul : (b - a) * (hi - lo) < 2147483648) :
    lv_map x a b lo hi = lo + ((x - a) * (hi - lo)) / (b - a) := by
  have hD : 0 < b - a := by omega
  have hR : 0 ≤ hi - lo := by omega
  unfold lv_map
  by_cases h1 : x ≥ b
  · have hx : x = b := by omega
    subst hx
    rw [if_pos h1, Int.mul_ediv_cancel_left _ (by omega : x - a ≠ 0)]
    omega
  · rw [if_neg h1]
    by_cases h2 : x ≤ a
    · have hx : x = a := by omega
      subst hx
      rw [if_pos h2]
      simp
    · rw [if_neg h2]
      have hxa : 0 < x - a := by omega
      have hxD : x - a < b - a := by omega
      have hprod0 : 0 ≤ (x - a) * (hi - lo) := Int.mul_nonneg (by omega) hR
      have hprod1 : (x - a) * (hi - lo) ≤ (b - a) * (hi - lo) :=
        Int.mul_le_mul_of_nonneg_right (by omega) hR
      have hw2 : wrap32 (hi - lo) = hi - lo := wrap32_of_range _ (by omega) (by omega)
      by_cases hR0 : hi - lo = 0
      · have hz : wrap32 0 = 0 := by decide
        simp only [hR0, hz, mul_zero]
        have hc : cdiv 0 (wrap32 (b - a)) = 0 := by
          unfold cdiv
          exact Int.zero_tdiv _
        rw [hc]
        simp only [Int.zero_ediv, Int.zero_add, Int.add_zero]
        exact wrap32_of_range _ (by omega) (by omega)
      · have hRpos : 1 ≤ hi - lo := by omega
        have hDle : b - a ≤ (b - a) * (hi - lo) := by nlinarith
        have hw1 : wrap32 (b - a) = b - a := wrap32_of_range _ (by omega) (by omega)
        have hw3 : wrap32 (x - a) = x - a := wrap32_of_range _ (by omega) (by omega)
        have hw4 : wrap32 ((x - a) * (hi - lo)) = (x - a) * (hi - lo) :=
          wrap32_of_range _ (by omega) (by omega)
        simp only [hw1, hw2, hw3, hw4]
        rw [cdiv_of_nonneg _ _ hprod0 (by omega)]
        have hq0 : 0 ≤ (x - a) * (hi - lo) / (b - a) := Int.ediv_nonneg hprod0 (by omega)
        have hq1 : (x - a) * (hi - lo) / (b - a) ≤ hi - lo :=
          Int.ediv_le_of_le_mul hD (by rw [Int.mul_comm (hi - lo)]; exact hprod1)
        rw [wrap32_of_range _ (by omega) (by omega)]
        omega

/-! ### The value-to-angle mapping (claims C1, C2) -/

/-- Claim C1: on a scale with `min < max` the value-to-angle mapping returns for
`value = min` the `int32_t` value of `rotation`, and for `value = max` the `int32_t`
value of `rotation + angle_range`, with no rounding and whatever the size of the range;
these are the numbers `rotation` and `rotation + angle_range` themselves whenever the
sum is below `2^31`. -/
theorem map_to_angle_endpoints (scale : lv_meter_scale_t) (h : scale.min < scale.max) :
    map_to_angle scale scale.min = wrap32 scale.rotation
    ∧ map_to_angle scale scale.max = wrap32 (scale.rotation + scale.angle_range)
    ∧ ((scale.rotation : Int) + scale.angle_range < 2147483648 →
        map_to_angle scale scale.min = scale.rotation
        ∧ map_to_angle scale scale.max = scale.rotation + scale.angle_range) := by
  have hmin : map_to_angle scale scale.min = wrap32 scale.rotation := by
    unfold map_to_angle lv_map
    rw [if_neg (by omega), if_pos (Int.le_refl _)]
  have hmax : map_to_angle scale scale.max = wrap32 (scale.rotation + scale.angle_range) := by
    unfold map_to_angle lv_map
    rw [if_pos (Int.le_refl _)]
  refine ⟨hmin, hmax, fun hfit => ?_⟩
  rw [hmin, hmax]
  exact ⟨wrap32_of_range _ (by omega) (by omega), wrap32_of_range _ (by omega) (by omega)⟩

/-- Witness for claim C1, the scale the constructor sets up: range `[0, 100]`, `angle_range`
270 and `rotation` 135; value 0 is mapped to 135 and value 100 to 405. -/
theorem map_to_angle_endpoints_default :
    (lv_meter_constructor_scale zero_scale).min < (lv_meter_constructor_scale zero_scale).max
    ∧ map_to_angle (lv_meter_constructor_scale zero_scale) 0 = 135
    ∧ map_to_angle (lv_meter_constructor_scale zero_scale) 100 = 405 :=
  have h := map_to_angle_endpoints (lv_meter_constructor_scale zero_scale) (by decide)
  ⟨by decide, (h.2.2 (by decide)).1, (h.2.2 (by decide)).2⟩

/-- Counterexample to claim C2 as stated: on the scale `[0, 100000000]` with `angle_range` 270 and
`rotation` 135 the product `(value - min) * angle_range` leaves the `int32_t` range
between the values 7953643 and 7953644, and the angle drops from 156 to 114. -/
theorem map_to_angle_not_monotone :
    wide_scale.min < wide_scale.max
    ∧ wide_scale.min ≤ 7953643 ∧ (7953643 : Int) ≤ 7953644 ∧ 7953644 ≤ wide_scale.max
    ∧ map_to_angle wide_scale 7953643 = 156
    ∧ map_to_angle wide_scale 7953644 = 114
    ∧ ¬ (map_to_angle wide_scale 7953643 ≤ map_to_angle wide_scale 7953644) := by
  decide

/-- Claim C2, amended: on a scale with `min < max` whose products stay in the `int32_t`
range, `(max - min) * angle_range < 2^31` and `rotation + angle_range < 2^31`, the
value-to-angle mapping is non-decreasing on `[min, max]`. -/
theorem map_to_angle_monotone (scale : lv_meter_scale_t) (v1 v2 : Int)
    (h : scale.min < scale.max)
    (hfit : (scale.rotation : Int) + scale.angle_range < 2147483648)
    (hmul : (scale.max - scale.min) * scale.angle_range < 2147483648)
    (h1 : scale.min ≤ v1) (h12 : v1 ≤ v2) (h2 : v2 ≤ scale.max) :
    map_to_angle scale v1 ≤ map_to_angle scale v2 := by
  have hr : wrap32 scale.rotation = scale.rotation :=
    wrap32_of_range _ (by omega) (by omega)
  have hs : wrap32 (scale.rotation + scale.angle_range) = scale.rotation + scale.angle_range :=
    wrap32_of_range _ (by omega) (by omega)
  have hd : (scale.rotation : Int) + scale.angle_range - scale.rotation = scale.angle_range := by
    omega
  unfold map_to_angle
  rw [hr, hs]
  rw [lv_map_exact v1 _ _ _ _ h h1 (by omega) (by omega) (by omega) hfit (by rw [hd]; exact hmul)]
  rw [lv_map_exact v2 _ _ _ _ h (by omega) h2 (by omega) (by omega) hfit (by rw [hd]; exact hmul)]
  rw [hd]
  have hmono : (v1 - scale.min) * (scale.angle_range : Int) ≤ (v2 - scale.min) * scale.angle_range :=
    Int.mul_le_mul_of_nonneg_right (by omega) (by omega)
  have := Int.ediv_le_ediv (by omega : (0 : Int) < scale.max - scale.min) hmono
  omega

/-- Witness for the amended claim C2, at the default scale: the angle of 25 is at most the angle
of 75. -/
theorem map_to_angle_monotone_default :
    map_to_angle (lv_meter_constructor_scale zero_scale) 25
      ≤ map_to_angle (lv_meter_constructor_scale zero_scale) 75 :=
  map_to_angle_monotone (lv_meter_constructor_scale zero_scale) 25 75
    (by decide) (by decide) (by decide) (by decide) (by decide) (by decide)

/-! ### Slider: clamping of the dragged value (claims C3, C4, C5) -/

theorem LV_CLAMP_bounds (lo v hi : Int) (h : lo ≤ hi) :
    lo ≤ LV_CLAMP lo v hi ∧ LV_CLAMP lo v hi ≤ hi := by
  unfold LV_CLAMP LV_MAX LV_MIN
  split_ifs <;> omega

theorem LV_CLAMP_above (lo v hi : Int) (h : lo ≤ hi) (hv : hi < v) : LV_CLAMP lo v hi = hi := by
  unfold LV_CLAMP LV_MAX LV_MIN
  split_ifs <;> omega

theorem LV_CLAMP_below (lo v hi : Int) (h : lo ≤ hi) (hv : v < lo) : LV_CLAMP lo v hi = lo := by
  unfold LV_CLAMP LV_MAX LV_MIN
  split_ifs <;> omega

theorem LV_CLAMP_inside (lo v hi : Int) (h1 : lo ≤ v) (h2 : v ≤ hi) : LV_CLAMP lo v hi = v := by
  unfold LV_CLAMP LV_MAX LV_MIN
  split_ifs <;> omega

theorem drag_start_bar (indev : lv_indev_t) (slider : lv_slider_t) :
    (drag_start indev slider).bar = slider.bar := by
  unfold drag_start
  simp only
  split_ifs <;> rfl

theorem drag_start_value_to_set (indev : lv_indev_t) (slider : lv_slider_t) :
    (drag_start indev slider).value_to_set ≠ none := by
  unfold drag_start
  cases hm : slider.bar.mode
  · simp
  · simp
  · simp only [reduceCtorEq, or_self, if_false, if_true]
    split_ifs <;> simp

theorem drag_start_knob_new_value (indev : lv_indev_t) (slider : lv_slider_t)
    (p : lv_point_t) (is_hor : Bool) :
    knob_new_value p (drag_start indev slider) is_hor = knob_new_value p slider is_hor := by
  unfold drag_start
  simp only
  split_ifs <;> rfl

/-- The limits `knob_store` clamps to: `[min_value, cur_value]` for the start knob and
`[start_value, max_value]` for the end knob. -/
theorem knob_store_bar (slider : lv_slider_t) (is_hor : Bool) (v : Int) (r : value_ref_t)
    (hr : slider.value_to_set = some r) :
    ∃ s, knob_store slider is_hor v = some s
      ∧ s.bar.min_value = slider.bar.min_value ∧ s.bar.max_value = slider.bar.max_value
      ∧ (r = value_ref_t.start_value →
          s.bar.start_value = LV_CLAMP slider.bar.min_value v slider.bar.cur_value
          ∧ s.bar.cur_value = slider.bar.cur_value)
      ∧ (r = value_ref_t.cur_value →
          s.bar.cur_value = LV_CLAMP slider.bar.start_value v slider.bar.max_value
          ∧ s.bar.start_value = slider.bar.start_value) := by
  unfold knob_store
  cases r
  · simp only [hr, read_value, write_value, Option.some.injEq, reduceCtorEq, if_false]
    by_cases h : slider.bar.cur_value = LV_CLAMP slider.bar.start_value v slider.bar.max_value
    · rw [if_neg (not_not.mpr h)]
      exact ⟨_, rfl, rfl, rfl, by simp, fun _ => ⟨h, rfl⟩⟩
    · rw [if_pos h]
      cases is_hor <;> exact ⟨_, rfl, rfl, rfl, by simp, fun _ => ⟨rfl, rfl⟩⟩
  · simp only [hr, read_value, write_value, if_true]
    by_cases h : slider.bar.start_value = LV_CLAMP slider.bar.min_value v slider.bar.cur_value
    · rw [if_neg (not_not.mpr h)]
      exact ⟨_, rfl, rfl, rfl, fun _ => ⟨h, rfl⟩, by simp⟩
    · rw [if_pos h]
      cases is_hor <;> exact ⟨_, rfl, rfl, rfl, fun _ => ⟨rfl, rfl⟩, by simp⟩

theorem knob_new_value_some (p : lv_point_t) (slider : lv_slider_t)
    (hlen : 0 < track_length slider) :
    ∃ v, knob_new_value p slider (is_slider_horizontal slider) = some v := by
  unfold track_length at hlen
  unfold knob_new_value
  cases hh : is_slider_horizontal slider
  · rw [hh] at hlen
    simp only [Bool.false_eq_true, if_false] at hlen ⊢
    rw [if_neg (by omega)]
    exact ⟨_, rfl⟩
  · simp only [if_true]
    split_ifs <;> exact ⟨_, rfl⟩

/-- The part of `update_knob_pos` after the early returns: the drag target is chosen
when there is none, and the knob that is dragged receives the converted value clamped
to its limits. -/
theorem update_knob_pos_tail (indev : lv_indev_t) (slider : lv_slider_t) (v : Int)
    (hv : knob_new_value indev.point slider (is_slider_horizontal slider) = some v) :
    ∃ s r, (match knob_new_value indev.point
              (if slider.value_to_set = none then drag_start indev slider else slider)
              (is_slider_horizontal slider) with
            | none => none
            | some new_value =>
              knob_store (if slider.value_to_set = none then drag_start indev slider else slider)
                (is_slider_horizontal slider) new_value) = some s
      ∧ (if slider.value_to_set = none then drag_start indev slider else slider).value_to_set
          = some r
      ∧ s.bar.min_value = slider.bar.min_value ∧ s.bar.max_value = slider.bar.max_value
      ∧ (r = value_ref_t.start_value →
          s.bar.start_value = LV_CLAMP slider.bar.min_value v slider.bar.cur_value
          ∧ s.bar.cur_value = slider.bar.cur_value)
      ∧ (r = value_ref_t.cur_value →
          s.bar.cur_value = LV_CLAMP slider.bar.start_value v slider.bar.max_value
          ∧ s.bar.start_value = slider.bar.start_value) := by
  by_cases g : slider.value_to_set = none
  · simp only [if_pos g]
    rw [drag_start_knob_new_value, hv]
    cases hr : (drag_start indev slider).value_to_set with
    | none => exact absurd hr (drag_start_value_to_set indev slider)
    | some r =>
      obtain ⟨s, hs, hmin, hmax, hstart, hcur⟩ := knob_store_bar (drag_start indev slider)
        (is_slider_horizontal slider) v r hr
      rw [drag_start_bar] at hmin hmax hstart hcur
      exact ⟨s, r, hs, rfl, hmin, hmax, hstart, hcur⟩
  · simp only [if_neg g]
    rw [hv]
    cases hr : slider.value_to_set with
    | none => exact absurd hr g
    | some r =>
      obtain ⟨s, hs, hmin, hmax, hstart, hcur⟩ := knob_store_bar slider
        (is_slider_horizontal slider) v r hr
      exact ⟨s, r, hs, rfl, hmin, hmax, hstart, hcur⟩

/-- What `update_knob_pos` leaves in the bar: either the call returns before the value
computation and the slider is as before, or the knob that is dragged holds the
converted value clamped to its limits. -/
theorem update_knob_pos_bar (indev : lv_indev_t) (slider : lv_slider_t) (check_drag : Bool)
    (v : Int) (hv : knob_new_value indev.point slider (is_slider_horizontal slider) = some v) :
    ∃ s, update_knob_pos indev slider check_drag = some s
      ∧ s.bar.min_value = slider.bar.min_value ∧ s.bar.max_value = slider.bar.max_value
      ∧ (s = slider
        ∨ (s.bar.start_value = LV_CLAMP slider.bar.min_value v slider.bar.cur_value
            ∧ s.bar.cur_value = slider.bar.cur_value)
        ∨ (s.bar.cur_value = LV_CLAMP slider.bar.start_value v slider.bar.max_value
            ∧ s.bar.start_value = slider.bar.start_value)) := by
  unfold update_knob_pos
  by_cases g1 : indev.type ≠ lv_indev_type_t.POINTER
  · rw [if_pos g1]
    exact ⟨slider, rfl, rfl, rfl, Or.inl rfl⟩
  rw [if_neg g1]
  by_cases g2 : indev.scroll_obj = true
  · rw [if_pos g2]
    exact ⟨slider, rfl, rfl, rfl, Or.inl rfl⟩
  rw [if_neg g2]
  simp only
  obtain ⟨s, r, hs, _, hmin, hmax, hstart, hcur⟩ := update_knob_pos_tail indev slider v hv
  by_cases g3 : drag_check_stops indev slider check_drag = true
  · rw [if_pos g3]
    exact ⟨slider, rfl, rfl, rfl, Or.inl rfl⟩
  · rw [if_neg g3]
    refine ⟨s, hs, hmin, hmax, Or.inr ?_⟩
    cases r
    · exact Or.inr (hcur rfl)
    · exact Or.inl (hstart rfl)

/-- Claim C3: on a slider whose track has a positive length and whose bar satisfies
`min_value ≤ start_value ≤ cur_value ≤ max_value`, `update_knob_pos` returns for every
pointer, with or without the drag check and whatever `value_to_set` is, and afterwards
the limits are the same and `min_value ≤ start_value ≤ cur_value ≤ max_value` holds
again: the value written to the dragged knob is inside `[min_value, max_value]` and the
knobs have not crossed. -/
theorem update_knob_pos_keeps_order (indev : lv_indev_t) (slider : lv_slider_t)
    (check_drag : Bool) (hlen : 0 < track_length slider)
    (h1 : slider.bar.min_value ≤ slider.bar.start_value)
    (h2 : slider.bar.start_value ≤ slider.bar.cur_value)
    (h3 : slider.bar.cur_value ≤ slider.bar.max_value) :
    ∃ s, update_knob_pos indev slider check_drag = some s
      ∧ s.bar.min_value = slider.bar.min_value ∧ s.bar.max_value = slider.bar.max_value
      ∧ s.bar.min_value ≤ s.bar.start_value
      ∧ s.bar.start_value ≤ s.bar.cur_value
      ∧ s.bar.cur_value ≤ s.bar.max_value := by
  obtain ⟨v, hv⟩ := knob_new_value_some indev.point slider hlen
  obtain ⟨s, hs, hmin, hmax, hcase⟩ := update_knob_pos_bar indev slider check_drag v hv
  refine ⟨s, hs, hmin, hmax, ?_⟩
  rw [hmin, hmax]
  rcases hcase with h | ⟨ha, hb⟩ | ⟨ha, hb⟩
  · subst h
    exact ⟨h1, h2, h3⟩
  · have hc := LV_CLAMP_bounds slider.bar.min_value v slider.bar.cur_value (by omega)
    rw [ha, hb]
    exact ⟨hc.1, hc.2, h3⟩
  · have hc := LV_CLAMP_bounds slider.bar.start_value v slider.bar.max_value (by omega)
    rw [ha, hb]
    exact ⟨h1, hc.1, hc.2⟩

/-- Witness for claim C3, the range slider with start 20 and end 80 and the pointer at
`x = 190`:
the call returns and the values are ordered afterwards. -/
theorem update_knob_pos_keeps_order_range_slider :
    0 < track_length range_slider
    ∧ ∃ s, update_knob_pos (pointer_at 190) range_slider true = some s
      ∧ s.bar.min_value = 0 ∧ s.bar.max_value = 100
      ∧ s.bar.min_value ≤ s.bar.start_value
      ∧ s.bar.start_value ≤ s.bar.cur_value
      ∧ s.bar.cur_value ≤ s.bar.max_value :=
  ⟨by decide,
   update_knob_pos_keeps_order (pointer_at 190) range_slider true (by decide) (by decide)
    (by decide) (by decide)⟩

/-- Past the early returns `update_knob_pos` is the value computation. -/
theorem update_knob_pos_run (indev : lv_indev_t) (slider : lv_slider_t) (check_drag : Bool)
    (htype : indev.type = lv_indev_type_t.POINTER) (hscroll : indev.scroll_obj = false)
    (hgo : drag_check_stops indev slider check_drag = false) :
    update_knob_pos indev slider check_drag
      = (match knob_new_value indev.point
              (if slider.value_to_set = none then drag_start indev slider else slider)
              (is_slider_horizontal slider) with
            | none => none
            | some new_value =>
              knob_store (if slider.value_to_set = none then drag_start indev slider else slider)
                (is_slider_horizontal slider) new_value) := by
  unfold update_knob_pos
  rw [if_neg (by simp [htype]), if_neg (by simp [hscroll])]
  simp only
  rw [if_neg (by simp [hgo])]

/-- In normal mode `drag_start` targets the end value. -/
theorem drag_start_normal (indev : lv_indev_t) (slider : lv_slider_t)
    (hmode : slider.bar.mode = lv_slider_mode_t.NORMAL) :
    (drag_start indev slider).value_to_set = some value_ref_t.cur_value := by
  unfold drag_start
  simp [hmode]

/-- The conversion of a pointer `d` pixels right of the left edge of the padded
interior of a horizontal left-to-right slider, when the product fits `int32_t`: the
interpolation `min + (d * (max - min) + indic_w / 2) / indic_w`. -/
theorem knob_new_value_hor_ltr (p : lv_point_t) (slider : lv_slider_t) (d : Int)
    (hltr : slider.base_dir ≠ lv_base_dir_t.RTL)
    (hw : 0 < slider.width - slider.pad_left - slider.pad_right)
    (hmm : slider.bar.min_value ≤ slider.bar.max_value)
    (hmin : -2147483648 ≤ slider.bar.min_value) (hmax : slider.bar.max_value < 2147483648)
    (hfit : (slider.width - slider.pad_left - slider.pad_right)
      * (slider.bar.max_value - slider.bar.min_value + 1) < 2147483648)
    (hp : p.x = slider.coords.x1 + slider.pad_left + d)
    (hd0 : 0 ≤ d) (hd1 : d ≤ slider.width - slider.pad_left - slider.pad_right) :
    knob_new_value p slider true
      = some (slider.bar.min_value
          + (d * (slider.bar.max_value - slider.bar.min_value)
              + (slider.width - slider.pad_left - slider.pad_right) / 2)
            / (slider.width - slider.pad_left - slider.pad_right))
      ∧ 0 ≤ (d * (slider.bar.max_value - slider.bar.min_value)
              + (slider.width - slider.pad_left - slider.pad_right) / 2)
            / (slider.width - slider.pad_left - slider.pad_right)
      ∧ (d * (slider.bar.max_value - slider.bar.min_value)
              + (slider.width - slider.pad_left - slider.pad_right) / 2)
            / (slider.width - slider.pad_left - slider.pad_right)
          ≤ slider.bar.max_value - slider.bar.min_value := by
  generalize hW : slider.width - slider.pad_left - slider.pad_right = W at hw hfit hd1 ⊢
  generalize hR : slider.bar.max_value - slider.bar.min_value = R at hfit ⊢
  have hR0 : 0 ≤ R := by omega
  have hWR : W * (R + 1) = W * R + W := by ring
  have hWR0 : 0 ≤ W * R := Int.mul_nonneg (by omega) hR0
  have hRle : R ≤ W * R := by nlinarith
  have hdR0 : 0 ≤ d * R := Int.mul_nonneg hd0 hR0
  have hdR : d * R ≤ W * R := Int.mul_le_mul_of_nonneg_right hd1 hR0
  have hq0 : 0 ≤ (d * R + W / 2) / W := Int.ediv_nonneg (by omega) (by omega)
  have hq1 : (d * R + W / 2) / W ≤ R := by
    have hlt : (d * R + W / 2) / W < R + 1 := by
      apply Int.ediv_lt_of_lt_mul hw
      have : (R + 1) * W = W * R + W := by ring
      omega
    omega
  refine ⟨?_, hq0, hq1⟩
  unfold knob_new_value
  simp only [if_true, if_neg hltr, hW, hR]
  have e1 : p.x - (slider.coords.x1 + slider.pad_left) = d := by omega
  rw [if_pos (by omega), e1]
  rw [wrap32_of_range R (by omega) (by omega), wrap32_of_range d (by omega) (by omega),
    wrap32_of_range (d * R) (by omega) (by omega),
    cdiv_of_nonneg W 2 (by omega) (by omega),
    wrap32_of_range (d * R + W / 2) (by omega) (by omega),
    cdiv_of_nonneg (d * R + W / 2) W (by omega) (by omega),
    wrap32_of_range ((d * R + W / 2) / W) (by omega) (by omega),
    wrap32_of_range _ (by omega) (by omega)]
  congr 1
  omega

/-- The value a horizontal left-to-right slider in normal mode takes for a pointer `d`
pixels right of the left edge of its padded interior, when the product fits
`int32_t`. -/
theorem update_knob_pos_hor_value (indev : lv_indev_t) (slider : lv_slider_t)
    (check_drag : Bool) (d : Int)
    (htype : indev.type = lv_indev_type_t.POINTER) (hscroll : indev.scroll_obj = false)
    (hgo : drag_check_stops indev slider check_drag = false)
    (hhor : is_slider_horizontal slider = true)
    (hltr : slider.base_dir ≠ lv_base_dir_t.RTL)
    (hmode : slider.bar.mode = lv_slider_mode_t.NORMAL)
    (htarget : slider.value_to_set ≠ some value_ref_t.start_value)
    (hw : 0 < slider.width - slider.pad_left - slider.pad_right)
    (hmm : slider.bar.min_value ≤ slider.bar.max_value)
    (hstart : slider.bar.start_value = slider.bar.min_value)
    (hmin : -2147483648 ≤ slider.bar.min_value) (hmax : slider.bar.max_value < 2147483648)
    (hfit : (slider.width - slider.pad_left - slider.pad_right)
      * (slider.bar.max_value - slider.bar.min_value + 1) < 2147483648)
    (hp : indev.point.x = slider.coords.x1 + slider.pad_left + d)
    (hd0 : 0 ≤ d) (hd1 : d ≤ slider.width - slider.pad_left - slider.pad_right) :
    ∃ s, update_knob_pos indev slider check_drag = some s
      ∧ s.bar.cur_value = slider.bar.min_value
          + (d * (slider.bar.max_value - slider.bar.min_value)
              + (slider.width - slider.pad_left - slider.pad_right) / 2)
            / (slider.width - slider.pad_left - slider.pad_right) := by
  obtain ⟨hv, hq0, hq1⟩ :=
    knob_new_value_hor_ltr indev.point slider d hltr hw hmm hmin hmax hfit hp hd0 hd1
  rw [← hhor] at hv
  obtain ⟨s, r, hs, hr, _, _, _, hcur⟩ := update_knob_pos_tail indev slider _ hv
  rw [← update_knob_pos_run indev slider check_drag htype hscroll hgo] at hs
  have hrc : r = value_ref_t.cur_value := by
    by_cases g : slider.value_to_set = none
    · rw [if_pos g, drag_start_normal indev slider hmode] at hr
      exact (Option.some.inj hr).symm
    · rw [if_neg g] at hr
      cases r
      · rfl
      · exact absurd hr htarget
  obtain ⟨h1, _⟩ := hcur hrc
  refine ⟨s, hs, ?_⟩
  rw [h1, hstart]
  exact LV_CLAMP_inside _ _ _ (by omega) (by omega)

/-- Counterexample to claim C5 as stated: on the 200 pixel wide slider with range
`[0, 2147483647]` the pointer at the right edge of the padded interior multiplies
200 by the range, the product leaves the `int32_t` range, and the value stays 0
instead of becoming `max_value`. -/
theorem update_knob_pos_right_edge_overflow :
    is_slider_horizontal (normal_slider 0 2147483647) = true
    ∧ (normal_slider 0 2147483647).base_dir = lv_base_dir_t.LTR
    ∧ (normal_slider 0 2147483647).bar.mode = lv_slider_mode_t.NORMAL
    ∧ (normal_slider 0 2147483647).width - (normal_slider 0 2147483647).pad_left
        - (normal_slider 0 2147483647).pad_right = 200
    ∧ (normal_slider 0 2147483647).bar.min_value ≤ (normal_slider 0 2147483647).bar.max_value
    ∧ (normal_slider 0 2147483647).bar.start_value = (normal_slider 0 2147483647).bar.min_value
    ∧ (pointer_at 200).point.x
        = (normal_slider 0 2147483647).coords.x1 + (normal_slider 0 2147483647).pad_left + 200
    ∧ (update_knob_pos (pointer_at 200) (normal_slider 0 2147483647) false).map
        (fun s => s.bar.cur_value) = some 0
    ∧ (0 : Int) ≠ (normal_slider 0 2147483647).bar.max_value := by
  decide

/-- Claim C5, amended: a horizontal left-to-right slider in normal mode with padded
interior width `indic_w > 0`, `min_value ≤ max_value` and `start_value = min_value`,
whose product `indic_w * (max_value - min_value + 1)` is below `2^31`, handling a
pointer `d` pixels right of the left edge `coords.x1 + pad_left` of the padded
interior, takes the value `min_value` for `d = 0`, the value `max_value` for
`d = indic_w`, and `min_value + (max_value - min_value + 1) / 2`, which is half the
range rounded to nearest, for the centre `2 * d = indic_w`. -/
theorem update_knob_pos_horizontal (indev : lv_indev_t) (slider : lv_slider_t)
    (check_drag : Bool) (d : Int)
    (htype : indev.type = lv_indev_type_t.POINTER) (hscroll : indev.scroll_obj = false)
    (hgo : drag_check_stops indev slider check_drag = false)
    (hhor : is_slider_horizontal slider = true)
    (hltr : slider.base_dir ≠ lv_base_dir_t.RTL)
    (hmode : slider.bar.mode = lv_slider_mode_t.NORMAL)
    (htarget : slider.value_to_set ≠ some value_ref_t.start_value)
    (hw : 0 < slider.width - slider.pad_left - slider.pad_right)
    (hmm : slider.bar.min_value ≤ slider.bar.max_value)
    (hstart : slider.bar.start_value = slider.bar.min_value)
    (hmin : -2147483648 ≤ slider.bar.min_value) (hmax : slider.bar.max_value < 2147483648)
    (hfit : (slider.width - slider.pad_left - slider.pad_right)
      * (slider.bar.max_value - slider.bar.min_value + 1) < 2147483648)
    (hp : indev.point.x = slider.coords.x1 + slider.pad_left + d) :
    (d = 0 → ∃ s, update_knob_pos indev slider check_drag = some s
      ∧ s.bar.cur_value = slider.bar.min_value)
    ∧ (d = slider.width - slider.pad_left - slider.pad_right →
      ∃ s, update_knob_pos indev slider check_drag = some s
        ∧ s.bar.cur_value = slider.bar.max_value)
    ∧ (2 * d = slider.width - slider.pad_left - slider.pad_right →
      ∃ s, update_knob_pos indev slider check_drag = some s
        ∧ s.bar.cur_value = slider.bar.min_value
            + (slider.bar.max_value - slider.bar.min_value + 1) / 2) := by
  have key := fun h0 h1 => update_knob_pos_hor_value indev slider check_drag d htype hscroll
    hgo hhor hltr hmode htarget hw hmm hstart hmin hmax hfit hp h0 h1
  generalize hW : slider.width - slider.pad_left - slider.pad_right = W at hw hfit key ⊢
  generalize hR : slider.bar.max_value - slider.bar.min_value = R at hfit key ⊢
  refine ⟨fun hd => ?_, fun hd => ?_, fun hd => ?_⟩
  · obtain ⟨s, hs, hc⟩ := key (by omega) (by omega)
    refine ⟨s, hs, ?_⟩
    rw [hc, hd, Int.zero_mul, Int.zero_add, Int.ediv_eq_zero_of_lt (by omega) (by omega)]
    omega
  · obtain ⟨s, hs, hc⟩ := key (by omega) (by omega)
    refine ⟨s, hs, ?_⟩
    rw [hc, hd, Int.add_comm (W * R), Int.add_mul_ediv_left _ _ (by omega : W ≠ 0),
      Int.ediv_eq_zero_of_lt (by omega) (by omega)]
    omega
  · obtain ⟨s, hs, hc⟩ := key (by omega) (by omega)
    refine ⟨s, hs, ?_⟩
    have e1 : W / 2 = d := by omega
    have e2 : d * R + d = d * (R + 1) := by ring
    have e3 : W = d * 2 := by omega
    rw [hc, e1, e2]
    rw [e3, Int.mul_ediv_mul_of_pos _ _ (by omega : 0 < d)]

/-- Witness for the amended claim C5, the 200 pixel wide slider with range `[0, 100]`: the pointer
at the left edge gives 0, at the right edge 100 and at the centre 50. -/
theorem update_knob_pos_horizontal_200 :
    (∃ s, update_knob_pos (pointer_at 0) (normal_slider 0 100) false = some s
      ∧ s.bar.cur_value = 0)
    ∧ (∃ s, update_knob_pos (pointer_at 200) (normal_slider 0 100) false = some s
      ∧ s.bar.cur_value = 100)
    ∧ (∃ s, update_knob_pos (pointer_at 100) (normal_slider 0 100) false = some s
      ∧ s.bar.cur_value = 50) :=
  ⟨(update_knob_pos_horizontal (pointer_at 0) (normal_slider 0 100) false 0
      (by decide) (by decide) (by decide) (by decide) (by decide) (by decide) (by decide)
      (by decide) (by decide) (by decide) (by decide) (by decide) (by decide)
      (by decide)).1 (by decide),
   (update_knob_pos_horizontal (pointer_at 200) (normal_slider 0 100) false 200
      (by decide) (by decide) (by decide) (by decide) (by decide) (by decide) (by decide)
      (by decide) (by decide) (by decide) (by decide) (by decide) (by decide)
      (by decide)).2.1 (by decide),
   (update_knob_pos_horizontal (pointer_at 100) (normal_slider 0 100) false 100
      (by decide) (by decide) (by decide) (by decide) (by decide) (by decide) (by decide)
      (by decide) (by decide) (by decide) (by decide) (by decide) (by decide)
      (by decide)).2.2 (by decide)⟩

/-! ### Meter: invalidation of a needle line (claim C6) -/

theorem LV_MIN_le (a b : Int) : LV_MIN a b ≤ a ∧ LV_MIN a b ≤ b := by
  unfold LV_MIN
  split_ifs <;> omega

theorem le_LV_MAX (a b : Int) : a ≤ LV_MAX a b ∧ b ≤ LV_MAX a b := by
  unfold LV_MAX
  split_ifs <;> omega

/-- For a needle line `draw_needles` draws from the scale centre to `needle_end` at the
end value. -/
theorem draw_needles_body_line (ext : lv_meter_ext_t) (meter : lv_meter_t)
    (indic : lv_meter_indicator_t)
    (ht : indic.type = lv_meter_indicator_type_t.NEEDLE_LINE) :
    ∃ dsc, draw_needles_body ext meter meter.content_coords indic
        = some (lv_needle_draw_t.line dsc)
      ∧ dsc.p1 = scale_center ext meter.content_coords
      ∧ dsc.p2 = needle_end ext meter indic.type_data.needle_line.r_mod indic.end_value := by
  unfold draw_needles_body
  simp only [ht, if_true]
  exact ⟨_, rfl, rfl, rfl⟩

/-- The box that `inv_line` builds around two points `c` and `q` for a line of width
`w` contains both with a margin of `w + 2`. -/
theorem line_box_contains (c q : lv_point_t) (w : Int) :
    area_contains
        { x1 := LV_MIN c.x q.x - w - 2, y1 := LV_MIN c.y q.y - w - 2,
          x2 := LV_MAX c.x q.x + w + 2, y2 := LV_MAX c.y q.y + w + 2 } c (w + 2)
    ∧ area_contains
        { x1 := LV_MIN c.x q.x - w - 2, y1 := LV_MIN c.y q.y - w - 2,
          x2 := LV_MAX c.x q.x + w + 2, y2 := LV_MAX c.y q.y + w + 2 } q (w + 2) := by
  have h1 := LV_MIN_le c.x q.x
  have h2 := le_LV_MAX c.x q.x
  have h3 := LV_MIN_le c.y q.y
  have h4 := le_LV_MAX c.y q.y
  unfold area_contains
  simp only
  omega

/-- For a needle line `inv_line` issues one area, and the area contains the scale centre
and `needle_end` at the value with a margin of `width + 2`. -/
theorem inv_line_needle_line (ext : lv_meter_ext_t) (meter : lv_meter_t)
    (indic : lv_meter_indicator_t) (value : Int)
    (ht : indic.type = lv_meter_indicator_type_t.NEEDLE_LINE) :
    ∃ a, inv_line ext meter indic value = lv_obj_invalidate_area meter a
      ∧ area_contains a (scale_center ext meter.content_coords)
          (indic.type_data.needle_line.width + 2)
      ∧ area_contains a (needle_end ext meter indic.type_data.needle_line.r_mod value)
          (indic.type_data.needle_line.width + 2) := by
  have hbox := line_box_contains (scale_center ext meter.content_coords)
    (needle_end ext meter indic.type_data.needle_line.r_mod value)
    indic.type_data.needle_line.width
  unfold inv_line
  simp only [ht, if_true]
  refine ⟨_, rfl, ?_, ?_⟩
  · simpa only [needle_end, scale_center, Int.add_assoc] using hbox.1
  · simpa only [needle_end, scale_center, Int.add_assoc] using hbox.2

/-- On a needle `lv_meter_set_indicator_end_value` stores the value and calls `inv_line`
for the old and for the new value. -/
theorem end_value_setter_on_needle (ext : lv_meter_ext_t) (meter : lv_meter_t)
    (k : Nat) (value : Int) (indic : lv_meter_indicator_t)
    (hk : meter.indicator_ll.get? k = some indic)
    (ht : indic.type = lv_meter_indicator_type_t.NEEDLE_LINE
      ∨ indic.type = lv_meter_indicator_type_t.NEEDLE_IMG) :
    lv_meter_set_indicator_end_value ext meter k value
      = some (inv_line ext (inv_line ext
          { meter with
            indicator_ll := meter.indicator_ll.set k { indic with end_value := value } }
          { indic with end_value := value } indic.end_value)
          { indic with end_value := value } value) := by
  unfold lv_meter_set_indicator_end_value
  simp only [hk]
  rcases ht with ht | ht
  · rw [if_neg (by simp [ht]), if_pos (by simp [ht])]
  · rw [if_neg (by simp [ht]), if_pos (by simp [ht])]

/-- Claim C6: for a needle line at position `k`, `lv_meter_set_indicator_end_value`
stores the new value and issues two area invalidations, for the old and for the new
value.  Each area contains, with a margin of `width + 2` on all four sides, the two
end points of the line that `draw_needles` draws for that value: the scale centre,
and the centre plus `r_out` times cosine and sine of the mapped angle. -/
theorem set_indicator_end_value_needle_line (ext : lv_meter_ext_t) (meter : lv_meter_t)
    (k : Nat) (value : Int) (indic : lv_meter_indicator_t)
    (hk : meter.indicator_ll.get? k = some indic)
    (ht : indic.type = lv_meter_indicator_type_t.NEEDLE_LINE) :
    ∃ meter1 a_old a_new dsc_old dsc_new,
      lv_meter_set_indicator_end_value ext meter k value = some meter1
      ∧ meter1.indicator_ll = meter.indicator_ll.set k { indic with end_value := value }
      ∧ meter1.invalidated
          = meter.invalidated ++ [lv_inv_t.area a_old, lv_inv_t.area a_new]
      ∧ draw_needles_body ext meter meter.content_coords indic
          = some (lv_needle_draw_t.line dsc_old)
      ∧ draw_needles_body ext meter1 meter1.content_coords { indic with end_value := value }
          = some (lv_needle_draw_t.line dsc_new)
      ∧ dsc_old.p1 = scale_center ext meter.content_coords
      ∧ dsc_old.p2 = needle_end ext meter indic.type_data.needle_line.r_mod indic.end_value
      ∧ dsc_new.p1 = scale_center ext meter.content_coords
      ∧ dsc_new.p2 = needle_end ext meter indic.type_data.needle_line.r_mod value
      ∧ area_contains a_old dsc_old.p1 (indic.type_data.needle_line.width + 2)
      ∧ area_contains a_old dsc_old.p2 (indic.type_data.needle_line.width + 2)
      ∧ area_contains a_new dsc_new.p1 (indic.type_data.needle_line.width + 2)
      ∧ area_contains a_new dsc_new.p2 (indic.type_data.needle_line.width + 2) := by
  obtain ⟨a_old, h_old, c_old, e_old⟩ := inv_line_needle_line ext
    { meter with indicator_ll := meter.indicator_ll.set k { indic with end_value := value } }
    { indic with end_value := value } indic.end_value ht
  obtain ⟨a_new, h_new, c_new, e_new⟩ := inv_line_needle_line ext
    (lv_obj_invalidate_area
      { meter with indicator_ll := meter.indicator_ll.set k { indic with end_value := value } }
      a_old)
    { indic with end_value := value } value ht
  obtain ⟨dsc_old, d_old, p1_old, p2_old⟩ := draw_needles_body_line ext meter indic ht
  obtain ⟨dsc_new, d_new, p1_new, p2_new⟩ := draw_needles_body_line ext
    (lv_obj_invalidate_area (lv_obj_invalidate_area
      { meter with indicator_ll := meter.indicator_ll.set k { indic with end_value := value } }
      a_old) a_new)
    { indic with end_value := value } ht
  refine ⟨_, a_old, a_new, dsc_old, dsc_new, ?_, ?_, ?_, d_old, d_new, p1_old, p2_old,
    p1_new, p2_new, ?_, ?_, ?_, ?_⟩
  · rw [end_value_setter_on_needle ext meter k value indic hk (Or.inl ht), h_old, h_new]
  · rfl
  · simp [lv_obj_invalidate_area]
  · rw [p1_old]; exact c_old
  · rw [p2_old]; exact e_old
  · rw [p1_new]; exact c_new
  · rw [p2_new]; exact e_new

/-- Witness for claim C6, the sample meter, whose needle line of width 4 goes from value 0 to
value 50: the two areas contain the centre `(100, 100)` and the new area contains the
new end point `(100, 10)`, each with margin 6. -/
theorem set_indicator_end_value_needle_line_sample :
    sample_meter.indicator_ll.get? 0 = some sample_needle
    ∧ sample_needle.type = lv_meter_indicator_type_t.NEEDLE_LINE
    ∧ ∃ meter1 a_old a_new,
        lv_meter_set_indicator_end_value sample_ext sample_meter 0 50 = some meter1
        ∧ meter1.invalidated = [lv_inv_t.area a_old, lv_inv_t.area a_new]
        ∧ area_contains a_old ⟨100, 100⟩ 6
        ∧ area_contains a_new ⟨100, 100⟩ 6
        ∧ area_contains a_new ⟨100, 10⟩ 6 := by
  obtain ⟨meter1, a_old, a_new, dsc_old, dsc_new, h1, _, h3, _, _, p1o, _, p1n, p2n,
      c1, _, c3, c4⟩ :=
    set_indicator_end_value_needle_line sample_ext sample_meter 0 50 sample_needle rfl rfl
  refine ⟨rfl, rfl, meter1, a_old, a_new, h1, h3, ?_, ?_, ?_⟩
  · rw [p1o] at c1
    exact c1
  · rw [p1n] at c3
    exact c3
  · rw [p2n] at c4
    exact c4

/-! ### Meter: setting both values of an indicator (claims C7, C8) -/

theorem inv_line_eq (ext : lv_meter_ext_t) (meter : lv_meter_t)
    (indic : lv_meter_indicator_t) (value : Int) :
    inv_line ext meter indic value
      = { meter with invalidated := meter.invalidated ++ inv_line_events ext meter indic value } := by
  unfold inv_line_events inv_line lv_obj_invalidate_area
  simp only
  split_ifs <;> simp

theorem inv_arc_eq (ext : lv_meter_ext_t) (meter : lv_meter_t)
    (indic : lv_meter_indicator_t) (old_value new_value : Int) :
    inv_arc ext meter indic old_value new_value
      = { meter with
          invalidated := meter.invalidated ++ inv_arc_events ext meter indic old_value new_value } := by
  unfold inv_arc_events inv_arc lv_obj_invalidate_area
  simp

theorem inv_line_events_congr (ext : lv_meter_ext_t) (m1 m2 : lv_meter_t)
    (i1 i2 : lv_meter_indicator_t) (value : Int)
    (hs : m1.scale = m2.scale) (hc : m1.content_coords = m2.content_coords)
    (ht : i1.type = i2.type) (hd : i1.type_data = i2.type_data) :
    inv_line_events ext m1 i1 value = inv_line_events ext m2 i2 value := by
  unfold inv_line_events inv_line lv_obj_invalidate_area
  simp only [hs, hc, ht, hd]
  split_ifs <;> rfl

theorem inv_arc_events_congr (ext : lv_meter_ext_t) (m1 m2 : lv_meter_t)
    (i1 i2 : lv_meter_indicator_t) (old_value new_value : Int)
    (hs : m1.scale = m2.scale) (hc : m1.content_coords = m2.content_coords)
    (hr : m1.arc_rounded = m2.arc_rounded) (hd : i1.type_data = i2.type_data) :
    inv_arc_events ext m1 i1 old_value new_value
      = inv_arc_events ext m2 i2 old_value new_value := by
  unfold inv_arc_events inv_arc lv_obj_invalidate_area
  simp only [hs, hc, hr, hd]

/-- A needle makes `inv_line` issue exactly one area. -/
theorem inv_line_events_needle (ext : lv_meter_ext_t) (meter : lv_meter_t)
    (indic : lv_meter_indicator_t) (value : Int)
    (ht : indic.type = lv_meter_indicator_type_t.NEEDLE_IMG
      ∨ indic.type = lv_meter_indicator_type_t.NEEDLE_LINE) :
    ∃ a, inv_line_events ext meter indic value = [lv_inv_t.area a] := by
  unfold inv_line_events inv_line lv_obj_invalidate_area
  rcases ht with ht | ht
  · simp only [ht, reduceCtorEq, if_false, if_true]
    exact ⟨_, rfl⟩
  · simp only [ht, if_true]
    exact ⟨_, rfl⟩

/-- `inv_arc` issues exactly one area. -/
theorem inv_arc_events_one (ext : lv_meter_ext_t) (meter : lv_meter_t)
    (indic : lv_meter_indicator_t) (old_value new_value : Int) :
    ∃ a, inv_arc_events ext meter indic old_value new_value = [lv_inv_t.area a] := by
  unfold inv_arc_events inv_arc lv_obj_invalidate_area
  exact ⟨_, rfl⟩

theorem list_set_same {α : Type} (l : List α) (k : Nat) (x : α) (h : l.get? k = some x) :
    l.set k x = l := by
  induction l generalizing k with
  | nil => rfl
  | cons y ys ih =>
    cases k with
    | zero =>
      simp only [List.get?_cons_zero, Option.some.injEq] at h
      simp [h]
    | succ n =>
      simp only [List.get?_cons_succ] at h
      simp [ih n h]

/-- The effect of `lv_meter_set_indicator_value` on the indicator at position `k`: the
record gets the value twice, the rest of the meter is kept, and the log grows by what
the calls of `inv_arc`, `inv_line` or `lv_obj_invalidate` issue, computed from the
values stored before the call. -/
theorem set_indicator_value_log (ext : lv_meter_ext_t) (meter : lv_meter_t) (k : Nat)
    (value : Int) (indic : lv_meter_indicator_t)
    (hk : meter.indicator_ll.get? k = some indic) :
    ∃ meter1, lv_meter_set_indicator_value ext meter k value = some meter1
      ∧ meter1.scale = meter.scale
      ∧ meter1.content_coords = meter.content_coords
      ∧ meter1.arc_rounded = meter.arc_rounded
      ∧ meter1.opa_main = meter.opa_main
      ∧ meter1.indicator_ll
          = meter.indicator_ll.set k { indic with start_value := value, end_value := value }
      ∧ meter1.invalidated = meter.invalidated ++
          (if indic.type = lv_meter_indicator_type_t.ARC then
            inv_arc_events ext meter indic indic.start_value value
              ++ inv_arc_events ext meter indic indic.end_value value
          else if indic.type = lv_meter_indicator_type_t.NEEDLE_IMG
              ∨ indic.type = lv_meter_indicator_type_t.NEEDLE_LINE then
            inv_line_events ext meter indic indic.start_value
              ++ inv_line_events ext meter indic indic.end_value
              ++ inv_line_events ext meter indic value
          else [lv_inv_t.obj]) := by
  unfold lv_meter_set_indicator_value
  simp only [hk]
  by_cases h1 : indic.type = lv_meter_indicator_type_t.ARC
  · rw [if_pos h1, if_pos h1]
    refine ⟨_, rfl, ?_⟩
    rw [inv_arc_eq ext _ _ indic.end_value value, inv_arc_eq ext _ _ indic.start_value value]
    refine ⟨rfl, rfl, rfl, rfl, rfl, ?_⟩
    simp only [List.append_assoc]
    congr 1
  · by_cases h2 : indic.type = lv_meter_indicator_type_t.NEEDLE_IMG
        ∨ indic.type = lv_meter_indicator_type_t.NEEDLE_LINE
    · rw [if_neg h1, if_pos h2, if_neg h1, if_pos h2]
      refine ⟨_, rfl, ?_⟩
      rw [inv_line_eq ext _ _ value, inv_line_eq ext _ _ indic.end_value,
        inv_line_eq ext _ _ indic.start_value]
      refine ⟨rfl, rfl, rfl, rfl, rfl, ?_⟩
      simp only [List.append_assoc]
      congr 1
      congr 1
      · exact inv_line_events_congr ext _ _ _ _ _ rfl rfl rfl rfl
      · congr 1
        · exact inv_line_events_congr ext _ _ _ _ _ rfl rfl rfl rfl
        · exact inv_line_events_congr ext _ _ _ _ _ rfl rfl rfl rfl
    · rw [if_neg h1, if_neg h2, if_neg h1, if_neg h2]
      exact ⟨_, rfl, rfl, rfl, rfl, rfl, rfl, rfl⟩

/-- Claim C7: when the indicator at position `k` already has `start_value` and
`end_value` equal to `v`, `lv_meter_set_indicator_value` with `v` returns a meter with
the same indicator list (every field of every record), the same scale and the same
widget data, and the log has grown by a non-empty list of requests: areas only for an
arc or a needle, the whole widget for scale lines. -/
theorem set_indicator_value_same (ext : lv_meter_ext_t) (meter : lv_meter_t) (k : Nat)
    (v : Int) (indic : lv_meter_indicator_t)
    (hk : meter.indicator_ll.get? k = some indic)
    (hs : indic.start_value = v) (he : indic.end_value = v) :
    ∃ meter1 evs, lv_meter_set_indicator_value ext meter k v = some meter1
      ∧ meter1.indicator_ll = meter.indicator_ll
      ∧ meter1.scale = meter.scale
      ∧ meter1.content_coords = meter.content_coords
      ∧ meter1.arc_rounded = meter.arc_rounded
      ∧ meter1.opa_main = meter.opa_main
      ∧ meter1.invalidated = meter.invalidated ++ evs
      ∧ evs ≠ []
      ∧ (indic.type = lv_meter_indicator_type_t.ARC
          ∨ indic.type = lv_meter_indicator_type_t.NEEDLE_LINE
          ∨ indic.type = lv_meter_indicator_type_t.NEEDLE_IMG →
          ∀ e ∈ evs, ∃ a, e = lv_inv_t.area a)
      ∧ (indic.type = lv_meter_indicator_type_t.SCALE_LINES → evs = [lv_inv_t.obj]) := by
  obtain ⟨meter1, hrun, hscale, hcc, har, hom, hll, hinv⟩ :=
    set_indicator_value_log ext meter k v indic hk
  have hsame : ({ indic with start_value := v, end_value := v } : lv_meter_indicator_t) = indic := by
    cases indic
    simp only at hs he
    subst hs
    subst he
    rfl
  rw [hsame, list_set_same _ _ _ hk] at hll
  refine ⟨meter1, _, hrun, hll, hscale, hcc, har, hom, hinv, ?_, ?_, ?_⟩
  · by_cases h1 : indic.type = lv_meter_indicator_type_t.ARC
    · obtain ⟨a, ha⟩ := inv_arc_events_one ext meter indic indic.start_value v
      rw [if_pos h1, ha]
      simp
    · by_cases h2 : indic.type = lv_meter_indicator_type_t.NEEDLE_IMG
          ∨ indic.type = lv_meter_indicator_type_t.NEEDLE_LINE
      · obtain ⟨a, ha⟩ := inv_line_events_needle ext meter indic indic.start_value h2
        rw [if_neg h1, if_pos h2, ha]
        simp
      · rw [if_neg h1, if_neg h2]
        simp
  · intro ht e hmem
    by_cases h1 : indic.type = lv_meter_indicator_type_t.ARC
    · obtain ⟨a1, ha1⟩ := inv_arc_events_one ext meter indic indic.start_value v
      obtain ⟨a2, ha2⟩ := inv_arc_events_one ext meter indic indic.end_value v
      rw [if_pos h1, ha1, ha2] at hmem
      simp only [List.singleton_append, List.mem_cons, List.mem_singleton, List.not_mem_nil,
        or_false] at hmem
      rcases hmem with h | h
      · exact ⟨a1, h⟩
      · exact ⟨a2, h⟩
    · have h2 : indic.type = lv_meter_indicator_type_t.NEEDLE_IMG
          ∨ indic.type = lv_meter_indicator_type_t.NEEDLE_LINE := by
        rcases ht with h | h | h
        · exact absurd h h1
        · exact Or.inr h
        · exact Or.inl h
      obtain ⟨a1, ha1⟩ := inv_line_events_needle ext meter indic indic.start_value h2
      obtain ⟨a2, ha2⟩ := inv_line_events_needle ext meter indic indic.end_value h2
      obtain ⟨a3, ha3⟩ := inv_line_events_needle ext meter indic v h2
      rw [if_neg h1, if_pos h2, ha1, ha2, ha3] at hmem
      simp only [List.singleton_append, List.cons_append, List.nil_append, List.mem_cons,
        List.mem_singleton, List.not_mem_nil, or_false] at hmem
      rcases hmem with h | h | h
      · exact ⟨a1, h⟩
      · exact ⟨a2, h⟩
      · exact ⟨a3, h⟩
  · intro ht
    rw [if_neg (by simp [ht]), if_neg (by simp [ht])]

/-- Witness for claim C7, the sample meter, whose arc at position 1 has both values 10: setting
the value 10 keeps the indicator list and the scale and issues a request. -/
theorem set_indicator_value_same_sample :
    sample_meter.indicator_ll.get? 1 = some sample_arc
    ∧ sample_arc.start_value = 10 ∧ sample_arc.end_value = 10
    ∧ ∃ meter1 evs, lv_meter_set_indicator_value sample_ext sample_meter 1 10 = some meter1
        ∧ meter1.indicator_ll = sample_meter.indicator_ll
        ∧ meter1.scale = sample_meter.scale
        ∧ meter1.invalidated = sample_meter.invalidated ++ evs
        ∧ evs ≠ [] := by
  obtain ⟨meter1, evs, h1, h2, h3, _, _, _, h4, h5, _, _⟩ :=
    set_indicator_value_same sample_ext sample_meter 1 10 sample_arc rfl rfl rfl
  exact ⟨rfl, rfl, rfl, meter1, evs, h1, h2, h3, h4, h5⟩

/-- Claim C8: `lv_meter_set_indicator_value` stores `value` in `start_value` and in
`end_value` of the indicator at position `k` and then, with the values `indic` held
before the call: for a needle (line or image) it issues the three areas of `inv_line`
at the old start value, the old end value and `value`, in this order; for an arc the
two areas of `inv_arc` for `(old start, value)` and `(old end, value)`; for scale
lines one request for the whole widget.  Nothing else is issued. -/
theorem set_indicator_value_invalidations (ext : lv_meter_ext_t) (meter : lv_meter_t)
    (k : Nat) (value : Int) (indic : lv_meter_indicator_t)
    (hk : meter.indicator_ll.get? k = some indic) :
    ∃ meter1, lv_meter_set_indicator_value ext meter k value = some meter1
      ∧ meter1.indicator_ll
          = meter.indicator_ll.set k { indic with start_value := value, end_value := value }
      ∧ meter1.scale = meter.scale
      ∧ (indic.type = lv_meter_indicator_type_t.NEEDLE_LINE
          ∨ indic.type = lv_meter_indicator_type_t.NEEDLE_IMG →
          ∃ a1 a2 a3,
            inv_line_events ext meter indic indic.start_value = [lv_inv_t.area a1]
            ∧ inv_line_events ext meter indic indic.end_value = [lv_inv_t.area a2]
            ∧ inv_line_events ext meter indic value = [lv_inv_t.area a3]
            ∧ meter1.invalidated = meter.invalidated
                ++ [lv_inv_t.area a1, lv_inv_t.area a2, lv_inv_t.area a3])
      ∧ (indic.type = lv_meter_indicator_type_t.ARC →
          ∃ a1 a2,
            inv_arc_events ext meter indic indic.start_value value = [lv_inv_t.area a1]
            ∧ inv_arc_events ext meter indic indic.end_value value = [lv_inv_t.area a2]
            ∧ meter1.invalidated = meter.invalidated ++ [lv_inv_t.area a1, lv_inv_t.area a2])
      ∧ (indic.type = lv_meter_indicator_type_t.SCALE_LINES →
          meter1.invalidated = meter.invalidated ++ [lv_inv_t.obj]) := by
  obtain ⟨meter1, hrun, hscale, _, _, _, hll, hinv⟩ :=
    set_indicator_value_log ext meter k value indic hk
  refine ⟨meter1, hrun, hll, hscale, ?_, ?_, ?_⟩
  · intro ht
    have h1 : ¬ indic.type = lv_meter_indicator_type_t.ARC := by
      rcases ht with h | h <;> simp [h]
    have h2 : indic.type = lv_meter_indicator_type_t.NEEDLE_IMG
        ∨ indic.type = lv_meter_indicator_type_t.NEEDLE_LINE := ht.symm
    obtain ⟨a1, ha1⟩ := inv_line_events_needle ext meter indic indic.start_value h2
    obtain ⟨a2, ha2⟩ := inv_line_events_needle ext meter indic indic.end_value h2
    obtain ⟨a3, ha3⟩ := inv_line_events_needle ext meter indic value h2
    refine ⟨a1, a2, a3, ha1, ha2, ha3, ?_⟩
    rw [hinv, if_neg h1, if_pos h2, ha1, ha2, ha3]
    rfl
  · intro ht
    obtain ⟨a1, ha1⟩ := inv_arc_events_one ext meter indic indic.start_value value
    obtain ⟨a2, ha2⟩ := inv_arc_events_one ext meter indic indic.end_value value
    refine ⟨a1, a2, ha1, ha2, ?_⟩
    rw [hinv, if_pos ht, ha1, ha2]
    rfl
  · intro ht
    rw [hinv, if_neg (by simp [ht]), if_neg (by simp [ht])]

/-- Witness for claim C8, the sample meter: setting the needle at position 0 (both values 0) to
50 stores 50 twice and issues exactly three areas. -/
theorem set_indicator_value_invalidations_sample :
    sample_meter.indicator_ll.get? 0 = some sample_needle
    ∧ ∃ meter1 a1 a2 a3, lv_meter_set_indicator_value sample_ext sample_meter 0 50 = some meter1
        ∧ meter1.indicator_ll
            = [{ sample_needle with start_value := 50, end_value := 50 }, sample_arc]
        ∧ meter1.invalidated = [lv_inv_t.area a1, lv_inv_t.area a2, lv_inv_t.area a3] := by
  obtain ⟨meter1, h1, h2, _, h4, _, _⟩ :=
    set_indicator_value_invalidations sample_ext sample_meter 0 50 sample_needle rfl
  obtain ⟨a1, a2, a3, _, _, _, h5⟩ := h4 (Or.inl rfl)
  exact ⟨rfl, meter1, a1, a2, a3, h1, h2, h5⟩

/-! ### Meter: adding indicators and the order of the draw passes (claims C9, C10) -/

/-- A successful factory call puts the record `new_indicator` in front of the list and
asks for a redraw of the widget. -/
theorem add_indicator_some (meter : lv_meter_t) (junk : lv_meter_indicator_t)
    (c : add_call_t) :
    add_indicator meter (some junk) c
      = ({ meter with indicator_ll := new_indicator c :: meter.indicator_ll,
                      invalidated := meter.invalidated ++ [lv_inv_t.obj] }, some 0) := by
  cases c <;> rfl

theorem draw_arcs_body_congr (ext : lv_meter_ext_t) (m1 m2 : lv_meter_t) (a : lv_area_t)
    (hs : m1.scale = m2.scale) (ho : m1.opa_main = m2.opa_main)
    (hr : m1.arc_rounded = m2.arc_rounded) :
    draw_arcs_body ext m1 a = draw_arcs_body ext m2 a := by
  funext indic
  unfold draw_arcs_body
  simp only [hs, ho, hr]

theorem draw_needles_body_congr (ext : lv_meter_ext_t) (m1 m2 : lv_meter_t) (a : lv_area_t)
    (hs : m1.scale = m2.scale) (ho : m1.opa_main = m2.opa_main) :
    draw_needles_body ext m1 a = draw_needles_body ext m2 a := by
  funext indic
  unfold draw_needles_body
  simp only [hs, ho]

/-- A sequence of successful factory calls keeps the scale and the widget data and
appends the new records, in the order of the calls, to the read-back order of the
list. -/
theorem add_indicators_read_back (meter : lv_meter_t)
    (calls : List (lv_meter_indicator_t × add_call_t)) :
    (add_indicators meter calls).scale = meter.scale
    ∧ (add_indicators meter calls).opa_main = meter.opa_main
    ∧ (add_indicators meter calls).arc_rounded = meter.arc_rounded
    ∧ (add_indicators meter calls).content_coords = meter.content_coords
    ∧ _LV_LL_READ_BACK (add_indicators meter calls).indicator_ll
        = _LV_LL_READ_BACK meter.indicator_ll ++ calls.map (fun jc => new_indicator jc.2) := by
  induction calls generalizing meter with
  | nil => simp [add_indicators]
  | cons jc rest ih =>
    obtain ⟨junk, c⟩ := jc
    obtain ⟨h1, h2, h3, h4, h5⟩ := ih (add_indicator meter (some junk) c).1
    have hstep : add_indicators meter ((junk, c) :: rest)
        = add_indicators (add_indicator meter (some junk) c).1 rest := rfl
    rw [hstep, h1, h2, h3, h4, h5, add_indicator_some]
    simp [_LV_LL_READ_BACK]

/-- Claim C9: after any sequence of successful factory calls on a meter, reading the
list back meets the indicators that were there, then the new ones in the order of the
calls, the one added last at the end.  The three passes follow this order:
`draw_arcs` issues the arcs it issued before and then those of the new arc
indicators in call order, `draw_needles` does the same with lines and images, and the
scale-lines scan of a tick continues its fold over the new indicators in call
order. -/
theorem add_indicators_draw_order (ext : lv_meter_ext_t) (meter : lv_meter_t)
    (calls : List (lv_meter_indicator_t × add_call_t)) (scale_area : lv_area_t)
    (value_of_line : Int) (line_color : lv_color_t) (line_width : Int) :
    _LV_LL_READ_BACK (add_indicators meter calls).indicator_ll
        = _LV_LL_READ_BACK meter.indicator_ll ++ calls.map (fun jc => new_indicator jc.2)
    ∧ draw_arcs ext (add_indicators meter calls) scale_area
        = draw_arcs ext meter scale_area
          ++ (calls.map (fun jc => new_indicator jc.2)).filterMap
              (draw_arcs_body ext meter scale_area)
    ∧ draw_needles ext (add_indicators meter calls) scale_area
        = draw_needles ext meter scale_area
          ++ (calls.map (fun jc => new_indicator jc.2)).filterMap
              (draw_needles_body ext meter scale_area)
    ∧ scale_lines_scan ext (add_indicators meter calls) value_of_line line_color line_width
        = (calls.map (fun jc => new_indicator jc.2)).foldl
            (scale_lines_body ext meter.scale value_of_line)
            (scale_lines_scan ext meter value_of_line line_color line_width) := by
  obtain ⟨h1, h2, h3, _, h5⟩ := add_indicators_read_back meter calls
  refine ⟨h5, ?_, ?_, ?_⟩
  · unfold draw_arcs
    rw [h5, List.filterMap_append, draw_arcs_body_congr ext _ meter scale_area h1 h2 h3]
  · unfold draw_needles
    rw [h5, List.filterMap_append, draw_needles_body_congr ext _ meter scale_area h1 h2]
  · unfold scale_lines_scan
    rw [h5, List.foldl_append, h1]

/-- Claim C10: each of the four factories, when the list insertion fails, returns the
null pointer and the meter as it was, nothing invalidated; when it succeeds, returns
the pointer to the head node, and the meter has one more record, in front of the old
list, with `start_value` and `end_value` 0, opacity `LV_OPA_COVER`, the tag of the
factory and the variant fields equal to the arguments (the image source of an arc,
which is no argument, is null); the scale is kept and one redraw of the widget is
requested. -/
theorem add_factories (meter : lv_meter_t) :
    (∀ width color r_mod,
      lv_meter_add_needle_line meter none width color r_mod = (meter, none)
      ∧ ∀ junk, ∃ indic,
        lv_meter_add_needle_line meter (some junk) width color r_mod
          = ({ meter with indicator_ll := indic :: meter.indicator_ll,
                          invalidated := meter.invalidated ++ [lv_inv_t.obj] }, some 0)
        ∧ indic.start_value = 0 ∧ indic.end_value = 0 ∧ indic.opa = LV_OPA_COVER
        ∧ indic.type = lv_meter_indicator_type_t.NEEDLE_LINE
        ∧ indic.type_data.needle_line = { width := width, r_mod := r_mod, color := color })
    ∧ (∀ src pivot_x pivot_y,
      lv_meter_add_needle_image meter none src pivot_x pivot_y = (meter, none)
      ∧ ∀ junk, ∃ indic,
        lv_meter_add_needle_image meter (some junk) src pivot_x pivot_y
          = ({ meter with indicator_ll := indic :: meter.indicator_ll,
                          invalidated := meter.invalidated ++ [lv_inv_t.obj] }, some 0)
        ∧ indic.start_value = 0 ∧ indic.end_value = 0 ∧ indic.opa = LV_OPA_COVER
        ∧ indic.type = lv_meter_indicator_type_t.NEEDLE_IMG
        ∧ indic.type_data.needle_img = { src := src, pivot := ⟨pivot_x, pivot_y⟩ })
    ∧ (∀ width color r_mod,
      lv_meter_add_arc meter none width color r_mod = (meter, none)
      ∧ ∀ junk, ∃ indic,
        lv_meter_add_arc meter (some junk) width color r_mod
          = ({ meter with indicator_ll := indic :: meter.indicator_ll,
                          invalidated := meter.invalidated ++ [lv_inv_t.obj] }, some 0)
        ∧ indic.start_value = 0 ∧ indic.end_value = 0 ∧ indic.opa = LV_OPA_COVER
        ∧ indic.type = lv_meter_indicator_type_t.ARC
        ∧ indic.type_data.arc = { width := width, src := none, color := color, r_mod := r_mod })
    ∧ (∀ color_start color_end loc width_mod,
      lv_meter_add_scale_lines meter none color_start color_end loc width_mod = (meter, none)
      ∧ ∀ junk, ∃ indic,
        lv_meter_add_scale_lines meter (some junk) color_start color_end loc width_mod
          = ({ meter with indicator_ll := indic :: meter.indicator_ll,
                          invalidated := meter.invalidated ++ [lv_inv_t.obj] }, some 0)
        ∧ indic.start_value = 0 ∧ indic.end_value = 0 ∧ indic.opa = LV_OPA_COVER
        ∧ indic.type = lv_meter_indicator_type_t.SCALE_LINES
        ∧ indic.type_data.scale_lines
            = { width_mod := width_mod, color_start := color_start, color_end := color_end,
                local_grad := loc }) := by
  refine ⟨fun _ _ _ => ⟨rfl, fun _ => ⟨_, rfl, rfl, rfl, rfl, rfl, rfl⟩⟩,
    fun _ _ _ => ⟨rfl, fun _ => ⟨_, rfl, rfl, rfl, rfl, rfl, rfl⟩⟩,
    fun _ _ _ => ⟨rfl, fun _ => ⟨_, rfl, rfl, rfl, rfl, rfl, rfl⟩⟩,
    fun _ _ _ _ => ⟨rfl, fun _ => ⟨_, rfl, rfl, rfl, rfl, rfl, rfl⟩⟩⟩

/-! ### Meter: opacity of an indicator (claim C11) -/

/-- Counterexample to claim C11 as stated: with the widget at opacity 255 an arc of
opacity 200, which is not above `LV_OPA_MAX`, is drawn with opacity 199, the product
shifted right by 8 bits, and not with `255 * 200 / 255 = 200`. -/
theorem arc_opa_is_not_div_255 :
    dim_arc.type = lv_meter_indicator_type_t.ARC
    ∧ ¬ dim_arc.opa > sample_ext.LV_OPA_MAX
    ∧ sample_meter.opa_main = 255 ∧ dim_arc.opa = 200
    ∧ (draw_arcs_body sample_ext sample_meter sample_meter.content_coords dim_arc).map
        (fun dsc => dsc.opa) = some 199
    ∧ 255 * 200 / 255 = 200 := by
  decide

/-- Claim C11, amended: the opacity that `draw_arcs` gives an arc and `draw_needles`
gives a needle line or a needle image is `effective_opa`: the opacity `p` of the
widget when the opacity `o` of the indicator is above `LV_OPA_MAX` (the inherit case),
else `(p * o) >> 8`, the product divided by 256 and rounded down. -/
theorem draw_opa (ext : lv_meter_ext_t) (meter : lv_meter_t) (scale_area : lv_area_t)
    (indic : lv_meter_indicator_t) :
    (indic.type = lv_meter_indicator_type_t.ARC →
      ∃ dsc, draw_arcs_body ext meter scale_area indic = some dsc
        ∧ dsc.opa = effective_opa ext meter.opa_main indic.opa)
    ∧ (indic.type = lv_meter_indicator_type_t.NEEDLE_LINE →
      ∃ dsc, draw_needles_body ext meter scale_area indic = some (lv_needle_draw_t.line dsc)
        ∧ dsc.opa = effective_opa ext meter.opa_main indic.opa)
    ∧ (indic.type = lv_meter_indicator_type_t.NEEDLE_IMG →
      indic.type_data.needle_img.src ≠ none →
      ∃ dsc a, draw_needles_body ext meter scale_area indic
          = some (lv_needle_draw_t.image dsc a)
        ∧ dsc.opa = effective_opa ext meter.opa_main indic.opa)
    ∧ (∀ p o, o > ext.LV_OPA_MAX → effective_opa ext p o = p)
    ∧ (∀ p o, ¬ o > ext.LV_OPA_MAX → effective_opa ext p o = p * o / 256) := by
  refine ⟨fun ht => ?_, fun ht => ?_, fun ht hsrc => ?_, fun p o h => ?_, fun p o h => ?_⟩
  · unfold draw_arcs_body effective_opa
    simp only [ht, ne_eq, not_true_eq_false, if_false, Nat.shiftRight_eq_div_pow]
    exact ⟨_, rfl, rfl⟩
  · unfold draw_needles_body effective_opa
    simp only [ht, if_true, Nat.shiftRight_eq_div_pow]
    exact ⟨_, rfl, rfl⟩
  · unfold draw_needles_body effective_opa
    simp only [ht, reduceCtorEq, if_false, if_true, hsrc, Nat.shiftRight_eq_div_pow]
    exact ⟨_, _, rfl, rfl⟩
  · unfold effective_opa
    rw [if_pos h]
  · unfold effective_opa
    rw [if_neg h]

/-! ### Slider: hit test (claim C12) -/

theorem is_point_on_increase (a : lv_area_t) (pad : Int) (p : lv_point_t) :
    _lv_area_is_point_on (lv_area_increase a pad pad) p = true ↔ in_enlarged a pad p := by
  unfold _lv_area_is_point_on lv_area_increase in_enlarged
  simp only [decide_eq_true_eq]

/-- Claim C12: the hit test of the slider reports a hit exactly when the point lies in
the right knob rectangle enlarged by the extra click padding on every side, or the
slider is in range mode and the point lies in the left knob rectangle enlarged the
same way; outside range mode the result is decided by the right knob rectangle
alone. -/
theorem hit_test_iff (slider : lv_slider_t) (point : lv_point_t) :
    (lv_slider_hit_test slider point = true ↔
      in_enlarged slider.right_knob_area slider.ext_click_pad point
      ∨ (slider.bar.mode = lv_slider_mode_t.RANGE
          ∧ in_enlarged slider.left_knob_area slider.ext_click_pad point))
    ∧ (slider.bar.mode ≠ lv_slider_mode_t.RANGE →
        (lv_slider_hit_test slider point = true ↔
          in_enlarged slider.right_knob_area slider.ext_click_pad point)) := by
  have hr := is_point_on_increase slider.right_knob_area slider.ext_click_pad point
  have hl := is_point_on_increase slider.left_knob_area slider.ext_click_pad point
  have key : lv_slider_hit_test slider point = true ↔
      in_enlarged slider.right_knob_area slider.ext_click_pad point
      ∨ (slider.bar.mode = lv_slider_mode_t.RANGE
          ∧ in_enlarged slider.left_knob_area slider.ext_click_pad point) := by
    unfold lv_slider_hit_test
    simp only
    by_cases h1 : _lv_area_is_point_on
        (lv_area_increase slider.right_knob_area slider.ext_click_pad slider.ext_click_pad)
        point = true
    · rw [if_neg (by simp [h1]), h1]
      simp [hr.mp h1]
    · have h1f : _lv_area_is_point_on
          (lv_area_increase slider.right_knob_area slider.ext_click_pad slider.ext_click_pad)
          point = false := by simpa using h1
      have hnr : ¬ in_enlarged slider.right_knob_area slider.ext_click_pad point :=
        fun h => h1 (hr.mpr h)
      by_cases hm : slider.bar.mode = lv_slider_mode_t.RANGE
      · rw [if_pos ⟨h1f, hm⟩, hl]
        simp [hnr, hm]
      · rw [if_neg (by simp [hm]), h1f]
        simp [hnr, hm]
  refine ⟨key, fun hm => ?_⟩
  rw [key]
  constructor
  · rintro (h | ⟨h, _⟩)
    · exact h
    · exact absurd h hm
  · exact Or.inl

/-! ### Slider: the knob a drag targets (claim C13) -/

/-- Counterexample to claim C13 as stated: on the range slider with knob centres at
`x = 39` and `x = 159` the pointer at `x = 99` is between the knobs and 60 pixels from
either centre, and `drag_start` targets the start value, not the end value. -/
theorem drag_start_tie_goes_to_start :
    range_slider.bar.mode = lv_slider_mode_t.RANGE
    ∧ beyond_end_knob (pointer_at 99).point range_slider = false
    ∧ before_start_knob (pointer_at 99).point range_slider = false
    ∧ knob_distance range_slider.right_knob_area (pointer_at 99).point range_slider = 60
    ∧ knob_distance range_slider.left_knob_area (pointer_at 99).point range_slider = 60
    ∧ (drag_start (pointer_at 99) range_slider).value_to_set = some value_ref_t.start_value := by
  decide

/-- Claim C13, amended: in range mode `drag_start` targets the end value when the
pointer is beyond the far edge of the end knob along the axis, else the start value
when it is before the near edge of the start knob, else the knob whose centre is
closer along the axis, and the start value when the two distances are equal. -/
theorem drag_start_range (indev : lv_indev_t) (slider : lv_slider_t)
    (hmode : slider.bar.mode = lv_slider_mode_t.RANGE) :
    (drag_start indev slider).value_to_set = some (range_target indev.point slider)
    ∧ (beyond_end_knob indev.point slider = true →
        range_target indev.point slider = value_ref_t.cur_value)
    ∧ (beyond_end_knob indev.point slider = false →
        before_start_knob indev.point slider = true →
        range_target indev.point slider = value_ref_t.start_value)
    ∧ (beyond_end_knob indev.point slider = false →
        before_start_knob indev.point slider = false →
        (knob_distance slider.right_knob_area indev.point slider
            < knob_distance slider.left_knob_area indev.point slider →
          range_target indev.point slider = value_ref_t.cur_value)
        ∧ (knob_distance slider.left_knob_area indev.point slider
            < knob_distance slider.right_knob_area indev.point slider →
          range_target indev.point slider = value_ref_t.start_value)
        ∧ (knob_distance slider.left_knob_area indev.point slider
            = knob_distance slider.right_knob_area indev.point slider →
          range_target indev.point slider = value_ref_t.start_value)) := by
  refine ⟨?_, fun h => ?_, fun h1 h2 => ?_, fun h1 h2 => ⟨fun h => ?_, fun h => ?_, fun h => ?_⟩⟩
  · unfold drag_start range_target beyond_end_knob before_start_knob knob_distance
      is_slider_horizontal
    simp only [hmode, reduceCtorEq, or_self, if_false, if_true]
    by_cases hw : slider.width ≥ slider.height
    · simp only [hw, decide_True, if_true]
      by_cases hr : slider.base_dir = lv_base_dir_t.RTL
      · simp only [hr, ne_eq, not_true_eq_false, false_and, true_and, false_or, if_true,
          decide_eq_true_eq]
        split_ifs <;> rfl
      · simp only [hr, ne_eq, not_false_eq_true, false_and, true_and, or_false, if_false,
          decide_eq_true_eq]
        split_ifs <;> rfl
    · simp only [hw, decide_False, Bool.false_eq_true, if_false, decide_eq_true_eq]
      split_ifs <;> rfl
  · unfold range_target
    rw [if_pos h]
  · unfold range_target
    rw [if_neg (by simp [h1]), if_pos h2]
  · unfold range_target
    rw [if_neg (by simp [h1]), if_neg (by simp [h2]), if_pos h]
  · unfold range_target
    rw [if_neg (by simp [h1]), if_neg (by simp [h2]), if_neg (by omega)]
  · unfold range_target
    rw [if_neg (by simp [h1]), if_neg (by simp [h2]), if_neg (by omega)]

/-- Witness for the amended claim C13, the range slider with knob centres at `x = 39`
and `x = 159`: the pointer at `x = 120` is closer to the end knob, which is
targeted. -/
theorem drag_start_range_sample :
    range_slider.bar.mode = lv_slider_mode_t.RANGE
    ∧ (drag_start (pointer_at 120) range_slider).value_to_set = some value_ref_t.cur_value :=
  ⟨rfl, (drag_start_range (pointer_at 120) range_slider rfl).1.trans (by decide)⟩

/-! ### Slider: a tap (claim C14) -/

/-- A pointer-move below the scroll limit, no drag being under way, leaves the slider as
it is. -/
theorem pressing_below_limit (m : lv_indev_t) (slider : lv_slider_t)
    (hdrag : slider.dragging = false) (hlim : below_scroll_limit slider m) :
    lv_slider_pressing m slider = some slider := by
  unfold lv_slider_pressing update_knob_pos
  by_cases g1 : m.type ≠ lv_indev_type_t.POINTER
  · rw [if_pos g1]
  rw [if_neg g1]
  by_cases g2 : m.scroll_obj = true
  · rw [if_pos g2]
  rw [if_neg g2]
  have hstop : drag_check_stops m slider true = true := by
    unfold drag_check_stops
    unfold below_scroll_limit at hlim
    simp only [hdrag, Bool.false_eq_true, not_false_eq_true, and_self, if_true,
      decide_eq_true_eq]
    exact hlim
  simp only [hstop, if_true]

theorem slider_run_append (editing : Bool) (slider : lv_slider_t)
    (l1 l2 : List (lv_event_code_t × lv_indev_t)) :
    slider_run editing slider (l1 ++ l2)
      = match slider_run editing slider l1 with
        | none => none
        | some (slider1, editing1) => slider_run editing1 slider1 l2 := by
  induction l1 generalizing editing slider with
  | nil => rfl
  | cons ev rest ih =>
    obtain ⟨code, indev⟩ := ev
    simp only [List.cons_append, slider_run]
    cases h : lv_slider_event code indev editing slider with
    | none => rfl
    | some r =>
      obtain ⟨s1, e1⟩ := r
      exact ih e1 s1

theorem slider_run_moves (editing : Bool) (slider : lv_slider_t) (moves : List lv_indev_t)
    (hdrag : slider.dragging = false)
    (hmoves : ∀ m ∈ moves, below_scroll_limit slider m) :
    slider_run editing slider (moves.map (fun m => (lv_event_code_t.PRESSING, m)))
      = some (slider, editing) := by
  induction moves with
  | nil => rfl
  | cons m rest ih =>
    simp only [List.map_cons, slider_run, lv_slider_event]
    rw [pressing_below_limit m slider hdrag (hmoves m (List.mem_cons_self m rest))]
    exact ih (fun x hx => hmoves x (List.mem_cons_of_mem m hx))

theorem drag_start_out (indev : lv_indev_t) (slider : lv_slider_t) :
    (drag_start indev slider).out = slider.out := by
  unfold drag_start
  simp only
  split_ifs <;> rfl

/-- What `knob_store` raises: an invalidation and a value-changed notification when the
clamped value differs from the one the target holds, and nothing otherwise. -/
theorem knob_store_out (slider : lv_slider_t) (is_hor : Bool) (v : Int) (r : value_ref_t)
    (hr : slider.value_to_set = some r) (s : lv_slider_t)
    (hs : knob_store slider is_hor v = some s) :
    (r = value_ref_t.cur_value →
      s.out = slider.out
        ++ (if slider.bar.cur_value ≠ LV_CLAMP slider.bar.start_value v slider.bar.max_value
            then [lv_slider_out_t.invalidate, lv_slider_out_t.value_changed] else []))
    ∧ (r = value_ref_t.start_value →
      s.out = slider.out
        ++ (if slider.bar.start_value ≠ LV_CLAMP slider.bar.min_value v slider.bar.cur_value
            then [lv_slider_out_t.invalidate, lv_slider_out_t.value_changed] else [])) := by
  unfold knob_store at hs
  cases r
  · simp only [hr, read_value, write_value, Option.some.injEq, reduceCtorEq, if_false] at hs
    refine ⟨fun _ => ?_, by simp⟩
    by_cases h : slider.bar.cur_value = LV_CLAMP slider.bar.start_value v slider.bar.max_value
    · rw [if_neg (not_not.mpr h)] at hs
      rw [if_neg (not_not.mpr h), ← Option.some.inj hs]
      simp
    · rw [if_pos h] at hs
      rw [if_pos h, ← Option.some.inj hs]
      cases is_hor <;> simp
  · simp only [hr, read_value, write_value, if_true] at hs
    refine ⟨by simp, fun _ => ?_⟩
    by_cases h : slider.bar.start_value = LV_CLAMP slider.bar.min_value v slider.bar.cur_value
    · rw [if_neg (not_not.mpr h)] at hs
      rw [if_neg (not_not.mpr h), ← Option.some.inj hs]
      simp
    · rw [if_pos h] at hs
      rw [if_pos h, ← Option.some.inj hs]
      cases is_hor <;> simp

/-- What the part of `update_knob_pos` after the early returns raises. -/
theorem update_knob_pos_tail_out (indev : lv_indev_t) (slider : lv_slider_t) (v : Int)
    (hv : knob_new_value indev.point slider (is_slider_horizontal slider) = some v)
    (s : lv_slider_t) (r : value_ref_t)
    (hs : (match knob_new_value indev.point
              (if slider.value_to_set = none then drag_start indev slider else slider)
              (is_slider_horizontal slider) with
            | none => none
            | some new_value =>
              knob_store (if slider.value_to_set = none then drag_start indev slider else slider)
                (is_slider_horizontal slider) new_value) = some s)
    (hr : (if slider.value_to_set = none then drag_start indev slider else slider).value_to_set
      = some r) :
    (r = value_ref_t.cur_value →
      s.out = slider.out
        ++ (if slider.bar.cur_value ≠ LV_CLAMP slider.bar.start_value v slider.bar.max_value
            then [lv_slider_out_t.invalidate, lv_slider_out_t.value_changed] else []))
    ∧ (r = value_ref_t.start_value →
      s.out = slider.out
        ++ (if slider.bar.start_value ≠ LV_CLAMP slider.bar.min_value v slider.bar.cur_value
            then [lv_slider_out_t.invalidate, lv_slider_out_t.value_changed] else [])) := by
  by_cases g : slider.value_to_set = none
  · simp only [if_pos g] at hs hr
    rw [drag_start_knob_new_value, hv] at hs
    have h := knob_store_out (drag_start indev slider) (is_slider_horizontal slider) v r hr s hs
    rw [drag_start_bar, drag_start_out] at h
    exact h
  · simp only [if_neg g] at hs hr
    rw [hv] at hs
    exact knob_store_out slider (is_slider_horizontal slider) v r hr s hs

/-- The end of a press: after `update_knob_pos` the branch of the release ends the drag
and requests one repaint; the bar and what was raised before are kept. -/
theorem lv_slider_released_after (up : lv_indev_t) (editing : Bool) (slider s1 : lv_slider_t)
    (h : update_knob_pos up slider false = some s1) :
    ∃ r, lv_slider_released up editing slider = some r
      ∧ r.1.bar = s1.bar
      ∧ r.1.out = s1.out ++ [lv_slider_out_t.invalidate]
      ∧ r.1.dragging = false
      ∧ r.1.value_to_set = none := by
  unfold lv_slider_released
  rw [h]
  simp only
  split_ifs <;> exact ⟨_, rfl, rfl, rfl, rfl, rfl⟩

/-- Counterexample to claim C14 as stated: the slider with range `[0, 100]` and value 0
is pressed on its knob at `x = 8`, the pointer moves one pixel and is released at
`x = 8`.  The release runs `update_knob_pos` without the drag check: the value
becomes 4 and a value-changed notification is raised. -/
theorem tap_changes_value :
    (normal_slider 0 100).dragging = false
    ∧ (normal_slider 0 100).bar.cur_value = 0
    ∧ lv_slider_hit_test (normal_slider 0 100) (pointer_at 8).point = true
    ∧ below_scroll_limit (lv_slider_pressed (pointer_at 8) (normal_slider 0 100)) (pointer_at 9)
    ∧ (slider_run false (normal_slider 0 100)
          (tap_events (pointer_at 8) [pointer_at 9] (pointer_at 8))).map
        (fun r => (r.1.bar.cur_value, r.1.out))
        = some (4, [lv_slider_out_t.invalidate, lv_slider_out_t.value_changed,
            lv_slider_out_t.invalidate]) := by
  decide

/-- Claim C14, amended: on a slider that is not being dragged, a pointer-down followed
by any number of pointer-moves whose offset from the pressed point along the axis
stays below the scroll limit of the device changes nothing but the pressed point:
the values are kept and nothing is raised.  The pointer-up that ends the tap is
`update_knob_pos` without the drag check on that state, followed by the end of the
press.  For a device that is no pointer, or a pointer that scrolls an object, it keeps
the bar and raises nothing but the repaint request of the release.  For a pointer that
scrolls no object and whose position converts to the value `v`, the knob that is the
target (the one chosen by `drag_start` when none is set) receives `v` clamped to its
limits, the other knob keeps its value, and an invalidation and a value-changed
notification are raised before the repaint request of the release exactly when the
clamped value differs from the value the knob held. -/
theorem tap_moves_keep_values (editing : Bool) (slider : lv_slider_t) (down : lv_indev_t)
    (moves : List lv_indev_t) (up : lv_indev_t)
    (hdrag : slider.dragging = false)
    (hmoves : ∀ m ∈ moves, below_scroll_limit (lv_slider_pressed down slider) m) :
    slider_run editing slider (press_events down moves)
        = some (lv_slider_pressed down slider, editing)
    ∧ (lv_slider_pressed down slider).bar = slider.bar
    ∧ (lv_slider_pressed down slider).out = slider.out
    ∧ slider_run editing slider (tap_events down moves up)
        = lv_slider_released up editing (lv_slider_pressed down slider)
    ∧ (up.type ≠ lv_indev_type_t.POINTER ∨ up.scroll_obj = true →
        ∃ r, slider_run editing slider (tap_events down moves up) = some r
          ∧ r.1.bar = slider.bar
          ∧ r.1.out = slider.out ++ [lv_slider_out_t.invalidate]
          ∧ r.1.dragging = false ∧ r.1.value_to_set = none)
    ∧ (∀ v : Int, up.type = lv_indev_type_t.POINTER → up.scroll_obj = false →
        knob_new_value up.point (lv_slider_pressed down slider)
          (is_slider_horizontal (lv_slider_pressed down slider)) = some v →
        ∃ r target, slider_run editing slider (tap_events down moves up) = some r
          ∧ (if (lv_slider_pressed down slider).value_to_set = none
              then drag_start up (lv_slider_pressed down slider)
              else lv_slider_pressed down slider).value_to_set = some target
          ∧ r.1.bar.min_value = slider.bar.min_value
          ∧ r.1.bar.max_value = slider.bar.max_value
          ∧ r.1.dragging = false ∧ r.1.value_to_set = none
          ∧ (target = value_ref_t.cur_value →
              r.1.bar.cur_value = LV_CLAMP slider.bar.start_value v slider.bar.max_value
              ∧ r.1.bar.start_value = slider.bar.start_value
              ∧ r.1.out = slider.out
                  ++ (if slider.bar.cur_value
                        ≠ LV_CLAMP slider.bar.start_value v slider.bar.max_value
                      then [lv_slider_out_t.invalidate, lv_slider_out_t.value_changed]
                      else [])
                  ++ [lv_slider_out_t.invalidate])
          ∧ (target = value_ref_t.start_value →
              r.1.bar.start_value = LV_CLAMP slider.bar.min_value v slider.bar.cur_value
              ∧ r.1.bar.cur_value = slider.bar.cur_value
              ∧ r.1.out = slider.out
                  ++ (if slider.bar.start_value
                        ≠ LV_CLAMP slider.bar.min_value v slider.bar.cur_value
                      then [lv_slider_out_t.invalidate, lv_slider_out_t.value_changed]
                      else [])
                  ++ [lv_slider_out_t.invalidate])) := by
  have hpress : slider_run editing slider (press_events down moves)
      = some (lv_slider_pressed down slider, editing) := by
    unfold press_events
    simp only [slider_run, lv_slider_event]
    exact slider_run_moves editing (lv_slider_pressed down slider) moves hdrag hmoves
  have htap : slider_run editing slider (tap_events down moves up)
      = lv_slider_released up editing (lv_slider_pressed down slider) := by
    unfold tap_events
    rw [slider_run_append, hpress]
    simp only [slider_run, lv_slider_event]
    cases lv_slider_released up editing (lv_slider_pressed down slider) with
    | none => rfl
    | some r => rfl
  refine ⟨hpress, rfl, rfl, htap, fun hup => ?_, fun v htype hscroll hv => ?_⟩
  · have hsame : update_knob_pos up (lv_slider_pressed down slider) false
        = some (lv_slider_pressed down slider) := by
      unfold update_knob_pos
      by_cases g1 : up.type ≠ lv_indev_type_t.POINTER
      · rw [if_pos g1]
      · rw [if_neg g1]
        have g2 : up.scroll_obj = true := by
          rcases hup with h | h
          · exact absurd h g1
          · exact h
        rw [if_pos g2]
    obtain ⟨r, h1, h2, h3, h4, h5⟩ :=
      lv_slider_released_after up editing (lv_slider_pressed down slider) _ hsame
    exact ⟨r, by rw [htap, h1], h2, h3, h4, h5⟩
  · have hgo : drag_check_stops up (lv_slider_pressed down slider) false = false := by
      unfold drag_check_stops
      simp
    obtain ⟨s1, target, hs, hr, hmin, hmax, hstart, hcur⟩ :=
      update_knob_pos_tail up (lv_slider_pressed down slider) v hv
    have hout := update_knob_pos_tail_out up (lv_slider_pressed down slider) v hv s1 target
      hs hr
    rw [← update_knob_pos_run up (lv_slider_pressed down slider) false htype hscroll hgo] at hs
    obtain ⟨r, h1, h2, h3, h4, h5⟩ :=
      lv_slider_released_after up editing (lv_slider_pressed down slider) s1 hs
    refine ⟨r, target, by rw [htap, h1], hr, by rw [h2]; exact hmin, by rw [h2]; exact hmax,
      h4, h5, fun ht => ?_, fun ht => ?_⟩
    · obtain ⟨c1, c2⟩ := hcur ht
      refine ⟨by rw [h2]; exact c1, by rw [h2]; exact c2, ?_⟩
      rw [h3, hout.1 ht]
      rfl
    · obtain ⟨c1, c2⟩ := hstart ht
      refine ⟨by rw [h2]; exact c1, by rw [h2]; exact c2, ?_⟩
      rw [h3, hout.2 ht]
      rfl

/-- Witness for the amended claim C14, the slider with range `[0, 100]` and value 0
pressed at `x = 8` and moved to `x = 9` and `x = 7`: the value is still 0 and nothing
has been raised before the release.  The release at `x = 8` converts to the value 4,
the target is the end value, which becomes 4, and value-changed is raised. -/
theorem tap_moves_keep_values_sample :
    (normal_slider 0 100).dragging = false
    ∧ (slider_run false (normal_slider 0 100)
          (press_events (pointer_at 8) [pointer_at 9, pointer_at 7])).map
        (fun r => (r.1.bar.cur_value, r.1.out)) = some (0, [])
    ∧ knob_new_value (pointer_at 8).point (lv_slider_pressed (pointer_at 8) (normal_slider 0 100))
        (is_slider_horizontal (lv_slider_pressed (pointer_at 8) (normal_slider 0 100)))
        = some 4
    ∧ LV_CLAMP (normal_slider 0 100).bar.start_value 4 (normal_slider 0 100).bar.max_value = 4
    ∧ ∃ r target, slider_run false (normal_slider 0 100)
          (tap_events (pointer_at 8) [pointer_at 9, pointer_at 7] (pointer_at 8)) = some r
        ∧ (if (lv_slider_pressed (pointer_at 8) (normal_slider 0 100)).value_to_set = none
            then drag_start (pointer_at 8) (lv_slider_pressed (pointer_at 8) (normal_slider 0 100))
            else lv_slider_pressed (pointer_at 8) (normal_slider 0 100)).value_to_set
            = some target
        ∧ r.1.bar.min_value = (normal_slider 0 100).bar.min_value
        ∧ r.1.bar.max_value = (normal_slider 0 100).bar.max_value
        ∧ r.1.dragging = false ∧ r.1.value_to_set = none
        ∧ (target = value_ref_t.cur_value →
            r.1.bar.cur_value
                = LV_CLAMP (normal_slider 0 100).bar.start_value 4
                    (normal_slider 0 100).bar.max_value
            ∧ r.1.bar.start_value = (normal_slider 0 100).bar.start_value
            ∧ r.1.out = (normal_slider 0 100).out
                ++ (if (normal_slider 0 100).bar.cur_value
                      ≠ LV_CLAMP (normal_slider 0 100).bar.start_value 4
                          (normal_slider 0 100).bar.max_value
                    then [lv_slider_out_t.invalidate, lv_slider_out_t.value_changed]
                    else [])
                ++ [lv_slider_out_t.invalidate])
        ∧ (target = value_ref_t.start_value →
            r.1.bar.start_value
                = LV_CLAMP (normal_slider 0 100).bar.min_value 4
                    (normal_slider 0 100).bar.cur_value
            ∧ r.1.bar.cur_value = (normal_slider 0 100).bar.cur_value
            ∧ r.1.out = (normal_slider 0 100).out
                ++ (if (normal_slider 0 100).bar.start_value
                      ≠ LV_CLAMP (normal_slider 0 100).bar.min_value 4
                          (normal_slider 0 100).bar.cur_value
                    then [lv_slider_out_t.invalidate, lv_slider_out_t.value_changed]
                    else [])
                ++ [lv_slider_out_t.invalidate]) := by
  have h := tap_moves_keep_values false (normal_slider 0 100) (pointer_at 8)
    [pointer_at 9, pointer_at 7] (pointer_at 8) rfl (by decide)
  exact ⟨rfl, by rw [h.1]; rfl, by decide, by decide,
    h.2.2.2.2.2 4 (by decide) (by decide) (by decide)⟩

/-! ### Meter: the tick pass (claims C15, C17) -/

theorem tick_body_some (ext : lv_meter_ext_t) (text : lv_ticks_ext_t) (meter : lv_meter_t)
    (scale_area : lv_area_t) (i minor_cnt : Nat)
    (h : (meter.scale.tick_cnt : Int) - 1 ≠ 0) :
    ∃ tick, tick_body ext text meter scale_area i minor_cnt
        = some (tick, (minor_cnt_step meter.scale.tick_major_nth minor_cnt).1)
      ∧ tick.major = (minor_cnt_step meter.scale.tick_major_nth minor_cnt).2 := by
  unfold tick_body
  simp only [if_neg h]
  exact ⟨_, rfl, rfl⟩

theorem tick_body_none (ext : lv_meter_ext_t) (text : lv_ticks_ext_t) (meter : lv_meter_t)
    (scale_area : lv_area_t) (i minor_cnt : Nat)
    (h : (meter.scale.tick_cnt : Int) - 1 = 0) :
    tick_body ext text meter scale_area i minor_cnt = none := by
  unfold tick_body
  simp only [if_pos h]

/-- With a non-zero divisor the loop draws all its ticks, and their flags `major` are
those of the counter. -/
theorem ticks_loop_some (ext : lv_meter_ext_t) (text : lv_ticks_ext_t) (meter : lv_meter_t)
    (scale_area : lv_area_t) (h : (meter.scale.tick_cnt : Int) - 1 ≠ 0)
    (n i minor_cnt : Nat) :
    ∃ ticks, ticks_loop ext text meter scale_area n i minor_cnt = some ticks
      ∧ ticks.length = n
      ∧ ticks.map (fun t => t.major) = tick_majors meter.scale.tick_major_nth n minor_cnt := by
  induction n generalizing i minor_cnt with
  | zero => exact ⟨[], rfl, rfl, rfl⟩
  | succ n ih =>
    obtain ⟨tick, ht, hm⟩ := tick_body_some ext text meter scale_area i minor_cnt h
    obtain ⟨ticks, hts, hlen, hmaj⟩ :=
      ih (i + 1) (minor_cnt_step meter.scale.tick_major_nth minor_cnt).1
    refine ⟨tick :: ticks, ?_, ?_, ?_⟩
    · simp only [ticks_loop, ht, hts]
    · simp [hlen]
    · simp only [List.map_cons, hm, hmaj, tick_majors]

/-- Counterexample to claim C15 as stated: with `tick_cnt = 1` the pass divides by
`tick_cnt - 1 = 0` at its first tick. -/
theorem one_tick_divides_by_zero :
    (ticks_meter 1 0).scale.tick_cnt = 1
    ∧ draw_ticks_and_labels sample_ext sample_text (ticks_meter 1 0)
        (ticks_meter 1 0).content_coords = none := by
  decide

/-- Claim C15, amended: with any `tick_cnt` other than 1 the pass evaluates no division
by zero: it returns, having drawn `tick_cnt` ticks (none for `tick_cnt = 0`; from 2 on
every division is by `tick_cnt - 1 ≥ 1`). -/
theorem ticks_no_division_by_zero (ext : lv_meter_ext_t) (text : lv_ticks_ext_t)
    (meter : lv_meter_t) (scale_area : lv_area_t) (h : meter.scale.tick_cnt ≠ 1) :
    ∃ ticks, draw_ticks_and_labels ext text meter scale_area = some ticks
      ∧ ticks.length = meter.scale.tick_cnt := by
  unfold draw_ticks_and_labels
  obtain ⟨ticks, h1, h2, _⟩ := ticks_loop_some ext text meter scale_area (by omega)
    meter.scale.tick_cnt 0 (minor_cnt_init meter.scale.tick_major_nth)
  exact ⟨ticks, h1, h2⟩

/-- Witness for the amended claim C15, the sample meter with its 6 ticks. -/
theorem ticks_no_division_by_zero_sample :
    sample_meter.scale.tick_cnt ≠ 1
    ∧ ∃ ticks, draw_ticks_and_labels sample_ext sample_text sample_meter
          sample_meter.content_coords = some ticks
        ∧ ticks.length = 6 :=
  ⟨by decide,
   ticks_no_division_by_zero sample_ext sample_text sample_meter sample_meter.content_coords
    (by decide)⟩

/-! ### Slider: a track of length zero (claim C16) -/

/-- On a horizontal slider the conversion of the pointer always has a value: the
division by `indic_w` is skipped when `indic_w` is zero. -/
theorem knob_new_value_hor_guarded (p : lv_point_t) (slider : lv_slider_t) :
    ∃ v, knob_new_value p slider true = some v := by
  unfold knob_new_value
  simp only [if_true]
  split_ifs <;> exact ⟨_, rfl⟩

/-- On a vertical slider whose padded interior has height zero the conversion of the
pointer divides by zero. -/
theorem knob_new_value_ver_unguarded (p : lv_point_t) (slider : lv_slider_t)
    (h : slider.height - slider.pad_bottom - slider.pad_top = 0) :
    knob_new_value p slider false = none := by
  unfold knob_new_value
  simp only [Bool.false_eq_true, if_false, h, if_true]

/-- Claim C16, the code at the failing input: the vertical slider of height 40 with top
and bottom padding 20 has a padded interior of height 0, and a pointer-move past the
scroll limit makes `update_knob_pos` divide by zero; the horizontal slider whose
padded interior has width 0 returns, its division being guarded by `if(indic_w)`. -/
theorem vertical_zero_track_divides_by_zero :
    is_slider_horizontal (vertical_slider 40 20) = false
    ∧ track_length (vertical_slider 40 20) = 0
    ∧ drag_check_stops (pointer_at_xy 10 10) (vertical_slider 40 20) true = false
    ∧ update_knob_pos (pointer_at_xy 10 10) (vertical_slider 40 20) true = none
    ∧ is_slider_horizontal padded_out_slider = true
    ∧ track_length padded_out_slider = 0
    ∧ (update_knob_pos (pointer_at 50) padded_out_slider true).isSome = true := by
  decide

/-- One step of the counter when every `nth` tick is major, `nth` not zero: before tick
`i` the counter is below `nth` and one less than `i` modulo `nth`; the tick is major
exactly when `nth` divides `i`, and the relation holds again before tick `i + 1`. -/
theorem minor_cnt_step_nth (nth minor_cnt i : Nat) (h32 : nth < 4294967296)
    (hlt : minor_cnt < nth) (hmod : (minor_cnt + 1) % nth = i % nth) :
    ((minor_cnt_step nth minor_cnt).2 = true ↔ i % nth = 0)
    ∧ (minor_cnt_step nth minor_cnt).1 < nth
    ∧ ((minor_cnt_step nth minor_cnt).1 + 1) % nth = (i + 1) % nth := by
  have hw : (minor_cnt + 1) % 4294967296 = minor_cnt + 1 := Nat.mod_eq_of_lt (by omega)
  have hnext : (i + 1) % nth = ((minor_cnt + 1) % nth + 1 % nth) % nth := by
    rw [hmod, ← Nat.add_mod]
  unfold minor_cnt_step
  simp only [hw]
  by_cases heq : minor_cnt + 1 = nth
  · rw [if_pos heq]
    have hi0 : i % nth = 0 := by rw [← hmod, heq, Nat.mod_self]
    refine ⟨by simp [hi0], by omega, ?_⟩
    rw [hnext, hmod, hi0]
    simp
  · rw [if_neg heq]
    have hlt2 : minor_cnt + 1 < nth := by omega
    have hi : i % nth = minor_cnt + 1 := by rw [← hmod, Nat.mod_eq_of_lt hlt2]
    refine ⟨by simp only [Bool.false_eq_true, false_iff]; omega, hlt2, ?_⟩
    rw [hnext, ← Nat.add_mod]

theorem tick_majors_nth (nth : Nat) (h32 : nth < 4294967296)
    (n i minor_cnt j : Nat) (hlt : minor_cnt < nth) (hmod : (minor_cnt + 1) % nth = i % nth)
    (hj : j < n) :
    (tick_majors nth n minor_cnt).get? j = some (decide ((i + j) % nth = 0)) := by
  induction n generalizing i minor_cnt j with
  | zero => omega
  | succ n ih =>
    obtain ⟨hmaj, hlt1, hmod1⟩ := minor_cnt_step_nth nth minor_cnt i h32 hlt hmod
    cases j with
    | zero =>
      simp only [tick_majors, List.get?_cons_zero, Nat.add_zero, Option.some.injEq]
      cases hb : (minor_cnt_step nth minor_cnt).2
      · have : ¬ i % nth = 0 := fun h => by simpa [hb] using hmaj.mpr h
        simp [this]
      · simp [hmaj.mp hb]
    | succ j =>
      simp only [tick_majors, List.get?_cons_succ]
      rw [ih (i + 1) _ j hlt1 hmod1 (by omega)]
      have : i + 1 + j = i + (j + 1) := by omega
      rw [this]

theorem tick_majors_zero (n minor_cnt j : Nat) (hpos : 0 < minor_cnt)
    (hfit : minor_cnt + n < 4294967296) (hj : j < n) :
    (tick_majors 0 n minor_cnt).get? j = some false := by
  induction n generalizing minor_cnt j with
  | zero => omega
  | succ n ih =>
    have hw : (minor_cnt + 1) % 4294967296 = minor_cnt + 1 := Nat.mod_eq_of_lt (by omega)
    have hstep : minor_cnt_step 0 minor_cnt = (minor_cnt + 1, false) := by
      unfold minor_cnt_step
      simp only [hw]
      rw [if_neg (by omega)]
    cases j with
    | zero => simp only [tick_majors, hstep, List.get?_cons_zero]
    | succ j =>
      simp only [tick_majors, hstep, List.get?_cons_succ]
      exact ih (minor_cnt + 1) j (by omega) (by omega) (by omega)

/-- The flag `major` of tick `i` as the counter of the loop yields it. -/
theorem tick_majors_get (nth cnt i : Nat) (hnth : nth < 65536) (hcnt : cnt < 65536)
    (hi : i < cnt) :
    (tick_majors nth cnt (minor_cnt_init nth)).get? i
      = some (decide (nth ≠ 0 ∧ i % nth = 0)) := by
  unfold minor_cnt_init
  by_cases h0 : nth = 0
  · subst h0
    simp only [ne_eq, not_true_eq_false, if_false, false_and, decide_False]
    exact tick_majors_zero cnt 65535 i (by omega) (by omega) hi
  · rw [if_pos h0]
    have hmod : (nth - 1 + 1) % nth = 0 % nth := by
      rw [Nat.sub_add_cancel (by omega), Nat.mod_self, Nat.zero_mod]
    rw [tick_majors_nth nth (by omega) cnt 0 (nth - 1) i (by omega) hmod hi]
    simp [h0]

/-- Claim C17: for `tick_major_nth = nth` and `tick_cnt` in the `uint16_t` range and
every tick index `i < tick_cnt`, the counter of `draw_ticks_and_labels` makes tick `i`
major exactly when `nth ≠ 0` and `i` is a multiple of `nth`; so tick 0 is major
whenever `nth ≠ 0`, and with `nth = 0` no tick is major.  When the pass returns, the
flag of its tick `i` is that value. -/
theorem tick_major_iff (ext : lv_meter_ext_t) (text : lv_ticks_ext_t) (meter : lv_meter_t)
    (scale_area : lv_area_t) (i : Nat)
    (hnth : meter.scale.tick_major_nth < 65536) (hcnt : meter.scale.tick_cnt < 65536)
    (hi : i < meter.scale.tick_cnt) :
    ((tick_majors meter.scale.tick_major_nth meter.scale.tick_cnt
        (minor_cnt_init meter.scale.tick_major_nth)).get? i = some true
      ↔ meter.scale.tick_major_nth ≠ 0 ∧ i % meter.scale.tick_major_nth = 0)
    ∧ (meter.scale.tick_major_nth ≠ 0 →
        (tick_majors meter.scale.tick_major_nth meter.scale.tick_cnt
          (minor_cnt_init meter.scale.tick_major_nth)).get? 0 = some true)
    ∧ (meter.scale.tick_major_nth = 0 →
        (tick_majors meter.scale.tick_major_nth meter.scale.tick_cnt
          (minor_cnt_init meter.scale.tick_major_nth)).get? i = some false)
    ∧ (∀ ticks, draw_ticks_and_labels ext text meter scale_area = some ticks →
        ∃ tick, ticks.get? i = some tick
          ∧ (tick.major = true
              ↔ meter.scale.tick_major_nth ≠ 0 ∧ i % meter.scale.tick_major_nth = 0)) := by
  have hget := tick_majors_get meter.scale.tick_major_nth meter.scale.tick_cnt i hnth hcnt hi
  have hget0 := tick_majors_get meter.scale.tick_major_nth meter.scale.tick_cnt 0 hnth hcnt
    (by omega)
  refine ⟨?_, fun h0 => ?_, fun h0 => ?_, fun ticks hticks => ?_⟩
  · rw [hget]
    simp
  · rw [hget0]
    simp [h0]
  · rw [hget]
    simp [h0]
  · by_cases h1 : (meter.scale.tick_cnt : Int) - 1 = 0
    · have hone : meter.scale.tick_cnt = 1 := by omega
      unfold draw_ticks_and_labels at hticks
      rw [hone] at hticks
      simp only [ticks_loop, tick_body_none ext text meter scale_area _ _ h1] at hticks
      exact absurd hticks (by simp)
    · obtain ⟨ticks1, h2, h3, h4⟩ := ticks_loop_some ext text meter scale_area h1
        meter.scale.tick_cnt 0 (minor_cnt_init meter.scale.tick_major_nth)
      unfold draw_ticks_and_labels at hticks
      rw [h2] at hticks
      have hEq : ticks1 = ticks := Option.some.inj hticks
      rw [hEq] at h4
      have hmap : (ticks.map (fun t => t.major)).get? i
          = some (decide (meter.scale.tick_major_nth ≠ 0 ∧ i % meter.scale.tick_major_nth = 0)) := by
        rw [h4, hget]
      simp only [List.get?_eq_getElem?, List.getElem?_map] at hmap ⊢
      cases hti : ticks[i]? with
      | none => rw [hti] at hmap; exact absurd hmap (by simp)
      | some tick =>
        rw [hti] at hmap
        simp only [Option.map_some', Option.some.injEq] at hmap
        refine ⟨tick, rfl, ?_⟩
        rw [hmap]
        simp

/-- Witness for claim C17, 6 ticks of which every third is major: the major ticks are
those with index 0 and 3. -/
theorem tick_major_iff_sample :
    tick_majors 3 6 (minor_cnt_init 3) = [true, false, false, true, false, false]
    ∧ ((tick_majors 3 6 (minor_cnt_init 3)).get? 3 = some true ↔ 3 ≠ 0 ∧ 3 % 3 = 0)
    ∧ ((draw_ticks_and_labels sample_ext sample_text (ticks_meter 6 3)
          (ticks_meter 6 3).content_coords).map (fun ticks => ticks.map (fun t => t.major))
        = some [true, false, false, true, false, false]) :=
  ⟨by decide,
   (tick_major_iff sample_ext sample_text (ticks_meter 6 3) (ticks_meter 6 3).content_coords 3
      (by decide) (by decide) (by decide)).1,
   by decide⟩

/-! ### Meter: rotation of a needle image (claim C18) -/

/-- Counterexample to claim C18 as stated: on the scale `[0, 270]` with rotation 135
and angle range 270 the value 225 is mapped to 360 degrees, and the needle image is
drawn with rotation 3600, which is not in `[0, 3600)`. -/
theorem rotation_3600_is_kept :
    image_meter.scale.min < image_meter.scale.max
    ∧ sample_image.type = lv_meter_indicator_type_t.NEEDLE_IMG
    ∧ map_to_angle image_meter.scale sample_image.end_value = 360
    ∧ (draw_needles_body sample_ext image_meter image_meter.content_coords sample_image).bind
        drawn_rotation = some 3600
    ∧ ¬ ((0 : Int) ≤ 3600 ∧ (3600 : Int) < 3600) := by
  decide

/-- Claim C18, amended: for a needle image the rotation handed to `lv_draw_image`, and
the rotation `inv_line` uses for the transformed bounding box, is `needle_rotation` of
the mapped angle: ten times the angle, less 3600 once when that exceeds 3600.  For a
mapped angle from 0 to 720 degrees it lies in `[0, 3600]`, differs from ten times
the angle by 0 or 3600, and is below 3600 unless the angle is 360 or 720. -/
theorem needle_image_rotation (ext : lv_meter_ext_t) (meter : lv_meter_t)
    (scale_area : lv_area_t) (indic : lv_meter_indicator_t) (value : Int)
    (ht : indic.type = lv_meter_indicator_type_t.NEEDLE_IMG) :
    (indic.type_data.needle_img.src ≠ none →
      ∃ dsc a, draw_needles_body ext meter scale_area indic
          = some (lv_needle_draw_t.image dsc a)
        ∧ dsc.rotation = needle_rotation (map_to_angle meter.scale indic.end_value))
    ∧ inv_line ext meter indic value
        = lv_obj_invalidate_area meter
            (image_inv_area ext meter indic (needle_rotation (map_to_angle meter.scale value)))
    ∧ (∀ angle : Int, 0 ≤ angle → angle ≤ 720 →
        0 ≤ needle_rotation angle ∧ needle_rotation angle ≤ 3600
        ∧ (angle * 10 - needle_rotation angle = 0 ∨ angle * 10 - needle_rotation angle = 3600)
        ∧ (angle ≠ 360 → angle ≠ 720 → needle_rotation angle < 3600)) := by
  refine ⟨fun hsrc => ?_, ?_, fun angle h0 h1 => ?_⟩
  · unfold draw_needles_body needle_rotation
    simp only [ht, reduceCtorEq, if_false, if_true, hsrc]
    exact ⟨_, _, rfl, rfl⟩
  · unfold inv_line image_inv_area needle_rotation scale_center
    simp only [ht, reduceCtorEq, if_false, if_true]
  · have hw : wrap32 (angle * 10) = angle * 10 := wrap32_of_range _ (by omega) (by omega)
    unfold needle_rotation
    rw [hw]
    split_ifs <;> omega

/-- Witness for the amended claim C18, the needle image at 225 on the scale
`[0, 270]`: the mapped angle is 360 and the rotation is 3600. -/
theorem needle_image_rotation_sample :
    sample_image.type = lv_meter_indicator_type_t.NEEDLE_IMG
    ∧ ∃ dsc a, draw_needles_body sample_ext image_meter image_meter.content_coords sample_image
          = some (lv_needle_draw_t.image dsc a)
        ∧ dsc.rotation = 3600 := by
  obtain ⟨dsc, a, h1, h2⟩ := (needle_image_rotation sample_ext image_meter
    image_meter.content_coords sample_image 225 rfl).1 (by decide)
  exact ⟨rfl, dsc, a, h1, h2.trans (by decide)⟩

/-! ### Slider: the bottom padding of a vertical slider (claim C19) -/

/-- Claim C19, the code at the failing input: the vertical slider in normal mode of
height 220 with top and bottom padding 10 has a padded interior of height 200 and
the range `[0, 100]`.  With the pointer at the bottom edge of the padded interior,
`y = coords.y2 - pad_bottom = 209`, `update_knob_pos` stores 10, not `min_value = 0`:
it takes the pointer relative to `coords.y2 + pad_bottom`.  Without padding the
bottom edge gives `min_value`. -/
theorem vertical_bottom_edge_with_padding :
    is_slider_horizontal (vertical_slider 220 10) = false
    ∧ (vertical_slider 220 10).bar.mode = lv_slider_mode_t.NORMAL
    ∧ track_length (vertical_slider 220 10) = 200
    ∧ (vertical_slider 220 10).bar.min_value = 0
    ∧ (pointer_at_xy 10 209).point.y
        = (vertical_slider 220 10).coords.y2 - (vertical_slider 220 10).pad_bottom
    ∧ knob_new_value (pointer_at_xy 10 209).point (vertical_slider 220 10) false = some 10
    ∧ (update_knob_pos (pointer_at_xy 10 209) (vertical_slider 220 10) true).map
        (fun s => s.bar.cur_value) = some 10
    ∧ (pointer_at_xy 10 199).point.y
        = (vertical_slider 200 0).coords.y2 - (vertical_slider 200 0).pad_bottom
    ∧ knob_new_value (pointer_at_xy 10 199).point (vertical_slider 200 0) false = some 0 := by
  decide

/-! ### Meter: the colour of a tick (claim C20) -/

/-- One indicator of the scan: the colour is replaced by the resolved colour when the
indicator covers the tick and kept otherwise. -/
theorem scale_lines_body_color (ext : lv_meter_ext_t) (scale : lv_meter_scale_t) (v : Int)
    (acc : lv_color_t × Int) (indic : lv_meter_indicator_t) :
    (scale_lines_body ext scale v acc indic).1
      = if tick_covered v indic then resolved_color ext scale v indic else acc.1 := by
  unfold scale_lines_body tick_covered resolved_color opa_ratio lv_color_eq
  by_cases ht : indic.type = lv_meter_indicator_type_t.SCALE_LINES
  · by_cases hc : v ≥ indic.start_value ∧ v ≤ indic.end_value
    · have hc2 : indic.start_value ≤ v ∧ v ≤ indic.end_value := hc
      simp only [ht, ne_eq, not_true_eq_false, if_false, hc, and_self, if_true, hc2,
        decide_True, decide_eq_true_eq]
      split_ifs <;> rfl
    · have hc2 : ¬ (indic.start_value ≤ v ∧ v ≤ indic.end_value) := hc
      simp only [ht, ne_eq, not_true_eq_false, if_false, hc, true_and, hc2, decide_False,
        Bool.false_eq_true]
  · simp only [ht, ne_eq, not_false_eq_true, if_true, false_and, decide_False,
      Bool.false_eq_true, if_false]

/-- The scan over a list of indicators, in scan order: the colour at the end is that
of the last indicator covering the tick, or the initial one. -/
theorem scan_color (ext : lv_meter_ext_t) (scale : lv_meter_scale_t) (v : Int)
    (acc : lv_color_t × Int) (seen : List lv_meter_indicator_t) :
    (seen.foldl (scale_lines_body ext scale v) acc).1
      = last_cover_color ext scale v acc.1 seen := by
  induction seen using List.reverseRecOn with
  | nil => rfl
  | append_singleton l x ih =>
    rw [List.foldl_append, List.foldl_cons, List.foldl_nil, scale_lines_body_color, ih]
    unfold last_cover_color
    rw [List.filter_append]
    by_cases hx : tick_covered v x = true
    · simp [hx]
    · simp [hx]

theorem opa_ratio_le (v lo hi : Int) : opa_ratio v lo hi ≤ 255 := by
  unfold opa_ratio
  omega

/-- Claim C20: the colour `draw_ticks_and_labels` gives a tick is the colour resolved
from the last indicator, in the order of the read-back of the list (the most recently
added), that is of kind scale lines and whose `[start_value, end_value]` contains the
value of the tick, whatever the indicators scanned before it; with no such indicator
it is the major or the minor tick colour of the scale.  The resolved colour is the
flat colour of the indicator when its two colours are equal, otherwise
`lv_color_mix(color_end, color_start, ratio)` with a ratio from 0 to 255 taken over
the range of the indicator (local) or of the scale (global). -/
theorem tick_gets_last_cover_color (ext : lv_meter_ext_t) (text : lv_ticks_ext_t) (meter : lv_meter_t)
    (scale_area : lv_area_t) :
    (∀ v line_color line_width,
      (scale_lines_scan ext meter v line_color line_width).1
        = last_cover_color ext meter.scale v line_color
            (_LV_LL_READ_BACK meter.indicator_ll))
    ∧ (∀ i minor_cnt tick minor_cnt1,
        tick_body ext text meter scale_area i minor_cnt = some (tick, minor_cnt1) →
        tick.line_color
          = last_cover_color ext meter.scale tick.value_of_line
              (if tick.major then meter.scale.tick_major_color else meter.scale.tick_color)
              (_LV_LL_READ_BACK meter.indicator_ll))
    ∧ (∀ v line_color earlier indic,
        tick_covered v indic = true →
        last_cover_color ext meter.scale v line_color (earlier ++ [indic])
          = resolved_color ext meter.scale v indic)
    ∧ (∀ v line_color seen,
        (∀ indic ∈ seen, tick_covered v indic = false) →
        last_cover_color ext meter.scale v line_color seen = line_color)
    ∧ (∀ v lo hi, opa_ratio v lo hi ≤ 255) := by
  refine ⟨fun v c w => ?_, fun i mc tick mc1 h => ?_, fun v c earlier indic hc => ?_,
    fun v c seen hn => ?_, opa_ratio_le⟩
  · unfold scale_lines_scan
    exact scan_color ext meter.scale v (c, w) _
  · unfold tick_body at h
    by_cases hz : (meter.scale.tick_cnt : Int) - 1 = 0
    · simp only [hz, if_true] at h
      exact absurd h (by simp)
    · simp only [hz, if_false, Option.some.injEq, Prod.mk.injEq] at h
      obtain ⟨h1, _⟩ := h
      rw [← h1]
      unfold scale_lines_scan
      exact scan_color ext meter.scale _ _ _
  · unfold last_cover_color
    rw [List.filter_append]
    simp [hc]
  · unfold last_cover_color
    have : seen.filter (tick_covered v) = [] := by
      rw [List.filter_eq_nil_iff]
      intro a ha
      simp [hn a ha]
    rw [this]
    rfl

/-- Witness for claim C20, the meter with a red-to-green gradient over `[0, 100]`
added first and flat blue lines over `[50, 100]` added last: the tick of value 60 is
covered by both and is blue, the tick of value 20 is covered by the gradient alone
and gets its mixed colour, and in the pass the six ticks are coloured accordingly. -/
theorem tick_gets_last_cover_color_sample :
    (scale_lines_scan sample_ext lines_meter 60 ⟨9, 9, 9⟩ 2).1 = ⟨0, 0, 255⟩
    ∧ (scale_lines_scan sample_ext lines_meter 20 ⟨9, 9, 9⟩ 2).1
        = sample_ext.lv_color_mix ⟨0, 255, 0⟩ ⟨255, 0, 0⟩ 51
    ∧ (draw_ticks_and_labels sample_ext sample_text lines_meter
          lines_meter.content_coords).map (fun ticks => ticks.map (fun t => t.value_of_line))
        = some [0, 20, 40, 60, 80, 100]
    ∧ (draw_ticks_and_labels sample_ext sample_text lines_meter
          lines_meter.content_coords).map (fun ticks => ticks.map (fun t => t.line_color))
        = some [⟨0, 255, 0⟩, ⟨0, 255, 0⟩, ⟨0, 255, 0⟩, ⟨0, 0, 255⟩, ⟨0, 0, 255⟩, ⟨0, 0, 255⟩] := by
  have h := (tick_gets_last_cover_color sample_ext sample_text lines_meter lines_meter.content_coords).1
  refine ⟨(h 60 ⟨9, 9, 9⟩ 2).trans (by decide), (h 20 ⟨9, 9, 9⟩ 2).trans (by decide),
    by decide, by decide⟩

/-! ### Meter: the span of the ticks (claim C21) -/

/-- The value and the angle of the tick the loop body draws do not depend on the
counter of major ticks. -/
theorem tick_body_fields (ext : lv_meter_ext_t) (text : lv_ticks_ext_t) (meter : lv_meter_t)
    (scale_area : lv_area_t) (i minor_cnt : Nat) (tick : lv_tick_draw_t) (minor_cnt1 : Nat)
    (h : tick_body ext text meter scale_area i minor_cnt = some (tick, minor_cnt1)) :
    tick.value_of_line
        = lv_map i 0 ((meter.scale.tick_cnt : Int) - 1) meter.scale.min meter.scale.max
      ∧ tick.angle_upscale = tick_angle_upscale meter.scale i := by
  unfold tick_body at h
  by_cases hz : (meter.scale.tick_cnt : Int) - 1 = 0
  · simp only [hz, if_true] at h
    exact absurd h (by simp)
  · simp only [hz, if_false, Option.some.injEq, Prod.mk.injEq] at h
    obtain ⟨h1, _⟩ := h
    rw [← h1]
    exact ⟨rfl, rfl⟩

/-- Tick `j` of the list the loop returns is the tick of index `i + j`. -/
theorem ticks_loop_get (ext : lv_meter_ext_t) (text : lv_ticks_ext_t) (meter : lv_meter_t)
    (scale_area : lv_area_t) (n : Nat) :
    ∀ (i minor_cnt : Nat) (ticks : List lv_tick_draw_t),
      ticks_loop ext text meter scale_area n i minor_cnt = some ticks →
      ∀ (j : Nat) (tick : lv_tick_draw_t), ticks[j]? = some tick →
        tick.value_of_line
            = lv_map ((i + j : Nat) : Int) 0 ((meter.scale.tick_cnt : Int) - 1)
                meter.scale.min meter.scale.max
          ∧ tick.angle_upscale = tick_angle_upscale meter.scale (i + j) := by
  induction n with
  | zero =>
    intro i mc ticks h j tick hj
    simp only [ticks_loop, Option.some.injEq] at h
    rw [← h] at hj
    exact absurd hj (by simp)
  | succ n ih =>
    intro i mc ticks h j tick hj
    simp only [ticks_loop] at h
    cases hb : tick_body ext text meter scale_area i mc with
    | none =>
      rw [hb] at h
      exact absurd h (by simp)
    | some r =>
      obtain ⟨t0, mc1⟩ := r
      rw [hb] at h
      cases hl : ticks_loop ext text meter scale_area n (i + 1) mc1 with
      | none =>
        simp only [hl] at h
        exact absurd h (by simp)
      | some rest =>
        simp only [hl, Option.some.injEq] at h
        rw [← h] at hj
        cases j with
        | zero =>
          simp only [List.getElem?_cons_zero, Option.some.injEq] at hj
          rw [← hj]
          exact tick_body_fields ext text meter scale_area i mc t0 mc1 hb
        | succ j =>
          simp only [List.getElem?_cons_succ] at hj
          have h2 := ih (i + 1) mc1 rest hl j tick hj
          have he : i + 1 + j = i + (j + 1) := by omega
          rw [he] at h2
          exact h2

/-- Without overflow the angle of tick `i` is the exact one, in tenths of a degree. -/
theorem tick_angle_upscale_exact (scale : lv_meter_scale_t) (i : Nat)
    (hcnt : 2 ≤ scale.tick_cnt) (hi : i < scale.tick_cnt)
    (hfit : ((scale.tick_cnt : Int) - 1) * scale.angle_range * 10
      + (scale.rotation : Int) * 10 < 2147483648) :
    tick_angle_upscale scale i
      = (scale.rotation : Int) * 10
        + ((i : Int) * scale.angle_range * 10) / ((scale.tick_cnt : Int) - 1) := by
  have hn : (0 : Int) < (scale.tick_cnt : Int) - 1 := by omega
  have hr : (0 : Int) ≤ (scale.angle_range : Int) := Int.ofNat_nonneg _
  have hrot : (0 : Int) ≤ (scale.rotation : Int) := Int.ofNat_nonneg _
  have hi0 : (0 : Int) ≤ (i : Int) := Int.ofNat_nonneg _
  have hile : (i : Int) ≤ (scale.tick_cnt : Int) - 1 := by omega
  have hP0 : (0 : Int) ≤ (i : Int) * scale.angle_range := Int.mul_nonneg hi0 hr
  have hPQ : (i : Int) * scale.angle_range
      ≤ ((scale.tick_cnt : Int) - 1) * scale.angle_range :=
    Int.mul_le_mul_of_nonneg_right hile hr
  generalize hP : (i : Int) * scale.angle_range = P at hP0 hPQ
  generalize hQ : ((scale.tick_cnt : Int) - 1) * scale.angle_range = Q at hfit hPQ
  have hq0 : 0 ≤ (P * 10) / ((scale.tick_cnt : Int) - 1) :=
    Int.ediv_nonneg (by omega) (by omega)
  have hq1 : (P * 10) / ((scale.tick_cnt : Int) - 1) ≤ P * 10 :=
    Int.ediv_le_self _ (by omega)
  unfold tick_angle_upscale
  simp only [hP]
  have h1 : wrapU32 P = P := by
    unfold wrapU32
    omega
  have h2 : wrapU32 (P * 10) = P * 10 := by
    unfold wrapU32
    omega
  have h3 : wrapU32 ((scale.rotation : Int) * 10) = (scale.rotation : Int) * 10 := by
    unfold wrapU32
    omega
  have h4 : cdiv (P * 10) ((scale.tick_cnt : Int) - 1)
      = (P * 10) / ((scale.tick_cnt : Int) - 1) :=
    cdiv_of_nonneg _ _ (by omega) (by omega)
  have h5 : wrap32 ((P * 10) / ((scale.tick_cnt : Int) - 1))
      = (P * 10) / ((scale.tick_cnt : Int) - 1) :=
    wrap32_of_range _ (by omega) (by omega)
  rw [h1, h2, h3, h4, h5, wrap32_of_range _ (by omega) (by omega)]
  omega

/-- The exact tick angle is non-decreasing in the index of the tick. -/
theorem exact_tick_angle_mono (scale : lv_meter_scale_t) (i j : Nat) (hij : i ≤ j)
    (hcnt : 2 ≤ scale.tick_cnt) :
    (scale.rotation : Int) * 10
        + ((i : Int) * scale.angle_range * 10) / ((scale.tick_cnt : Int) - 1)
      ≤ (scale.rotation : Int) * 10
        + ((j : Int) * scale.angle_range * 10) / ((scale.tick_cnt : Int) - 1) := by
  have hn : (0 : Int) < (scale.tick_cnt : Int) - 1 := by omega
  have hr : (0 : Int) ≤ (scale.angle_range : Int) := Int.ofNat_nonneg _
  have hle : (i : Int) * scale.angle_range ≤ (j : Int) * scale.angle_range :=
    Int.mul_le_mul_of_nonneg_right (by omega) hr
  have h10 : (i : Int) * scale.angle_range * 10 ≤ (j : Int) * scale.angle_range * 10 := by
    omega
  have := Int.ediv_le_ediv hn h10
  omega

/-- The exact angle of the last tick is `(rotation + angle_range) * 10`. -/
theorem exact_last_tick_angle (scale : lv_meter_scale_t) (hcnt : 2 ≤ scale.tick_cnt) :
    (scale.rotation : Int) * 10
        + (((scale.tick_cnt - 1 : Nat) : Int) * scale.angle_range * 10)
            / ((scale.tick_cnt : Int) - 1)
      = ((scale.rotation : Int) + scale.angle_range) * 10 := by
  have hn : ((scale.tick_cnt : Int) - 1) ≠ 0 := by omega
  have hc : ((scale.tick_cnt - 1 : Nat) : Int) = (scale.tick_cnt : Int) - 1 := by omega
  rw [hc, Int.mul_assoc, Int.mul_ediv_cancel_left _ hn]
  omega

/-- Counterexample to claim C21 as stated: with 65535 ticks over an angle range of 6554
degrees (rotation 135, values 0 to 100) the product `i * angle_range * 10` of the last
tick is `4295098360`, past `2^32`.  The last tick is drawn at 1351 tenths of a degree,
not at `(135 + 6554) * 10 = 66890`, and below tick 30000, which is drawn at 31352. -/
theorem crowded_scale_ticks_wrap :
    2 ≤ crowded_meter.scale.tick_cnt
    ∧ crowded_meter.scale.min < crowded_meter.scale.max
    ∧ ((crowded_meter.scale.rotation : Int) + crowded_meter.scale.angle_range) * 10 = 66890
    ∧ (65534 : Int) * crowded_meter.scale.angle_range * 10 = 4295098360
    ∧ tick_angle_upscale crowded_meter.scale 30000 = 31352
    ∧ tick_angle_upscale crowded_meter.scale 65534 = 1351
    ∧ ∃ ticks, draw_ticks_and_labels sample_ext sample_text crowded_meter
          crowded_meter.content_coords = some ticks
        ∧ ticks.length = 65535
        ∧ (ticks[30000]?).map (fun t => t.angle_upscale) = some 31352
        ∧ (ticks[65534]?).map (fun t => (t.value_of_line, t.angle_upscale))
            = some (100, 1351) := by
  have ha : tick_angle_upscale crowded_meter.scale 30000 = 31352 := by decide
  have hb : tick_angle_upscale crowded_meter.scale 65534 = 1351 := by decide
  have hv : lv_map ((0 + 65534 : Nat) : Int) 0 ((crowded_meter.scale.tick_cnt : Int) - 1)
      crowded_meter.scale.min crowded_meter.scale.max = 100 := by decide
  refine ⟨by decide, by decide, by decide, by decide, ha, hb, ?_⟩
  obtain ⟨ticks, h1, h2, _⟩ := ticks_loop_some sample_ext sample_text crowded_meter
    crowded_meter.content_coords (by decide) crowded_meter.scale.tick_cnt 0
    (minor_cnt_init crowded_meter.scale.tick_major_nth)
  have hlen : ticks.length = 65535 := h2
  have hget := ticks_loop_get sample_ext sample_text crowded_meter
    crowded_meter.content_coords _ _ _ ticks h1
  refine ⟨ticks, h1, hlen, ?_, ?_⟩
  · have hi : 30000 < ticks.length := by omega
    rw [List.getElem?_eq_getElem hi]
    have h3 := (hget 30000 _ (List.getElem?_eq_getElem hi)).2
    simp only [Option.map_some', Option.some.injEq]
    rw [h3]
    exact ha
  · have hi : 65534 < ticks.length := by omega
    rw [List.getElem?_eq_getElem hi]
    have h3 := hget 65534 _ (List.getElem?_eq_getElem hi)
    simp only [Option.map_some', Option.some.injEq, Prod.mk.injEq]
    rw [h3.1, h3.2]
    exact ⟨hv, hb⟩

/-- Claim C21, amended: for every scale with `tick_cnt ≥ 2` and `min < max` whose angle
arithmetic stays within 32 bits, `(tick_cnt - 1) * angle_range * 10 + rotation * 10
< 2^31`, the tick pass returns `tick_cnt` ticks that span the whole scale: tick `i` is
drawn at `rotation * 10 + (i * angle_range * 10) / (tick_cnt - 1)` tenths of a degree;
tick 0 has value `min` and angle `rotation * 10`; the last tick has value `max` and
angle exactly `(rotation + angle_range) * 10`; the angle is non-decreasing in the tick
index; and the first and the last tick sit at ten times the angles `map_to_angle`
gives for `min` and `max`. -/
theorem ticks_span_scale (ext : lv_meter_ext_t) (text : lv_ticks_ext_t) (meter : lv_meter_t)
    (scale_area : lv_area_t) (hcnt : 2 ≤ meter.scale.tick_cnt)
    (hval : meter.scale.min < meter.scale.max)
    (hfit : ((meter.scale.tick_cnt : Int) - 1) * meter.scale.angle_range * 10
      + (meter.scale.rotation : Int) * 10 < 2147483648) :
    ∃ ticks, draw_ticks_and_labels ext text meter scale_area = some ticks
      ∧ ticks.length = meter.scale.tick_cnt
      ∧ (∀ (i : Nat) (tick : lv_tick_draw_t), ticks[i]? = some tick →
          tick.angle_upscale
            = (meter.scale.rotation : Int) * 10
              + ((i : Int) * meter.scale.angle_range * 10) / ((meter.scale.tick_cnt : Int) - 1))
      ∧ (∃ first, ticks[0]? = some first
          ∧ first.value_of_line = meter.scale.min
          ∧ first.angle_upscale = (meter.scale.rotation : Int) * 10
          ∧ first.angle_upscale = map_to_angle meter.scale meter.scale.min * 10)
      ∧ (∃ last, ticks[meter.scale.tick_cnt - 1]? = some last
          ∧ last.value_of_line = meter.scale.max
          ∧ last.angle_upscale
              = ((meter.scale.rotation : Int) + meter.scale.angle_range) * 10
          ∧ last.angle_upscale = map_to_angle meter.scale meter.scale.max * 10)
      ∧ (∀ (i j : Nat) (tick_i tick_j : lv_tick_draw_t), i ≤ j → ticks[i]? = some tick_i → ticks[j]? = some tick_j →
          tick_i.angle_upscale ≤ tick_j.angle_upscale) := by
  have hn : (meter.scale.tick_cnt : Int) - 1 ≠ 0 := by omega
  have hr : (0 : Int) ≤ (meter.scale.angle_range : Int) := Int.ofNat_nonneg _
  have hrot : (0 : Int) ≤ (meter.scale.rotation : Int) := Int.ofNat_nonneg _
  have hQ : (meter.scale.angle_range : Int)
      ≤ ((meter.scale.tick_cnt : Int) - 1) * meter.scale.angle_range := by
    have := Int.mul_le_mul_of_nonneg_right
      (show (1 : Int) ≤ (meter.scale.tick_cnt : Int) - 1 by omega) hr
    omega
  obtain ⟨ticks, h1, h2, _⟩ := ticks_loop_some ext text meter scale_area hn
    meter.scale.tick_cnt 0 (minor_cnt_init meter.scale.tick_major_nth)
  have hget := ticks_loop_get ext text meter scale_area _ _ _ ticks h1
  have hangle : ∀ (i : Nat) (tick : lv_tick_draw_t), ticks[i]? = some tick →
      tick.angle_upscale
        = (meter.scale.rotation : Int) * 10
          + ((i : Int) * meter.scale.angle_range * 10)
              / ((meter.scale.tick_cnt : Int) - 1) := by
    intro i tick hi
    have hlt : i < meter.scale.tick_cnt := by
      have := (List.getElem?_eq_some_iff.mp hi).1
      omega
    have h3 := (hget i tick hi).2
    rw [Nat.zero_add] at h3
    rw [h3]
    exact tick_angle_upscale_exact meter.scale i hcnt hlt hfit
  have hmin : map_to_angle meter.scale meter.scale.min = (meter.scale.rotation : Int) := by
    unfold map_to_angle lv_map
    rw [if_neg (by omega), if_pos (le_refl _)]
    exact wrap32_of_range _ (by omega) (by omega)
  have hmax : map_to_angle meter.scale meter.scale.max
      = (meter.scale.rotation : Int) + meter.scale.angle_range := by
    unfold map_to_angle lv_map
    rw [if_pos (le_refl _)]
    exact wrap32_of_range _ (by omega) (by omega)
  refine ⟨ticks, h1, h2, hangle, ?_, ?_, ?_⟩
  · have hi : 0 < ticks.length := by omega
    refine ⟨ticks[0], List.getElem?_eq_getElem hi, ?_, ?_, ?_⟩
    · have h3 := (hget 0 _ (List.getElem?_eq_getElem hi)).1
      rw [h3]
      unfold lv_map
      rw [if_neg (by omega), if_pos (by omega)]
    · rw [hangle 0 _ (List.getElem?_eq_getElem hi)]
      simp
    · rw [hangle 0 _ (List.getElem?_eq_getElem hi), hmin]
      simp
  · have hi : meter.scale.tick_cnt - 1 < ticks.length := by omega
    refine ⟨ticks[meter.scale.tick_cnt - 1], List.getElem?_eq_getElem hi, ?_, ?_, ?_⟩
    · have h3 := (hget _ _ (List.getElem?_eq_getElem hi)).1
      rw [h3]
      unfold lv_map
      rw [if_pos (by omega)]
    · rw [hangle _ _ (List.getElem?_eq_getElem hi)]
      exact exact_last_tick_angle meter.scale hcnt
    · rw [hangle _ _ (List.getElem?_eq_getElem hi), hmax]
      exact exact_last_tick_angle meter.scale hcnt
  · intro i j ti tj hij hi hj
    rw [hangle i ti hi, hangle j tj hj]
    exact exact_tick_angle_mono meter.scale i j hij hcnt

/-- Witness for the amended claim C21, the sample meter: its 6 ticks have the values
0, 20, ..., 100 and are drawn at 1350, 1890, ..., 4050 tenths of a degree, from
`135 * 10` to `(135 + 270) * 10`. -/
theorem ticks_span_scale_sample :
    (2 ≤ sample_meter.scale.tick_cnt
      ∧ sample_meter.scale.min < sample_meter.scale.max
      ∧ ((sample_meter.scale.tick_cnt : Int) - 1) * sample_meter.scale.angle_range * 10
          + (sample_meter.scale.rotation : Int) * 10 < 2147483648)
    ∧ (draw_ticks_and_labels sample_ext sample_text sample_meter
          sample_meter.content_coords).map
        (fun ticks => ticks.map (fun t => (t.value_of_line, t.angle_upscale)))
        = some [(0, 1350), (20, 1890), (40, 2430), (60, 2970), (80, 3510), (100, 4050)]
    ∧ ∃ ticks, draw_ticks_and_labels sample_ext sample_text sample_meter
          sample_meter.content_coords = some ticks
        ∧ ticks.length = sample_meter.scale.tick_cnt
        ∧ (∀ (i : Nat) (tick : lv_tick_draw_t), ticks[i]? = some tick →
            tick.angle_upscale
              = (sample_meter.scale.rotation : Int) * 10
                + ((i : Int) * sample_meter.scale.angle_range * 10)
                    / ((sample_meter.scale.tick_cnt : Int) - 1))
        ∧ (∃ first, ticks[0]? = some first
            ∧ first.value_of_line = sample_meter.scale.min
            ∧ first.angle_upscale = (sample_meter.scale.rotation : Int) * 10
            ∧ first.angle_upscale
                = map_to_angle sample_meter.scale sample_meter.scale.min * 10)
        ∧ (∃ last, ticks[sample_meter.scale.tick_cnt - 1]? = some last
            ∧ last.value_of_line = sample_meter.scale.max
            ∧ last.angle_upscale
                = ((sample_meter.scale.rotation : Int) + sample_meter.scale.angle_range) * 10
            ∧ last.angle_upscale
                = map_to_angle sample_meter.scale sample_meter.scale.max * 10)
        ∧ (∀ (i j : Nat) (tick_i tick_j : lv_tick_draw_t), i ≤ j → ticks[i]? = some tick_i →
            ticks[j]? = some tick_j → tick_i.angle_upscale ≤ tick_j.angle_upscale) :=
  ⟨by decide, by decide,
   ticks_span_scale sample_ext sample_text sample_meter sample_meter.content_coords
     (by decide) (by decide) (by decide)⟩

end Lvgl
